import Mathlib

/-! ScreenRecorderLib: recording orchestration and frame geometry

A shallow embedding of the native recorder (`RecordingManager.cpp`, `CaptureBase.cpp`,
`ImageReader.cpp`) and proofs about its session control surface, its rectangle
arithmetic, its recorder loop and the placement of an image on the shared surface.

Conventions of the embedding:

* `HRESULT`, `LONG` and `int` values are mathematical integers; an `HRESULT` succeeds
  when it is non-negative, as the `SUCCEEDED` test of the Windows SDK says.  That a
  number is a value of `LONG` is the hypothesis `isLONG` where a theorem depends on it.
* `double` values are rationals.  The only `double` arithmetic embedded here works on
  differences of 32-bit integers and their halves, which a `double` represents exactly.
  The conversion `(int)` of a `double` is `toInt`, which leaves the range of `int` as
  the x86 conversion does, with `INT_MIN`.
* A callback member is a flag saying whether a callback is registered (non-null);
  every call the manager makes on a collaborator or on a registered callback is
  appended to the `trace` of the state.
* Collaborators whose code is outside the embedded sources (capture manager, output
  manager, texture manager, file system) answer through parameters: `Host` for the
  control surface, `CycleInput` for one iteration of the recorder loop.
* Undefined behaviour of the source that ends the function (a null pointer
  dereference, a division by zero) is the result `none`.
-/

namespace ScreenRecorderLib

/-! ## Windows SDK basics -/

/-- Result code of the Windows SDK, a signed 32-bit value. -/
abbrev HRESULT := Int

def S_OK : HRESULT := 0
def S_FALSE : HRESULT := 1
/-- Value 0x80004005 read as a signed 32-bit integer. -/
def E_FAIL : HRESULT := -2147467259
/-- Value 0x80070057 read as a signed 32-bit integer. -/
def E_INVALIDARG : HRESULT := -2147024809
/-- Value 0x8007139F, which is HRESULT_FROM_WIN32(ERROR_INVALID_STATE). -/
def E_NOT_VALID_STATE : HRESULT := -2147019873
/-- Value 0x887A0027 read as a signed 32-bit integer. -/
def DXGI_ERROR_WAIT_TIMEOUT : HRESULT := -2005270489

def SUCCEEDED (hr : HRESULT) : Bool := decide (0 ≤ hr)
def FAILED (hr : HRESULT) : Bool := decide (hr < 0)

structure RECT where
  left : Int
  top : Int
  right : Int
  bottom : Int
deriving DecidableEq, Repr

structure SIZE where
  cx : Int
  cy : Int
deriving DecidableEq, Repr

/-! ## Helpers of Util.h -/

/-- Modelled from the spec: `RectWidth` is declared in Util.h, which is not among the
sources; the width of an axis-aligned rectangle is `right - left`. -/
def RectWidth (rc : RECT) : Int := rc.right - rc.left

/-- Modelled from the spec: `RectHeight` is declared in Util.h, which is not among the
sources; the height of an axis-aligned rectangle is `bottom - top`. -/
def RectHeight (rc : RECT) : Int := rc.bottom - rc.top

/-- Modelled from the spec: `IsValidRect` is declared in Util.h, which is not among the
sources; section 4.4 step 4 only says the configured rectangle must be "valid".  Here a
rectangle is valid when it encloses at least one pixel; the theorems about
`InitializeRects` do not depend on this choice. -/
def IsValidRect (rc : RECT) : Bool := decide (rc.left < rc.right) && decide (rc.top < rc.bottom)

/-- Modelled from the spec: `MakeEven` is declared in Util.h, which is not among the
sources; section 4.4 step 4 says sizes are "rounded to even pixel dimensions".  An odd
number is rounded by dropping one. -/
def MakeEven (number : Int) : Int := if number % 2 ≠ 0 then number - 1 else number

/-- Modelled from the spec: `MakeRectEven` is declared in Util.h, which is not among the
sources; the rectangle keeps its top-left corner and its width and height are rounded
to even by moving the right and bottom edges. -/
def MakeRectEven (rect : RECT) : RECT :=
  let rect := if (rect.right - rect.left) % 2 ≠ 0 then { rect with right := rect.right - 1 } else rect
  if (rect.bottom - rect.top) % 2 ≠ 0 then { rect with bottom := rect.bottom - 1 } else rect

/-! ## CaptureBase::GetContentOffset -/

inductive ContentAnchor where
  | TopLeft
  | TopRight
  | Center
  | BottomLeft
  | BottomRight
deriving DecidableEq, Repr

/-- The C library function `round` on a `double`: the nearest integer, halfway cases
away from zero. -/
def round (x : ℚ) : ℚ :=
  if 0 ≤ x then ((⌊x + 1 / 2⌋ : Int) : ℚ) else ((⌈x - 1 / 2⌉ : Int) : ℚ)

/-- The least value of the 32-bit type `int`. -/
def INT_MIN : Int := -2147483648

/-- The greatest value of the 32-bit types `int` and `LONG`. -/
def INT_MAX : Int := 2147483647

/-- The number is a value of the 32-bit type `LONG`, the type of the components of a
`RECT` and of the results of `RectWidth` and `RectHeight`. -/
def isLONG (x : Int) : Prop := INT_MIN ≤ x ∧ x ≤ INT_MAX

instance (x : Int) : Decidable (isLONG x) := by
  unfold isLONG
  infer_instance

/-- The C conversion `(int)x` of a `double` to the 32-bit type `int`: truncation toward
zero.  When the truncated value is outside the range of `int` the conversion is
undefined in C++; the conversion instruction of the x86 processors the library is built
for then gives `INT_MIN`, and that is the value taken here. -/
def toInt (x : ℚ) : Int :=
  let truncated : Int := if 0 ≤ x then ⌊x⌋ else ⌈x⌉
  if INT_MIN ≤ truncated ∧ truncated ≤ INT_MAX then truncated else INT_MIN

/-- `CaptureBase::GetContentOffset` (CaptureBase.cpp, lines 21-55).  `max` is the
Windows macro `((a) > (b)) ? (a) : (b)`, here applied to `0` and a `double`.  The widths
and heights are values of `LONG`; their conversions to `double`, the difference, `round`
and the halving are exact in `double` for such values, so the rationals used here agree
with them.  The result of `max` is converted to the 32-bit `int` by `toInt`, which is
where a difference of `2^31` or more leaves the range. -/
def GetContentOffset (anchor : ContentAnchor) (parentRect contentRect : RECT) : SIZE :=
  match anchor with
  | .TopLeft => { cx := 0, cy := 0 }
  | .TopRight =>
    { cx := toInt (max 0 (round ((RectWidth parentRect : ℚ) - (RectWidth contentRect : ℚ)))),
      cy := 0 }
  | .Center =>
    { cx := toInt (max 0 (round ((RectWidth parentRect : ℚ) - (RectWidth contentRect : ℚ)) / 2)),
      cy := toInt (max 0 (round ((RectHeight parentRect : ℚ) - (RectHeight contentRect : ℚ)) / 2)) }
  | .BottomLeft =>
    { cx := 0,
      cy := toInt (max 0 (round ((RectHeight parentRect : ℚ) - (RectHeight contentRect : ℚ)))) }
  | .BottomRight =>
    { cx := toInt (max 0 (round ((RectWidth parentRect : ℚ) - (RectWidth contentRect : ℚ)))),
      cy := toInt (max 0 (round ((RectHeight parentRect : ℚ) - (RectHeight contentRect : ℚ)))) }

/-! ## Output options and RecordingManager::InitializeRects -/

inductive RecorderModeInternal where
  | Video
  | Slideshow
  | Screenshot
deriving DecidableEq, Repr

inductive TextureStretchMode where
  | None
  | Fill
  | Uniform
  | UniformToFill
deriving DecidableEq, Repr

/-- The part of `OUTPUT_OPTIONS` the recorder reads: the optional source rectangle, the
optional frame size, the stretch mode, the recorder mode and the preview switch. -/
structure OUTPUT_OPTIONS where
  SourceRectangle : Option RECT
  FrameSize : Option SIZE
  Stretch : TextureStretchMode
  RecorderMode : RecorderModeInternal
  IsVideoFramePreviewEnabled : Bool
deriving DecidableEq, Repr

/-- `RecordingManager::InitializeRects` (RecordingManager.cpp, lines 816-838).  The two
flags say whether the optional out-pointers are non-null; an out-value is `none` when
its pointer is null. -/
def InitializeRects (options : OUTPUT_OPTIONS) (captureFrameSize : SIZE)
    (pAdjustedSourceRect pAdjustedOutputFrameSize : Bool) : HRESULT × Option RECT × Option SIZE :=
  let adjusted : RECT × SIZE :=
    ({ left := 0, top := 0, right := MakeEven captureFrameSize.cx, bottom := MakeEven captureFrameSize.cy },
     { cx := MakeEven captureFrameSize.cx, cy := MakeEven captureFrameSize.cy })
  let adjusted : RECT × SIZE :=
    match options.SourceRectangle with
    | some sourceRect =>
      if IsValidRect sourceRect then
        (sourceRect, { cx := MakeEven (RectWidth sourceRect), cy := MakeEven (RectHeight sourceRect) })
      else adjusted
    | none => adjusted
  let adjustedSourceRect : RECT := adjusted.1
  let adjustedOutputFrameSize : SIZE := adjusted.2
  let outRect : Option RECT :=
    if pAdjustedSourceRect then some (MakeRectEven adjustedSourceRect) else none
  let outSize : Option SIZE :=
    if pAdjustedOutputFrameSize then
      let outputRect : SIZE := options.FrameSize.getD { cx := 0, cy := 0 }
      some (if 0 < outputRect.cx ∧ 0 < outputRect.cy then
          { cx := MakeEven outputRect.cx, cy := MakeEven outputRect.cy }
        else adjustedOutputFrameSize)
    else none
  (S_OK, outRect, outSize)

/-! ## Recorder state -/

inductive RecordingSourceApi where
  | DesktopDuplication
  | WindowsGraphicsCapture
deriving DecidableEq, Repr

/-- The fields of `RECORDING_SOURCE` the embedded code reads. -/
structure RECORDING_SOURCE where
  SourceApi : Option RecordingSourceApi
  IsVideoFramePreviewEnabled : Option Bool
  HasRegisteredCallbacks : Bool
  SourceRect : Option RECT
  Anchor : ContentAnchor
  Stretch : TextureStretchMode
deriving DecidableEq, Repr

/-- An overlay handed to the capture manager, known by an identity only. -/
abbrev RECORDING_OVERLAY := Nat

/-- Status values passed to the status-changed callback. -/
inductive RecorderStatus where
  | STATUS_IDLE
  | STATUS_RECORDING
  | STATUS_PAUSED
  | STATUS_FINALIZING
deriving DecidableEq, Repr

/-- A texture, known by the width and height of its `D3D11_TEXTURE2D_DESC`. -/
structure Texture where
  Width : Int
  Height : Int
deriving DecidableEq, Repr

/-- A cursor snapshot, known by an identity only. -/
abbrev PTR_INFO := Nat

/-- Result of one frame acquisition; `Frame` is `none` for a null pointer. -/
structure CAPTURED_FRAME where
  Frame : Option Texture
  PtrInfo : Option PTR_INFO
  FrameUpdateCount : Int
deriving DecidableEq, Repr

/-- What is handed to the encoder for one frame (100-nanosecond units). -/
structure FrameWriteModel where
  Frame : Option Texture
  Duration : Int
  StartPos : Int
  Audio : List Nat
deriving DecidableEq, Repr

structure SNAPSHOT_OPTIONS where
  SnapshotsDirectory : String
  ImageExtension : String
  IsSnapshotWithVideoEnabled : Bool
  SnapshotsInterval : Int
deriving DecidableEq, Repr

structure ENCODER_OPTIONS where
  VideoExtension : String
  IsHardwareEncodingEnabled : Bool
deriving DecidableEq, Repr

structure AUDIO_OPTIONS where
  AudioBitsPerSample : Int
  AudioChannels : Int
  AudioSamplesPerSecond : Int
deriving DecidableEq, Repr

/-- One observable action of the manager: a call of a registered callback or a call on
a collaborator (output manager, capture manager, mouse manager, texture manager,
graphics device, file system, task library). -/
inductive Call where
  | RecordingStatusChangedCallback (status : RecorderStatus)
  | RecordingFailedCallback (error : String) (path : String)
  | RecordingCompleteCallback (path : String) (frameDelays : List (String × Int))
  | RecordingSnapshotCreatedCallback (path : String)
  | RecordingFrameNumberChangedCallback (frameNumber : Int)
  | PauseMediaClock
  | ResumeMediaClock
  | InvalidateCaptureSources
  | create_task (stream : Bool)
  | cancel
  | create_directories (directory : String)
  | AcquireNextFrame (timeoutMillis : ℚ)
  | CopyCurrentFrame
  | ProcessOverlays
  | ProcessMousePointer
  | CropTexture (rect : RECT)
  | ResizeTexture (size : SIZE)
  | CreateTexture2D (width : Int) (height : Int)
  | CopySubresourceRegion (left : Int) (top : Int) (box : RECT)
  | CopyResource
  | WriteFrameToImage (path : String)
  | WriteFrameToStream
  | RenderFrame (model : FrameWriteModel)
  | GrabAudioFrame (duration100Nanos : Int)
  | ClearRecordedBytes
  | StopCapture
  | StartCapture (sources : List RECORDING_SOURCE) (overlays : List RECORDING_OVERLAY)
  | Wait
  | CleanDx
  | CleanupDxResources
  | InitializeDx
  | SetViewPort (width : Int) (height : Int)
  | MouseManagerInitialize
  | TextureManagerInitialize
  | OutputManagerInitialize
  | CaptureManagerReset
  | CaptureManagerInitialize
  | ResetEvent
  | SetEvent
  | wait (millis : ℚ)
deriving DecidableEq

/-- The members of `RecordingManager` the embedded code reads or writes.  A manager or
callback member is `true` when the pointer is non-null. -/
structure RecordingManager where
  m_IsRecording : Bool
  m_IsPaused : Bool
  m_IsDestructing : Bool
  m_MfStartupResult : HRESULT
  m_EncoderResult : HRESULT
  m_RestartCaptureCount : Int
  m_MaxFrameLengthMillis : ℚ
  m_OutputFullPath : String
  m_OutputFolder : String
  m_RecordingSources : List RECORDING_SOURCE
  m_OutputOptions : OUTPUT_OPTIONS
  m_SnapshotOptions : SNAPSHOT_OPTIONS
  m_EncoderOptions : ENCODER_OPTIONS
  m_AudioOptions : AUDIO_OPTIONS
  m_TextureManager : Bool
  m_OutputManager : Bool
  m_CaptureManager : Bool
  m_MouseManager : Bool
  m_RecordTaskCts_canceled : Bool
  RecordingCompleteCallback : Bool
  RecordingFailedCallback : Bool
  RecordingSnapshotCreatedCallback : Bool
  RecordingStatusChangedCallback : Bool
  RecordingFrameNumberChangedCallback : Bool
  trace : List Call

/-- Appends one action to the trace. -/
def RecordingManager.call (s : RecordingManager) (c : Call) : RecordingManager :=
  { s with trace := s.trace ++ [c] }

/-- Appends one action to the trace when the pointer it is called through is non-null:
the idiom `if (p) p->c()` and `if (callback != nullptr) callback(...)`. -/
def RecordingManager.callIf (s : RecordingManager) (p : Bool) (c : Call) : RecordingManager :=
  { s with trace := if p then s.trace ++ [c] else s.trace }

/-- What the operating system and the collaborators answer during one call of the
control surface.  Their code is outside the embedded sources, so every answer is a
parameter. -/
structure Host where
  IsWindows8OrGreater : Bool
  IsGraphicsCaptureAvailable : Bool
  PathRemoveFileSpecW : String → String
  PathFindExtension : String → String
  CurrentTimeToFormattedString : String
  exists_ : String → Bool
  create_directories : String → Bool
  ec_message : String
  parent_path : String → String
  AcquireNextFrame : HRESULT × CAPTURED_FRAME
  CopyCurrentFrame : HRESULT × CAPTURED_FRAME
  GetOutputSize : SIZE
  ProcessMousePointer : HRESULT
  CropTexture : Texture → RECT → HRESULT × Texture
  ResizeTexture : Texture → SIZE → TextureStretchMode → HRESULT × Texture × RECT
  CreateTexture2D : Int → Int → HRESULT
  WriteFrameToImage : Texture → HRESULT

/-! ## Session control surface -/

/-- `RecordingManager::ResumeRecording` (RecordingManager.cpp, lines 364-378). -/
def ResumeRecording (s : RecordingManager) : RecordingManager :=
  if s.m_IsRecording && s.m_IsPaused then
    let s := s.callIf s.m_OutputManager .ResumeMediaClock
    let s := s.callIf s.m_CaptureManager .InvalidateCaptureSources
    let s := { s with m_IsPaused := false }
    s.callIf s.RecordingStatusChangedCallback (.RecordingStatusChangedCallback .STATUS_RECORDING)
  else s

/-- `RecordingManager::PauseRecording` (RecordingManager.cpp, lines 352-363). -/
def PauseRecording (s : RecordingManager) : RecordingManager :=
  if s.m_IsRecording && !s.m_IsPaused then
    let s := { s with m_IsPaused := true }
    let s := s.callIf s.m_OutputManager .PauseMediaClock
    s.callIf s.RecordingStatusChangedCallback (.RecordingStatusChangedCallback .STATUS_PAUSED)
  else s

/-- `RecordingManager::EndRecording` (RecordingManager.cpp, lines 346-351). -/
def EndRecording (s : RecordingManager) : RecordingManager :=
  if s.m_IsRecording then
    { s with m_RecordTaskCts_canceled := true }.call .cancel
  else s

/-- The loop of `RecordingManager::CheckDependencies` over the recording sources
(RecordingManager.cpp, lines 897-910): the error text of the first source whose
capture API is not available, if any. -/
def CheckDependencies.sources (host : Host) : List RECORDING_SOURCE → Option String
  | [] => none
  | source :: rest =>
    if source.SourceApi = some .DesktopDuplication && !host.IsWindows8OrGreater then
      some "Desktop Duplication requires Windows 8 or greater."
    else if source.SourceApi = some .WindowsGraphicsCapture && !host.IsGraphicsCaptureAvailable then
      some "Windows Graphics Capture requires Windows 10 version 1903 or greater."
    else CheckDependencies.sources host rest

/-- `RecordingManager::CheckDependencies` (RecordingManager.cpp, lines 886-914): the
result and the error text. -/
def CheckDependencies (host : Host) (s : RecordingManager) : Bool × String :=
  if FAILED s.m_MfStartupResult then
    (false, "Failed to start Media Foundation.")
  else
    match CheckDependencies.sources host s.m_RecordingSources with
    | some errorText => (false, errorText)
    | none => (true, "")

/-- The call `s.substr(0, s.find_last_of(L"."))`: the text before the last dot, or the
whole text when there is no dot. -/
def substrToLastDot (s : String) : String :=
  match s.revPosOf '.' with
  | some p => s.extract 0 p
  | none => s

/-- The directory `ConfigureOutputDir` makes ready (RecordingManager.cpp, lines
137-143): in slideshow mode the path itself, closed with a backslash, otherwise the
path without its file part. -/
def ConfigureOutputDir.directory (host : Host) (recorderMode : RecorderModeInternal)
    (path : String) : String :=
  let dir := path
  let dir :=
    if recorderMode = .Slideshow then
      if dir ≠ "" ∧ dir.back ≠ '\\' then dir.push '\\' else dir
    else dir
  host.PathRemoveFileSpecW dir

/-- `RecordingManager::ConfigureOutputDir` (RecordingManager.cpp, lines 133-174). -/
def ConfigureOutputDir (host : Host) (s : RecordingManager) (path : String) :
    HRESULT × RecordingManager :=
  let s := { s with m_OutputFullPath := path }
  let recorderMode := s.m_OutputOptions.RecorderMode
  if path ≠ "" then
    let directory := ConfigureOutputDir.directory host recorderMode path
    let found := host.exists_ directory
    let s := s.callIf (!found) (.create_directories directory)
    if found || host.create_directories directory then
      let s := { s with m_OutputFolder := directory }
      if recorderMode = .Video ∨ recorderMode = .Screenshot then
        let ext :=
          if recorderMode = .Video then s.m_EncoderOptions.VideoExtension
          else s.m_SnapshotOptions.ImageExtension
        let s :=
          { s with m_OutputFullPath :=
              if host.PathFindExtension path = "" then
                s.m_OutputFolder ++ "\\" ++ host.CurrentTimeToFormattedString ++ ext
              else s.m_OutputFullPath }
        let snapshotsDirectory :=
          if s.m_SnapshotOptions.SnapshotsDirectory = "" then substrToLastDot s.m_OutputFullPath
          else s.m_SnapshotOptions.SnapshotsDirectory
        let s :=
          { s with m_SnapshotOptions :=
              { s.m_SnapshotOptions with SnapshotsDirectory := snapshotsDirectory } }
        (S_OK, s)
      else (S_OK, s)
    else
      (E_FAIL,
        s.callIf s.RecordingFailedCallback
          (.RecordingFailedCallback ("Failed to create output folder: " ++ host.ec_message) ""))
  else (S_OK, s)

/-- `RecordingManager::BeginRecording` (RecordingManager.cpp, lines 263-344).  The body
of the session task runs asynchronously; here the task is created, which the trace
records as `create_task`. -/
def BeginRecording (host : Host) (s : RecordingManager) (path : String) (stream : Bool) :
    HRESULT × RecordingManager :=
  if s.m_IsRecording then
    if s.m_IsPaused then
      (S_FALSE, ResumeRecording s)
    else
      let error := "Recording is already in progress, aborting"
      (S_FALSE, s.callIf s.RecordingFailedCallback (.RecordingFailedCallback error ""))
  else
    let (ok, errorText) := CheckDependencies host s
    if !ok then
      (S_FALSE, s.callIf s.RecordingFailedCallback (.RecordingFailedCallback errorText ""))
    else
      let s := { s with m_EncoderResult := S_FALSE }
      let (hr, s) := ConfigureOutputDir host s path
      if FAILED hr then (hr, s)
      else if s.m_RecordingSources.length = 0 then
        let error := "No valid recording sources found in recorder parameters."
        (S_FALSE, s.callIf s.RecordingFailedCallback (.RecordingFailedCallback error ""))
      else
        let s := { s with m_IsRecording := true, m_RecordTaskCts_canceled := false }
        (S_OK, s.call (.create_task stream))

/-! ## Texture processing and snapshots

A null pointer dereference is undefined behaviour in the source; the functions below
return `none` for it. -/

/-- The resize step of `RecordingManager::ProcessTextureTransforms`
(RecordingManager.cpp, lines 853-883), entered with the result code and the texture the
crop step left. -/
def ProcessTextureTransforms.resize (host : Host) (s : RecordingManager) (hr : HRESULT)
    (pProcessedTexture : Texture) (videoInputFrameRect : RECT) (videoOutputFrameSize : SIZE) :
    Option (HRESULT × Option Texture × RecordingManager) :=
  if RectWidth videoInputFrameRect ≠ videoOutputFrameSize.cx
      ∨ RectHeight videoInputFrameRect ≠ videoOutputFrameSize.cy then
    if !s.m_TextureManager then none
    else
      let s := s.call (.ResizeTexture videoOutputFrameSize)
      let (hr, _, contentRect) :=
        host.ResizeTexture pProcessedTexture videoOutputFrameSize s.m_OutputOptions.Stretch
      if FAILED hr then some (hr, none, s)
      else
        let s := s.call (.CreateTexture2D videoOutputFrameSize.cx videoOutputFrameSize.cy)
        let hr := host.CreateTexture2D videoOutputFrameSize.cx videoOutputFrameSize.cy
        if FAILED hr then some (hr, none, s)
        else
          let leftMargin :=
            toInt (max 0 (round ((videoOutputFrameSize.cx : ℚ) - (RectWidth contentRect : ℚ)) / 2))
          let topMargin :=
            toInt (max 0 (round ((videoOutputFrameSize.cy : ℚ) - (RectHeight contentRect : ℚ)) / 2))
          let box : RECT :=
            { left := 0, top := 0, right := RectWidth contentRect, bottom := RectHeight contentRect }
          let s := s.call (.CopySubresourceRegion leftMargin topMargin box)
          some (hr, some { Width := videoOutputFrameSize.cx, Height := videoOutputFrameSize.cy }, s)
  else some (hr, some pProcessedTexture, s)

/-- `RecordingManager::ProcessTextureTransforms` (RecordingManager.cpp, lines 840-884).
The processed texture is `none` when the function returns early on a failure. -/
def ProcessTextureTransforms (host : Host) (s : RecordingManager) (pTexture : Texture)
    (videoInputFrameRect : RECT) (videoOutputFrameSize : SIZE) :
    Option (HRESULT × Option Texture × RecordingManager) :=
  if RectWidth videoInputFrameRect < pTexture.Width
      ∨ RectHeight videoInputFrameRect < pTexture.Height then
    if !s.m_TextureManager then none
    else
      let s := s.call (.CropTexture videoInputFrameRect)
      let (hr, pCroppedFrameCopy) := host.CropTexture pTexture videoInputFrameRect
      if FAILED hr then some (hr, none, s)
      else
        ProcessTextureTransforms.resize host s hr pCroppedFrameCopy videoInputFrameRect
          videoOutputFrameSize
  else
    ProcessTextureTransforms.resize host s S_FALSE pTexture videoInputFrameRect videoOutputFrameSize

/-- `RecordingManager::ProcessTexture` (RecordingManager.cpp, lines 983-1007).  The
result code of `ProcessMousePointer` is only logged; `hr` is assigned again by the
next statement. -/
def ProcessTexture (host : Host) (s : RecordingManager) (pTexture : Option Texture)
    (pPtrInfo : Option PTR_INFO) : Option (HRESULT × Option Texture × RecordingManager) :=
  if !s.m_CaptureManager then none
  else
    let s := s.call .ProcessOverlays
    if pPtrInfo.isSome && !s.m_MouseManager then none
    else
      let s := s.callIf pPtrInfo.isSome .ProcessMousePointer
      let _hr : HRESULT := if pPtrInfo.isSome then host.ProcessMousePointer else E_FAIL
      match InitializeRects s.m_OutputOptions host.GetOutputSize true true, pTexture with
      | (hr, some videoInputFrameRect, some videoOutputFrameSize), some texture =>
        if FAILED hr then some (hr, none, s)
        else
          match ProcessTextureTransforms host s texture videoInputFrameRect videoOutputFrameSize with
          | some (hr, processedTexture, s) =>
            if FAILED hr then some (hr, none, s) else some (hr, processedTexture, s)
          | none => none
      | _, _ => none

/-- `RecordingManager::SaveTextureAsVideoSnapshot` (RecordingManager.cpp, lines 943-981),
both overloads: `path` is `some` for the file overload and `none` for the stream one. -/
def SaveTextureAsVideoSnapshot (host : Host) (s : RecordingManager) (pTexture : Option Texture)
    (path : Option String) (destRect : RECT) : Option (HRESULT × RecordingManager) :=
  let write (processed : Texture) (s : RecordingManager) : Option (HRESULT × RecordingManager) :=
    if !s.m_OutputManager then none
    else
      match path with
      | some snapshotPath => some (host.WriteFrameToImage processed, s.call (.WriteFrameToImage snapshotPath))
      | none => some (host.WriteFrameToImage processed, s.call .WriteFrameToStream)
  match pTexture with
  | none => none
  | some frame =>
    if frame.Width > RectWidth destRect ∨ frame.Height > RectHeight destRect then
      if !s.m_TextureManager then none
      else
        let s := s.call (.CropTexture destRect)
        let (hr, pProcessedTexture) := host.CropTexture frame destRect
        if FAILED hr then some (hr, s) else write pProcessedTexture s
    else
      let s := s.call (.CreateTexture2D frame.Width frame.Height)
      let hr := host.CreateTexture2D frame.Width frame.Height
      if FAILED hr then some (hr, s) else write frame (s.call .CopyResource)

/-- The part of `RecordingManager::TakeSnapshot` after the frame has been obtained
(RecordingManager.cpp, lines 217-252). -/
def TakeSnapshot.write (host : Host) (s : RecordingManager) (path : String) (stream : Bool)
    (processedTexture : Option Texture) : Option (HRESULT × RecordingManager) :=
  if !s.m_CaptureManager then none
  else
    match InitializeRects s.m_OutputOptions host.GetOutputSize true false with
    | (hr, some videoInputFrameRect, _) =>
      if FAILED hr then some (hr, s)
      else if path ≠ "" then
        let directory := host.parent_path path
        let found := host.exists_ directory
        let s := s.callIf (!found) (.create_directories directory)
        if !found && !host.create_directories directory then some (E_FAIL, s)
        else
          match SaveTextureAsVideoSnapshot host s processedTexture (some path) videoInputFrameRect with
          | some (hr, s) =>
            if FAILED hr then some (hr, s)
            else
              some (hr, s.callIf s.RecordingSnapshotCreatedCallback
                (.RecordingSnapshotCreatedCallback path))
          | none => none
      else if stream then
        match SaveTextureAsVideoSnapshot host s processedTexture none videoInputFrameRect with
        | some (hr, s) =>
          if FAILED hr then some (hr, s)
          else
            some (hr, s.callIf s.RecordingSnapshotCreatedCallback
              (.RecordingSnapshotCreatedCallback ""))
        | none => none
      else some (E_INVALIDARG, s)
    | _ => none

/-- `RecordingManager::TakeSnapshot(path, stream, pTexture)` (RecordingManager.cpp,
lines 192-253).  `stream` says whether a stream is given, `pTexture` is `none` for a
null texture. -/
def TakeSnapshot (host : Host) (s : RecordingManager) (path : String) (stream : Bool)
    (pTexture : Option Texture) : Option (HRESULT × RecordingManager) :=
  if !s.m_IsRecording then some (E_NOT_VALID_STATE, s)
  else
    match pTexture with
    | none =>
      if !s.m_CaptureManager then none
      else
        let (hr, capturedFrame) :=
          if s.m_IsPaused then host.AcquireNextFrame else host.CopyCurrentFrame
        let s := s.call (if s.m_IsPaused then .AcquireNextFrame 0 else .CopyCurrentFrame)
        if s.m_IsPaused && SUCCEEDED hr && capturedFrame.Frame.isNone then none
        else if FAILED hr then some (hr, s)
        else
          match ProcessTexture host s capturedFrame.Frame capturedFrame.PtrInfo with
          | some (_, processedTexture, s) => TakeSnapshot.write host s path stream processedTexture
          | none => none
    | some texture => TakeSnapshot.write host s path stream (some texture)

/-- `RecordingManager::TakeSnapshot(path)` (RecordingManager.cpp, lines 176-185). -/
def TakeSnapshot.ofPath (host : Host) (s : RecordingManager) (path : String) :
    Option (HRESULT × RecordingManager) :=
  let path :=
    if path = "" then
      if s.m_SnapshotOptions.SnapshotsDirectory ≠ "" then
        s.m_SnapshotOptions.SnapshotsDirectory ++ "\\" ++ host.CurrentTimeToFormattedString
          ++ s.m_SnapshotOptions.ImageExtension
      else path
    else path
  TakeSnapshot host s path false none

/-- `RecordingManager::TakeSnapshot(stream)` (RecordingManager.cpp, lines 187-190). -/
def TakeSnapshot.ofStream (host : Host) (s : RecordingManager) :
    Option (HRESULT × RecordingManager) :=
  TakeSnapshot host s "" true none

/-- The calls made on the way from state `s` to state `t`: what `t` has appended to the
trace of `s`. -/
def newCalls (s t : RecordingManager) : List Call := t.trace.drop s.trace.length

/-! ## The recorder loop -/

/-- Modelled from the spec: `REC_RESULT` is declared in CommonTypes.h, which is not
among the sources; the code reads its recording result, finalize result and error text. -/
structure REC_RESULT where
  RecordingResult : HRESULT
  FinalizeResult : HRESULT
  Error : String
deriving DecidableEq, Repr

/-- Modelled from the spec: `CAPTURE_RESULT` is declared in CommonTypes.h, which is not
among the sources; section 3 describes it as the outcome of a capture source with a
recoverability flag, a permitted-retry count and a device-level flag. -/
structure CAPTURE_RESULT extends REC_RESULT where
  IsRecoverableError : Bool
  IsDeviceError : Bool
  NumberOfRetries : Int
deriving DecidableEq, Repr

/-- The result object built from a result code and an error text, as in
`return CAPTURE_RESULT(hr, L"...")` and in `return hr` from a function returning
`REC_RESULT`. -/
def REC_RESULT.ofHRESULT (hr : HRESULT) (error : String) : REC_RESULT :=
  { RecordingResult := hr, FinalizeResult := S_FALSE, Error := error }

/-- The parameters `sources` and `overlays` of `StartRecorderLoop` and its locals that
live across iterations, next to the manager. -/
structure RecorderLoop where
  mgr : RecordingManager
  sources : List RECORDING_SOURCE
  overlays : List RECORDING_OVERLAY
  hr : HRESULT
  frameNr : Int
  lastFrameStartPos100Nanos : Int
  totalDiff : Int
  pPtrInfo : Option PTR_INFO
  ErrorEvent : Bool
  previousSnapshotTaken : Option Int
  videoInputFrameRect : RECT
  videoOutputFrameSize : SIZE
  videoFrameDurationMillis : ℚ
  videoFrameDuration100Nanos : Int

/-- The locals of `StartRecorderLoop` when the loop is entered (RecordingManager.cpp,
lines 456-514): no error yet, frame number, last start position and accumulated audio
difference zero, no cursor, error event not signalled, no snapshot taken. -/
def RecorderLoop.initial (mgr : RecordingManager) (sources : List RECORDING_SOURCE)
    (overlays : List RECORDING_OVERLAY) (videoInputFrameRect : RECT)
    (videoOutputFrameSize : SIZE) (videoFrameDurationMillis : ℚ)
    (videoFrameDuration100Nanos : Int) : RecorderLoop :=
  { mgr := mgr
    sources := sources
    overlays := overlays
    hr := S_OK
    frameNr := 0
    lastFrameStartPos100Nanos := 0
    totalDiff := 0
    pPtrInfo := none
    ErrorEvent := false
    previousSnapshotTaken := none
    videoInputFrameRect := videoInputFrameRect
    videoOutputFrameSize := videoOutputFrameSize
    videoFrameDurationMillis := videoFrameDurationMillis
    videoFrameDuration100Nanos := videoFrameDuration100Nanos }

/-- What the collaborators answer to the calls `RestartCapture` makes. -/
structure RestartAnswers where
  StopCapture : HRESULT
  InitializeDx : HRESULT
  MouseManagerInitialize : HRESULT
  TextureManagerInitialize : HRESULT
  OutputManagerInitialize : HRESULT
  CaptureManagerInitialize : HRESULT
  StartCapture : HRESULT
  GetOutputSize : SIZE

/-- What the environment answers during one iteration of the recorder loop: the
cancellation token at its two checks, the error event, the per-source capture results,
the classification of a result code, the media clock, the frame acquisition, the
audio grabbed and the encoder. -/
structure CycleInput where
  is_canceled_top : Bool
  ErrorEventSignalled : Bool
  captureResults : List CAPTURE_RESULT
  ProcessCaptureHRESULT : HRESULT → CAPTURE_RESULT
  restart : RestartAnswers
  isMediaClockRunning : Bool
  now : Int
  timestampBeforeAcquire : Int
  AcquireNextFrame : HRESULT × CAPTURED_FRAME
  GetMediaTimeStamp : HRESULT × Int
  is_canceled_afterAcquire : Bool
  host : Host
  GrabAudioFrame : List Nat
  RenderFrame : HRESULT

/-- The return statement through which an iteration leaves `StartRecorderLoop`. -/
inductive LoopExit where
  | Cancelled
  | AllSourcesFailed
  | RetryCountExceeded
  | FatalErrorWhileReinitializing
  | AcquireNextFrameFailed
  | GetMediaTimeStampFailed
  | RenderFrameFailed
  | ScreenshotTaken
deriving DecidableEq, Repr

/-- How one iteration of the loop ends: with the next iteration, with a return from
the function, or in undefined behaviour (a null pointer dereference or a division by
zero). -/
inductive CycleOutcome where
  | next (st : RecorderLoop)
  | exit (point : LoopExit) (result : REC_RESULT) (st : RecorderLoop)
  | undefined

/-- The return statement an iteration left the function through, if it did. -/
def CycleOutcome.exitPoint : CycleOutcome → Option LoopExit
  | .next _ => none
  | .exit point _ _ => some point
  | .undefined => none

/-- The loop state an iteration ends in: the state the next iteration starts from or the
state at the return; `none` for undefined behaviour. -/
def CycleOutcome.state? : CycleOutcome → Option RecorderLoop
  | .next st => some st
  | .exit _ _ st => some st
  | .undefined => none

/-- Modelled from the spec: `HundredNanosToMillisDouble` is declared in Util.h, which is
not among the sources; one millisecond is ten thousand 100-nanosecond units. -/
def HundredNanosToMillisDouble (hundredNanos : Int) : ℚ := (hundredNanos : ℚ) / 10000

/-- The lambda `IsAnySourcePreviewsActive` (RecordingManager.cpp, lines 516-525). -/
def IsAnySourcePreviewsActive (s : RecordingManager) : Bool :=
  s.m_RecordingSources.any
    (fun source => source.IsVideoFramePreviewEnabled.getD false && source.HasRegisteredCallbacks)

/-- The lambda `GetTimeUntilNextFrameMillis` (RecordingManager.cpp, lines 527-533). -/
def GetTimeUntilNextFrameMillis (st : RecorderLoop) (timestamp : Int) : ℚ :=
  let durationSinceLastFrame100Nanos := timestamp - st.lastFrameStartPos100Nanos
  let nanosRemaining := max 0 (st.videoFrameDuration100Nanos - durationSinceLastFrame100Nanos)
  HundredNanosToMillisDouble nanosRemaining

/-- The lambda `IsTimeToTakeSnapshot` (RecordingManager.cpp, lines 535-540);
`previousSnapshotTaken` is `none` for `time_point::min()`. -/
def IsTimeToTakeSnapshot (st : RecorderLoop) (now : Int) : Bool :=
  match st.previousSnapshotTaken with
  | none => true
  | some previous => decide (now - previous > st.mgr.m_SnapshotOptions.SnapshotsInterval)

/-- The duration the grabbed audio implies and the difference to the nominal duration
(RecordingManager.cpp, lines 560-566): `none` for a division by zero.  The byte count
is unsigned, so the signed divisor is converted to an unsigned 64-bit value. -/
def audioDiff (options : AUDIO_OPTIONS) (audioBytes : List Nat) (duration100Nanos : Int) :
    Option Int :=
  if audioBytes.length > 0 then
    let bytesPerFrame := (Int.tdiv options.AudioBitsPerSample 8 * options.AudioChannels) % 2 ^ 64
    if bytesPerFrame = 0 ∨ options.AudioSamplesPerSecond = 0 then none
    else
      let frameCount : Int := (audioBytes.length : Int) / bytesPerFrame
      let newDuration := Int.tdiv (frameCount * 10 * 1000 * 1000) options.AudioSamplesPerSecond
      some (newDuration - duration100Nanos)
  else some 0

/-- The lambda `PrepareAndRenderFrame` (RecordingManager.cpp, lines 542-581).  The
body of `SendNewFrameCallback`, which builds the preview bitmap, is not embedded: its
call is recorded as the frame-number callback. -/
def PrepareAndRenderFrame (inp : CycleInput) (st : RecorderLoop)
    (pTextureToRender : Option Texture) (duration100Nanos : Int) :
    Option (HRESULT × RecorderLoop) :=
  match ProcessTexture inp.host st.mgr pTextureToRender st.pPtrInfo with
  | none => none
  | some (renderHr, processedTexture, mgr) =>
    let pTextureToRender := if renderHr = S_OK then processedTexture else pTextureToRender
    let st := { st with mgr := mgr }
    let takeSnapshot : Bool :=
      decide (st.mgr.m_OutputOptions.RecorderMode = .Video)
        && st.mgr.m_SnapshotOptions.IsSnapshotWithVideoEnabled && IsTimeToTakeSnapshot st inp.now
    if takeSnapshot && decide (st.mgr.m_SnapshotOptions.SnapshotsDirectory = "") then
      some (S_FALSE, st)
    else
      let snapshotPath :=
        st.mgr.m_SnapshotOptions.SnapshotsDirectory ++ "\\" ++ inp.host.CurrentTimeToFormattedString
          ++ st.mgr.m_SnapshotOptions.ImageExtension
      let afterSnapshot : Option RecorderLoop :=
        if takeSnapshot then
          match TakeSnapshot inp.host st.mgr snapshotPath false pTextureToRender with
          | some (_, mgr) => some { st with mgr := mgr, previousSnapshotTaken := some inp.now }
          | none => none
        else some st
      match afterSnapshot with
      | none => none
      | some st =>
        let audioBytes := inp.GrabAudioFrame
        let st := { st with mgr := st.mgr.call (.GrabAudioFrame duration100Nanos) }
        match audioDiff st.mgr.m_AudioOptions audioBytes duration100Nanos with
        | none => none
        | some diff =>
          let model : FrameWriteModel :=
            { Frame := pTextureToRender
              Duration := duration100Nanos + diff
              StartPos := st.lastFrameStartPos100Nanos + st.totalDiff
              Audio := audioBytes }
          let renderHr := inp.RenderFrame
          let st :=
            { st with mgr := { st.mgr.call (.RenderFrame model) with m_EncoderResult := renderHr } }
          if FAILED renderHr then some (renderHr, st)
          else
            let frameNr := st.frameNr + 1
            let mgr :=
              st.mgr.callIf (st.mgr.RecordingFrameNumberChangedCallback && !st.mgr.m_IsDestructing)
                (.RecordingFrameNumberChangedCallback frameNr)
            some (renderHr,
              { st with
                mgr := mgr
                frameNr := frameNr
                totalDiff := st.totalDiff + diff
                lastFrameStartPos100Nanos := st.lastFrameStartPos100Nanos + duration100Nanos })

/-- The lambda `RestartCapture` (RecordingManager.cpp, lines 583-639).  The managers
exist while the loop runs; the task body creates them before it enters the loop. -/
def RestartCapture (a : RestartAnswers) (st : RecorderLoop) (result : CAPTURE_RESULT) :
    RecorderLoop :=
  let hr0 := a.StopCapture
  let recreate : Bool := SUCCEEDED hr0 && result.IsDeviceError
  let hr1 := if recreate then a.InitializeDx else hr0
  let mouse : Bool := recreate && SUCCEEDED hr1
  let hr2 := if mouse then a.MouseManagerInitialize else hr1
  let texture : Bool := recreate && SUCCEEDED hr2
  let hr3 := if texture then a.TextureManagerInitialize else hr2
  let output : Bool := recreate && SUCCEEDED hr3
  let hr4 := if output then a.OutputManagerInitialize else hr3
  let capture : Bool := SUCCEEDED hr4
  let hr5 := if capture then a.CaptureManagerInitialize else hr4
  let start : Bool := SUCCEEDED hr5
  let hr6 := if start then a.StartCapture else hr5
  let rects : Bool := SUCCEEDED hr6
  let initialized := InitializeRects st.mgr.m_OutputOptions a.GetOutputSize true false
  let hr7 := if rects then initialized.1 else hr6
  let calls : List Call :=
    [Call.StopCapture, Call.Wait]
    ++ (if recreate then
          [Call.CleanDx, Call.InitializeDx,
            Call.SetViewPort st.videoOutputFrameSize.cx st.videoOutputFrameSize.cy]
        else [])
    ++ (if mouse then [Call.MouseManagerInitialize] else [])
    ++ (if texture then [Call.TextureManagerInitialize] else [])
    ++ (if output then [Call.OutputManagerInitialize] else [])
    ++ (if capture then [Call.CaptureManagerReset, Call.CaptureManagerInitialize] else [])
    ++ (if start then [Call.ResetEvent, Call.StartCapture st.sources st.overlays] else [])
  { st with
    mgr :=
      { st.mgr with
        m_RestartCaptureCount :=
          if start && decide (result.NumberOfRetries > 0) then st.mgr.m_RestartCaptureCount + 1
          else st.mgr.m_RestartCaptureCount
        trace := st.mgr.trace ++ calls }
    hr := hr7
    ErrorEvent := if start then false else st.ErrorEvent
    videoInputFrameRect :=
      if rects then initialized.2.1.getD st.videoInputFrameRect else st.videoInputFrameRect
    pPtrInfo := none }

/-- The rule of lines 651-657: every capture source has failed and none of the failures
is recoverable. -/
def allSourcesFailedUnrecoverably (captureData : List CAPTURE_RESULT) : Bool :=
  decide (captureData.length > 0)
    && captureData.all (fun obj => FAILED obj.RecordingResult && !obj.IsRecoverableError)

/-- How the error block of the loop ends (RecordingManager.cpp, lines 649-690). -/
inductive ErrorBlockOutcome where
  | proceed (st : RecorderLoop)
  | continue_ (st : RecorderLoop)
  | exit (point : LoopExit) (result : REC_RESULT) (st : RecorderLoop)

/-- The return statement the error block left the function through, if it did. -/
def ErrorBlockOutcome.exitPoint : ErrorBlockOutcome → Option LoopExit
  | .proceed _ => none
  | .continue_ _ => none
  | .exit point _ _ => some point

/-- The retry budget test and restart of lines 667-670 and 676-679, followed by the
test of line 686: when the permitted retries are used up,
`RETURN_RESULT_ON_BAD_HR(code, ...)` ends the session for a failing `code`; otherwise
capture is restarted, and a failed restart sets the error event again and continues
with the next iteration. -/
def restartOrExit (inp : CycleInput) (st : RecorderLoop) (captureResult : CAPTURE_RESULT)
    (code : HRESULT) : ErrorBlockOutcome :=
  if (captureResult.NumberOfRetries ≥ 0
      ∧ st.mgr.m_RestartCaptureCount ≥ captureResult.NumberOfRetries) ∧ FAILED code then
    .exit .RetryCountExceeded (REC_RESULT.ofHRESULT code "Retry count was exceeded, exiting") st
  else
    let st := RestartCapture inp.restart st captureResult
    if FAILED st.hr then
      .continue_ { st with ErrorEvent := true, mgr := st.mgr.call .SetEvent }
    else .proceed st

/-- The error block of the loop (RecordingManager.cpp, lines 649-690), entered with the
error event already tested. -/
def handleErrorEvent (inp : CycleInput) (st : RecorderLoop) : ErrorBlockOutcome :=
  if allSourcesFailedUnrecoverably inp.captureResults then
    match inp.captureResults with
    | first :: _ => .exit .AllSourcesFailed (REC_RESULT.ofHRESULT first.RecordingResult "") st
    | [] => .proceed st
  else
    match inp.captureResults.find? (fun obj => FAILED obj.RecordingResult && obj.IsRecoverableError) with
    | some captureResult => restartOrExit inp st captureResult captureResult.RecordingResult
    | none =>
      if FAILED st.hr then
        let captureResult := inp.ProcessCaptureHRESULT st.hr
        if captureResult.IsRecoverableError then restartOrExit inp st captureResult st.hr
        else .exit .FatalErrorWhileReinitializing captureResult.toREC_RESULT st
      else .proceed st

/-- The part of an iteration after the error block (RecordingManager.cpp, lines
691-745). -/
def recordFrame (inp : CycleInput) (st : RecorderLoop) : CycleOutcome :=
  let paused := st.mgr.m_IsPaused
  let pauseCalls : List Call :=
    if paused then
      (if inp.isMediaClockRunning then [Call.PauseMediaClock] else [])
      ++ (if IsAnySourcePreviewsActive st.mgr then [] else [Call.wait 10])
      ++ [Call.ClearRecordedBytes]
    else []
  let st :=
    { st with
      mgr := { st.mgr with trace := st.mgr.trace ++ pauseCalls }
      previousSnapshotTaken := if paused then some inp.now else st.previousSnapshotTaken }
  if paused && !IsAnySourcePreviewsActive st.mgr then .next st
  else
    let timeout := GetTimeUntilNextFrameMillis st inp.timestampBeforeAcquire
    let capturedFrame := inp.AcquireNextFrame.2
    let st := { st with hr := inp.AcquireNextFrame.1, mgr := st.mgr.call (.AcquireNextFrame timeout) }
    if paused then
      .next { st with mgr := st.mgr.call (.wait st.videoFrameDurationMillis) }
    else if FAILED st.hr ∧ st.hr ≠ DXGI_ERROR_WAIT_TIMEOUT then
      .exit .AcquireNextFrameFailed (REC_RESULT.ofHRESULT st.hr "") st
    else
      let st :=
        { st with
          mgr :=
            { st.mgr with
              m_RestartCaptureCount :=
                if SUCCEEDED st.hr && decide (capturedFrame.FrameUpdateCount > 0) then 0
                else st.mgr.m_RestartCaptureCount }
          pPtrInfo :=
            if SUCCEEDED st.hr && capturedFrame.PtrInfo.isSome then capturedFrame.PtrInfo
            else st.pPtrInfo }
      if FAILED inp.GetMediaTimeStamp.1 then
        .exit .GetMediaTimeStampFailed (REC_RESULT.ofHRESULT inp.GetMediaTimeStamp.1 "") st
      else
        let durationSinceLastFrame100Nanos := inp.GetMediaTimeStamp.2 - st.lastFrameStartPos100Nanos
        if inp.is_canceled_afterAcquire then
          .exit .Cancelled (REC_RESULT.ofHRESULT S_OK "") { st with hr := S_OK }
        else
          let st :=
            { st with
              mgr :=
                st.mgr.callIf (decide (st.frameNr = 0) && st.mgr.RecordingStatusChangedCallback)
                  (.RecordingStatusChangedCallback .STATUS_RECORDING) }
          match PrepareAndRenderFrame inp st capturedFrame.Frame durationSinceLastFrame100Nanos with
          | none => .undefined
          | some (hr, st) =>
            let st := { st with hr := hr }
            if FAILED hr then
              .exit .RenderFrameFailed (REC_RESULT.ofHRESULT hr "Failed to render frame") st
            else if st.mgr.m_OutputOptions.RecorderMode = .Screenshot then
              .exit .ScreenshotTaken (REC_RESULT.ofHRESULT hr "") st
            else .next st

/-- One iteration of the `while (true)` loop of `RecordingManager::StartRecorderLoop`
(RecordingManager.cpp, lines 641-746).  The error event is a manual-reset event: it is
signalled when a capture thread has set it since the last iteration or when it was left
set, and it stays set until `RestartCapture` resets it. -/
def recorderLoopCycle (inp : CycleInput) (st : RecorderLoop) : CycleOutcome :=
  if inp.is_canceled_top then
    .exit .Cancelled (REC_RESULT.ofHRESULT S_OK "") { st with hr := S_OK }
  else
    let st := { st with ErrorEvent := st.ErrorEvent || inp.ErrorEventSignalled }
    if st.ErrorEvent then
      match handleErrorEvent inp st with
      | .exit point result st => .exit point result st
      | .continue_ st => .next st
      | .proceed st => recordFrame inp st
    else recordFrame inp st

/-- The loop of `StartRecorderLoop` run over the answers of successive iterations:
the exit point, result and final state once an iteration returns, `none` while the
answers given do not end the loop or when an iteration is undefined. -/
def recorderLoop : List CycleInput → RecorderLoop → Option (LoopExit × REC_RESULT × RecorderLoop)
  | [], _ => none
  | inp :: rest, st =>
    match recorderLoopCycle inp st with
    | .next st => recorderLoop rest st
    | .exit point result st => some (point, result, st)
    | .undefined => none

/-- The state the loop of `StartRecorderLoop` has reached after the answers of
successive iterations: the state at the return once an iteration returns, the state
after the last answer while the loop is still running, `none` when an iteration is
undefined. -/
def recorderLoopState : List CycleInput → RecorderLoop → Option RecorderLoop
  | [], st => some st
  | inp :: rest, st =>
    match recorderLoopCycle inp st with
    | .next st => recorderLoopState rest st
    | .exit _ _ st => some st
    | .undefined => none

/-- The frame a call hands to the encoder, if the call is `RenderFrame`. -/
def Call.renderedFrame? : Call → Option FrameWriteModel
  | .RenderFrame model => some model
  | _ => none

/-- The frames handed to the encoder, in order, by the calls of a trace. -/
def renderedFrames (trace : List Call) : List FrameWriteModel :=
  trace.filterMap Call.renderedFrame?

/-- The manager after further calls, appended to the trace in order. -/
def RecordingManager.calls (s : RecordingManager) (extra : List Call) : RecordingManager :=
  { s with trace := s.trace ++ extra }

/-- Manager `t` is manager `s` after further calls none of which hands a frame to the
encoder; nothing but the trace differs between the two. -/
def noFrameHanded (s t : RecordingManager) : Prop :=
  ∃ extra, t = s.calls extra ∧ renderedFrames extra = []

/-! ## End of the session task -/

/-- The system services `SetRecordingCompleteStatus` builds its message from: the text
of a result code (`_com_error::ErrorMessage`), the text of the last error
(`GetLastErrorStdWstr`) and the hexadecimal print of a result code. -/
structure ErrorText where
  ErrorMessage : HRESULT → String
  GetLastErrorStdWstr : String
  hex : HRESULT → String

/-- The message `SetRecordingCompleteStatus` passes to the recording-failed callback
(RecordingManager.cpp, lines 403-417 and 430-441). -/
def SetRecordingCompleteStatus.message (text : ErrorText) (s : RecordingManager)
    (result : REC_RESULT) : String :=
  let errMsg :=
    if SUCCEEDED result.RecordingResult && FAILED result.FinalizeResult then
      text.ErrorMessage result.FinalizeResult
    else text.ErrorMessage result.RecordingResult
  let errMsg := if result.Error ≠ "" then result.Error ++ " : " ++ errMsg else errMsg
  if FAILED s.m_EncoderResult then
    "Write error (0x" ++ text.hex s.m_EncoderResult ++ ") in video encoder: "
      ++ text.ErrorMessage s.m_EncoderResult
      ++ (if s.m_EncoderOptions.IsHardwareEncodingEnabled then
            " If the problem persists, disabling hardware encoding may improve stability."
          else "")
  else if errMsg = "" then text.GetLastErrorStdWstr
  else errMsg

/-- `RecordingManager::SetRecordingCompleteStatus` (RecordingManager.cpp, lines
401-452). -/
def SetRecordingCompleteStatus (text : ErrorText) (s : RecordingManager) (result : REC_RESULT)
    (frameDelays : List (String × Int)) : RecordingManager :=
  let isSuccess : Bool := SUCCEEDED result.RecordingResult && SUCCEEDED result.FinalizeResult
  let s := s.callIf s.RecordingStatusChangedCallback (.RecordingStatusChangedCallback .STATUS_IDLE)
  if isSuccess then
    s.callIf s.RecordingCompleteCallback (.RecordingCompleteCallback s.m_OutputFullPath frameDelays)
  else
    s.callIf s.RecordingFailedCallback
      (.RecordingFailedCallback (SetRecordingCompleteStatus.message text s result)
        (if SUCCEEDED result.FinalizeResult then s.m_OutputFullPath else ""))

/-- The continuation of the session task in `RecordingManager::BeginRecording`
(RecordingManager.cpp, lines 320-342).  `taskResult` is `none` when `t.get()` throws;
the result then stays as `REC_RESULT result{ }` initialised it, which is the parameter
`initialResult` because CommonTypes.h is not among the sources.  `frameDelays` is what
`GetFrameDelays` answers. -/
def recordTaskContinuation (text : ErrorText) (s : RecordingManager)
    (taskResult : Option REC_RESULT) (initialResult : REC_RESULT)
    (frameDelays : List (String × Int)) : RecordingManager :=
  let s :=
    { s with m_CaptureManager := false, m_MouseManager := false, m_IsRecording := false,
             m_IsPaused := false }
  let result := taskResult.getD initialResult
  let s := s.call .CleanupDxResources
  if !s.m_IsDestructing then
    SetRecordingCompleteStatus text s result (if s.m_OutputManager then frameDelays else [])
  else s

/-- The four conditions of section 4.4 for leaving Idle: no session is active, the
dependency check passes, the output directory is configured successfully and at least
one recording source is configured. -/
def canStartSession (host : Host) (s : RecordingManager) (path : String) : Bool :=
  !s.m_IsRecording
    && (CheckDependencies host s).1
    && SUCCEEDED (ConfigureOutputDir host { s with m_EncoderResult := S_FALSE } path).1
    && decide (s.m_RecordingSources ≠ [])

/-! ## Kinds of calls -/

/-- The calls made while a texture is processed or saved as a snapshot (`ProcessTexture`,
`ProcessTextureTransforms`, `SaveTextureAsVideoSnapshot` and the part of `TakeSnapshot`
after the frame has been obtained). -/
def Call.isTextureWork : Call → Bool
  | .ProcessOverlays => true
  | .ProcessMousePointer => true
  | .CropTexture _ => true
  | .ResizeTexture _ => true
  | .CreateTexture2D _ _ => true
  | .CopySubresourceRegion _ _ _ => true
  | .CopyResource => true
  | .WriteFrameToImage _ => true
  | .WriteFrameToStream => true
  | .create_directories _ => true
  | .RecordingSnapshotCreatedCallback _ => true
  | _ => false

/-- The calls of the part of a loop iteration after the error block, apart from the two
calls that hand audio and frame to the encoder: pause handling, frame acquisition,
callbacks and texture work. -/
def Call.isLoopWork : Call → Bool
  | .PauseMediaClock => true
  | .wait _ => true
  | .ClearRecordedBytes => true
  | .AcquireNextFrame _ => true
  | .CopyCurrentFrame => true
  | .RecordingStatusChangedCallback _ => true
  | .RecordingFrameNumberChangedCallback _ => true
  | c => c.isTextureWork

/-- Manager `t` is manager `s` after further calls that are all of kind `p`; nothing but
the trace differs between the two. -/
def callsOnly (p : Call → Bool) (s t : RecordingManager) : Prop :=
  ∃ extra, t = s.calls extra ∧ ∀ c ∈ extra, p c = true

/-- Whether a call is `StartCapture` on the capture manager. -/
def Call.isStartCapture : Call → Bool
  | .StartCapture _ _ => true
  | _ => false

/-- The nominal duration a call passes to the audio manager, if the call is
`GrabAudioFrame`. -/
def Call.grabbedDuration? : Call → Option Int
  | .GrabAudioFrame duration100Nanos => some duration100Nanos
  | _ => none

/-! ## ImageReader::WriteNextFrameToSharedSurface -/

/-- Modelled from the spec: `RECORDING_SOURCE_BASE` is declared in CommonTypes.h, which is
not among the sources.  The object a capture refers to is a `RECORDING_SOURCE` or an
object of another class derived from the base (an overlay), of which the code reads the
anchor and the stretch mode only. -/
inductive RECORDING_SOURCE_BASE where
  | source (recordingSource : RECORDING_SOURCE)
  | other (Anchor : ContentAnchor) (Stretch : TextureStretchMode)
deriving DecidableEq, Repr

/-- The member `Anchor` of the base class. -/
def RECORDING_SOURCE_BASE.Anchor : RECORDING_SOURCE_BASE → ContentAnchor
  | .source recordingSource => recordingSource.Anchor
  | .other anchor _ => anchor

/-- The member `Stretch` of the base class. -/
def RECORDING_SOURCE_BASE.Stretch : RECORDING_SOURCE_BASE → TextureStretchMode
  | .source recordingSource => recordingSource.Stretch
  | .other _ stretch => stretch

/-- The cast `dynamic_cast<RECORDING_SOURCE *>`: `none` for the null pointer it gives for
an object of another class. -/
def RECORDING_SOURCE_BASE.asRecordingSource : RECORDING_SOURCE_BASE → Option RECORDING_SOURCE
  | .source recordingSource => some recordingSource
  | .other _ _ => none

/-- The conversion of a `LONG` to `UINT` that C++ applies when a `LONG` is compared with
the `UINT` width or height of a texture description. -/
def toUINT (x : Int) : Int := x % 2 ^ 32

/-- One step of `ImageReader` on a collaborator (graphics device, texture manager), and
the computation of the placement offset, in the order they are made. -/
inductive ReaderCall where
  | CreateTexture2D
  | CopyResource
  | QueryPerformanceCounter
  | CropTexture (texture : Texture) (rect : RECT)
  | ResizeTexture (texture : Texture) (size : SIZE) (stretch : TextureStretchMode)
  | GetContentOffset (anchor : ContentAnchor) (parentRect contentRect : RECT)
  | DrawTexture (texture : Texture) (rect : RECT)
  | SendBitmapCallback (texture : Texture)
deriving DecidableEq, Repr

/-- The members of `ImageReader` the embedded code reads or writes; `m_TextureManager`
is `true` when the pointer is non-null, `m_Texture` is `none` for a null pointer. -/
structure ImageReader where
  m_RecordingSource : Option RECORDING_SOURCE_BASE
  m_Texture : Option Texture
  m_LastGrabTimeStamp : Int
  m_TextureManager : Bool
  trace : List ReaderCall

/-- What the graphics device, the performance counter and the texture manager answer to
`ImageReader`. -/
structure ReaderAnswers where
  CreateTexture2D : HRESULT
  QueryPerformanceCounter : Int
  CropTexture : Texture → RECT → HRESULT × Texture
  ResizeTexture : Texture → SIZE → TextureStretchMode → HRESULT × Texture × RECT

/-- Appends one step to the trace of the reader. -/
def ImageReader.call (r : ImageReader) (c : ReaderCall) : ImageReader :=
  { r with trace := r.trace ++ [c] }

/-- `ImageReader::AcquireNextFrame` (ImageReader.cpp, lines 71-92); the timeout is not
read.  `ppFrame` says whether the out-pointer is non-null. -/
def ImageReader.AcquireNextFrame (a : ReaderAnswers) (r : ImageReader) (ppFrame : Bool) :
    HRESULT × Option Texture × ImageReader :=
  if r.m_Texture.isSome && ppFrame then
    let r := r.call .CreateTexture2D
    if FAILED a.CreateTexture2D then (a.CreateTexture2D, none, r)
    else
      let r := (r.call .CopyResource).call .QueryPerformanceCounter
      (S_OK, r.m_Texture, { r with m_LastGrabTimeStamp := a.QueryPerformanceCounter })
  else
    (if r.m_LastGrabTimeStamp = 0 then S_OK else S_FALSE, none, r)

/-- The test of lines 116-118: the source is a `RECORDING_SOURCE` with a source rectangle
that is valid and whose width or height is not that of the frame; the rectangle to crop
to, if so. -/
def ImageReader.cropRect (source : RECORDING_SOURCE_BASE) (frame : Texture) : Option RECT :=
  match source.asRecordingSource with
  | some recordingSource =>
    match recordingSource.SourceRect with
    | some sourceRect =>
      if IsValidRect sourceRect
          && (decide (toUINT (RectWidth sourceRect) ≠ frame.Width)
            || decide (toUINT (RectHeight sourceRect) ≠ frame.Height)) then
        some sourceRect
      else none
    | none => none
  | none => none

/-- The placement of lines 136-142, entered with the texture to draw, the texture whose
description `frameDesc` holds and the content rectangle: the offset of the content in
the destination, the rectangle, the draw and the preview callback. -/
def ImageReader.place (r : ImageReader) (source : RECORDING_SOURCE_BASE) (hr : HRESULT)
    (offsetX offsetY : Int) (destinationRect : RECT) (pProcessedTexture frameDesc : Texture)
    (contentRect : RECT) : Option (HRESULT × ImageReader) :=
  let r := r.call (.GetContentOffset source.Anchor destinationRect contentRect)
  let contentOffset := GetContentOffset source.Anchor destinationRect contentRect
  let left := destinationRect.left + offsetX + contentOffset.cx
  let top := destinationRect.top + offsetY + contentOffset.cy
  let right := left + MakeEven frameDesc.Width
  let bottom := top + MakeEven frameDesc.Height
  if !r.m_TextureManager then none
  else
    let r :=
      r.call (.DrawTexture pProcessedTexture { left := left, top := top, right := right, bottom := bottom })
    some (hr, r.call (.SendBitmapCallback pProcessedTexture))

/-- The resize and the placement of lines 126-142, entered with the result code and the
texture the crop step left; `frameDesc` is the description read in line 126, before
the resize. -/
def ImageReader.resizeAndPlace (a : ReaderAnswers) (r : ImageReader)
    (source : RECORDING_SOURCE_BASE) (hr : HRESULT) (offsetX offsetY : Int)
    (destinationRect : RECT) (pProcessedTexture : Texture) : Option (HRESULT × ImageReader) :=
  let frameDesc := pProcessedTexture
  if toUINT (RectWidth destinationRect) ≠ frameDesc.Width
      ∨ toUINT (RectHeight destinationRect) ≠ frameDesc.Height then
    if !r.m_TextureManager then none
    else
      let size : SIZE := { cx := RectWidth destinationRect, cy := RectHeight destinationRect }
      let r := r.call (.ResizeTexture pProcessedTexture size source.Stretch)
      let resized := a.ResizeTexture pProcessedTexture size source.Stretch
      if FAILED resized.1 then some (resized.1, r)
      else
        ImageReader.place r source resized.1 offsetX offsetY destinationRect resized.2.1
          frameDesc resized.2.2
  else
    ImageReader.place r source hr offsetX offsetY destinationRect pProcessedTexture frameDesc
      destinationRect

/-- The frame to write (ImageReader.cpp, lines 101-110): the texture given, or the next
frame of the reader when none is given. -/
def ImageReader.obtainFrame (a : ReaderAnswers) (r : ImageReader) (pTexture : Option Texture) :
    HRESULT × Option Texture × ImageReader :=
  match pTexture with
  | some texture => (S_OK, some texture, r)
  | none => ImageReader.AcquireNextFrame a r true

/-- `ImageReader::WriteNextFrameToSharedSurface` (ImageReader.cpp, lines 94-144).
`pTexture` is `none` for a null texture, for which the frame is acquired from the
reader itself.  The body of `SendBitmapCallback` is not embedded: its call is recorded,
its result is not read. -/
def ImageReader.WriteNextFrameToSharedSurface (a : ReaderAnswers) (r : ImageReader)
    (offsetX offsetY : Int) (destinationRect : RECT) (pTexture : Option Texture) :
    Option (HRESULT × ImageReader) :=
  match r.m_RecordingSource with
  | none => some (E_FAIL, r)
  | some source =>
    let acquired := ImageReader.obtainFrame a r pTexture
    let r := acquired.2.2
    if FAILED acquired.1 then some (acquired.1, r)
    else
      match acquired.2.1 with
      | none => none
      | some frame =>
        match ImageReader.cropRect source frame with
        | some sourceRect =>
          if !r.m_TextureManager then none
          else
            let r := r.call (.CropTexture frame sourceRect)
            let cropped := a.CropTexture frame sourceRect
            if FAILED cropped.1 then some (cropped.1, r)
            else
              ImageReader.resizeAndPlace a r source cropped.1 offsetX offsetY destinationRect
                (if cropped.1 = S_OK then cropped.2 else frame)
        | none =>
          ImageReader.resizeAndPlace a r source acquired.1 offsetX offsetY destinationRect frame

/-- Whether a step of the reader is a crop by the texture manager. -/
def ReaderCall.isCropTexture : ReaderCall → Bool
  | .CropTexture _ _ => true
  | _ => false

/-- Whether a step of the reader is a crop or a resize by the texture manager. -/
def ReaderCall.isCropOrResize : ReaderCall → Bool
  | .CropTexture _ _ => true
  | .ResizeTexture _ _ _ => true
  | _ => false

/-- The steps the reader has made on the way from state `r` to state `t`. -/
def newReaderCalls (r t : ImageReader) : List ReaderCall := t.trace.drop r.trace.length

/-- Whether a step of the reader belongs to the placement: the computation of the content
offset, the draw on the shared surface, the preview callback. -/
def ReaderCall.isPlacement : ReaderCall → Bool
  | .GetContentOffset _ _ _ => true
  | .DrawTexture _ _ => true
  | .SendBitmapCallback _ => true
  | _ => false

/-- The rectangles `WriteNextFrameToSharedSurface` has passed to `DrawTexture`, in order. -/
def drawnRects (trace : List ReaderCall) : List RECT :=
  trace.filterMap fun c =>
    match c with
    | .DrawTexture _ rect => some rect
    | _ => none

/-- Rectangle `inner` lies within rectangle `outer`. -/
def RECT.within (inner outer : RECT) : Prop :=
  outer.left ≤ inner.left ∧ outer.top ≤ inner.top
    ∧ inner.right ≤ outer.right ∧ inner.bottom ≤ outer.bottom

instance (inner outer : RECT) : Decidable (inner.within outer) := by
  unfold RECT.within
  infer_instance

/-- A rectangle moved by an offset. -/
def RECT.translate (rect : RECT) (offsetX offsetY : Int) : RECT :=
  { left := rect.left + offsetX, top := rect.top + offsetY,
    right := rect.right + offsetX, bottom := rect.bottom + offsetY }

/-! ## Steps of a session -/

/-- One step on the control surface of the manager, or the end of the session task. -/
inductive ControlStep where
  | BeginRecording (host : Host) (path : String) (stream : Bool)
  | PauseRecording
  | ResumeRecording
  | EndRecording
  | TakeSnapshot (host : Host) (path : String) (stream : Bool) (pTexture : Option Texture)
  | taskCompleted (text : ErrorText) (taskResult : Option REC_RESULT) (initialResult : REC_RESULT)
      (frameDelays : List (String × Int))

/-- The manager after one step; `none` when the step is undefined behaviour. -/
def ControlStep.apply : ControlStep → RecordingManager → Option RecordingManager
  | .BeginRecording host path stream, s =>
    some (ScreenRecorderLib.BeginRecording host s path stream).2
  | .PauseRecording, s => some (ScreenRecorderLib.PauseRecording s)
  | .ResumeRecording, s => some (ScreenRecorderLib.ResumeRecording s)
  | .EndRecording, s => some (ScreenRecorderLib.EndRecording s)
  | .TakeSnapshot host path stream pTexture, s =>
    (ScreenRecorderLib.TakeSnapshot host s path stream pTexture).map fun result => result.2
  | .taskCompleted text taskResult initialResult frameDelays, s =>
    some (recordTaskContinuation text s taskResult initialResult frameDelays)

/-- The manager after a sequence of steps. -/
def runSteps : List ControlStep → RecordingManager → Option RecordingManager
  | [], s => some s
  | step :: rest, s =>
    match step.apply s with
    | some s => runSteps rest s
    | none => none

/-! ## Example data -/

/-- A host on which everything is available and every collaborator call succeeds. -/
def exampleHost : Host :=
  { IsWindows8OrGreater := true
    IsGraphicsCaptureAvailable := true
    PathRemoveFileSpecW := fun _ => "C:"
    PathFindExtension := fun _ => ".mp4"
    CurrentTimeToFormattedString := "2024-01-01"
    exists_ := fun _ => true
    create_directories := fun _ => true
    ec_message := ""
    parent_path := fun _ => "C:"
    AcquireNextFrame := (S_OK, { Frame := some { Width := 1920, Height := 1080 }, PtrInfo := none, FrameUpdateCount := 1 })
    CopyCurrentFrame := (S_OK, { Frame := some { Width := 1920, Height := 1080 }, PtrInfo := none, FrameUpdateCount := 0 })
    GetOutputSize := { cx := 1920, cy := 1080 }
    ProcessMousePointer := S_OK
    CropTexture := fun _ rect => (S_OK, { Width := RectWidth rect, Height := RectHeight rect })
    ResizeTexture := fun _ size _ =>
      (S_OK, { Width := size.cx, Height := size.cy }, { left := 0, top := 0, right := size.cx, bottom := size.cy })
    CreateTexture2D := fun _ _ => S_OK
    WriteFrameToImage := fun _ => S_OK }

/-- One display source captured through Desktop Duplication. -/
def exampleSource : RECORDING_SOURCE :=
  { SourceApi := some .DesktopDuplication
    IsVideoFramePreviewEnabled := none
    HasRegisteredCallbacks := false
    SourceRect := none
    Anchor := .Center
    Stretch := .Uniform }

/-- An idle manager with one source, every callback registered and an empty trace. -/
def idleManager : RecordingManager :=
  { m_IsRecording := false
    m_IsPaused := false
    m_IsDestructing := false
    m_MfStartupResult := S_OK
    m_EncoderResult := S_FALSE
    m_RestartCaptureCount := 0
    m_MaxFrameLengthMillis := 500
    m_OutputFullPath := ""
    m_OutputFolder := ""
    m_RecordingSources := [exampleSource]
    m_OutputOptions :=
      { SourceRectangle := none, FrameSize := none, Stretch := .Uniform, RecorderMode := .Video,
        IsVideoFramePreviewEnabled := false }
    m_SnapshotOptions :=
      { SnapshotsDirectory := "", ImageExtension := ".png", IsSnapshotWithVideoEnabled := false,
        SnapshotsInterval := 1000 }
    m_EncoderOptions := { VideoExtension := ".mp4", IsHardwareEncodingEnabled := true }
    m_AudioOptions := { AudioBitsPerSample := 16, AudioChannels := 2, AudioSamplesPerSecond := 48000 }
    m_TextureManager := false
    m_OutputManager := false
    m_CaptureManager := false
    m_MouseManager := false
    m_RecordTaskCts_canceled := false
    RecordingCompleteCallback := true
    RecordingFailedCallback := true
    RecordingSnapshotCreatedCallback := true
    RecordingStatusChangedCallback := true
    RecordingFrameNumberChangedCallback := true
    trace := [] }

/-- A manager in the middle of a session: recording, not paused, managers created. -/
def recordingManager : RecordingManager :=
  { idleManager with
    m_IsRecording := true
    m_TextureManager := true
    m_OutputManager := true
    m_CaptureManager := true
    m_MouseManager := true }

/-- A manager whose session is paused. -/
def pausedManager : RecordingManager :=
  { recordingManager with m_IsPaused := true }

/-- Message services that answer with fixed texts. -/
def exampleText : ErrorText :=
  { ErrorMessage := fun _ => "Unspecified error", GetLastErrorStdWstr := "", hex := fun _ => "80004005" }

/-- A capture result reporting an access-denied failure that is not recoverable. -/
def fatalResult : CAPTURE_RESULT :=
  { RecordingResult := E_FAIL, FinalizeResult := S_FALSE, Error := "",
    IsRecoverableError := false, IsDeviceError := false, NumberOfRetries := 0 }

/-- A capture result reporting a recoverable failure with unlimited retries. -/
def recoverableResult : CAPTURE_RESULT :=
  { RecordingResult := DXGI_ERROR_WAIT_TIMEOUT, FinalizeResult := S_FALSE, Error := "",
    IsRecoverableError := true, IsDeviceError := false, NumberOfRetries := -1 }

/-- Answers of a restart in which every step succeeds. -/
def exampleRestart : RestartAnswers :=
  { StopCapture := S_OK, InitializeDx := S_OK, MouseManagerInitialize := S_OK,
    TextureManagerInitialize := S_OK, OutputManagerInitialize := S_OK,
    CaptureManagerInitialize := S_OK, StartCapture := S_OK,
    GetOutputSize := { cx := 1920, cy := 1080 } }

/-- An iteration in which the error event is signalled and both sources report a
failure that is not recoverable. -/
def allFailedInput : CycleInput :=
  { is_canceled_top := false
    ErrorEventSignalled := true
    captureResults := [fatalResult, { fatalResult with RecordingResult := E_INVALIDARG }]
    ProcessCaptureHRESULT := fun hr => { fatalResult with RecordingResult := hr }
    restart := exampleRestart
    isMediaClockRunning := true
    now := 0
    timestampBeforeAcquire := 0
    AcquireNextFrame := exampleHost.AcquireNextFrame
    GetMediaTimeStamp := (S_OK, 0)
    is_canceled_afterAcquire := false
    host := exampleHost
    GrabAudioFrame := []
    RenderFrame := S_OK }

/-- The loop state at the start of a 30 fps video session of `recordingManager`. -/
def exampleLoop : RecorderLoop :=
  RecorderLoop.initial recordingManager [exampleSource] []
    { left := 0, top := 0, right := 1920, bottom := 1080 } { cx := 1920, cy := 1080 }
    (1000 / 30) 333333

/-- An iteration whose only capture source reports a recoverable failure that permits
two retries. -/
def retryInput : CycleInput :=
  { allFailedInput with captureResults := [{ recoverableResult with NumberOfRetries := 2 }] }

/-- An iteration in which one source failed for good and the other reports a recoverable
failure with unlimited retries. -/
def unlimitedRetryInput : CycleInput :=
  { allFailedInput with captureResults := [fatalResult, recoverableResult] }

/-- The loop state of `exampleLoop` after two restarts of the capture. -/
def restartedLoop : RecorderLoop :=
  { exampleLoop with mgr := { recordingManager with m_RestartCaptureCount := 2 } }

/-- A manager in a session whose audio is 8-bit mono at 1000 samples per second. -/
def audioManager : RecordingManager :=
  { recordingManager with
    m_AudioOptions := { AudioBitsPerSample := 8, AudioChannels := 1, AudioSamplesPerSecond := 1000 } }

/-- The loop state at the start of a 30 fps video session of `audioManager`. -/
def audioLoop : RecorderLoop :=
  RecorderLoop.initial audioManager [exampleSource] []
    { left := 0, top := 0, right := 1920, bottom := 1080 } { cx := 1920, cy := 1080 }
    (1000 / 30) 333333

/-- An iteration without error event in which a frame is acquired 33 ms into the
session and 43 bytes of audio are grabbed, which is 43 ms of audio for `audioManager`. -/
def frameInput : CycleInput :=
  { allFailedInput with
    ErrorEventSignalled := false
    captureResults := []
    GetMediaTimeStamp := (S_OK, 330000)
    GrabAudioFrame := List.replicate 43 0 }

/-- The iteration after `frameInput`: a frame acquired 66 ms into the session, no audio. -/
def laterFrameInput : CycleInput :=
  { frameInput with GetMediaTimeStamp := (S_OK, 660000), GrabAudioFrame := [] }

/-- A source whose frame preview is enabled and has callbacks registered. -/
def previewSource : RECORDING_SOURCE :=
  { exampleSource with IsVideoFramePreviewEnabled := some true, HasRegisteredCallbacks := true }

/-- The loop state of a paused session with an active source preview after two restarts
of the capture. -/
def pausedPreviewLoop : RecorderLoop :=
  { exampleLoop with
    mgr := { pausedManager with m_RecordingSources := [previewSource], m_RestartCaptureCount := 2 } }

/-- An iteration in which the cancellation token is found cancelled at the top. -/
def cancelledTopInput : CycleInput :=
  { frameInput with is_canceled_top := true }

/-- An iteration in which the frame acquisition times out and the cancellation token is
found cancelled after it. -/
def cancelledAfterTimeoutInput : CycleInput :=
  { frameInput with
    AcquireNextFrame := (DXGI_ERROR_WAIT_TIMEOUT, { Frame := none, PtrInfo := none, FrameUpdateCount := 0 })
    is_canceled_afterAcquire := true }

/-- A loop state whose previous iteration left a failure code. -/
def failedLoop : RecorderLoop :=
  { exampleLoop with hr := E_FAIL }

/-- The loop state at the start of a video session that is to take snapshots along with
the video and has no snapshots directory, as when recording to a stream. -/
def snapshotLoop : RecorderLoop :=
  { exampleLoop with
    mgr :=
      { recordingManager with
        m_SnapshotOptions :=
          { SnapshotsDirectory := "", ImageExtension := ".png", IsSnapshotWithVideoEnabled := true,
            SnapshotsInterval := 1000 } } }

/-- The loop state of a paused session without source previews. -/
def pausedLoop : RecorderLoop :=
  { exampleLoop with mgr := pausedManager }

/-- An iteration without error event in which the frame acquisition times out and still
delivers the last frame. -/
def timeoutInput : CycleInput :=
  { frameInput with
    AcquireNextFrame :=
      (DXGI_ERROR_WAIT_TIMEOUT,
        { Frame := some { Width := 1920, Height := 1080 }, PtrInfo := none, FrameUpdateCount := 0 }) }

/-- An iteration without error event in which the frame acquisition fails. -/
def failedAcquireInput : CycleInput :=
  { frameInput with
    AcquireNextFrame := (E_FAIL, { Frame := none, PtrInfo := none, FrameUpdateCount := 0 }) }

/-- An iteration in which the error event is signalled, the only capture source reports a
recoverable failure that permits two retries, and the frame acquisition times out. -/
def retryTimeoutInput : CycleInput :=
  { retryInput with AcquireNextFrame := timeoutInput.AcquireNextFrame }

/-- A texture manager that crops to the rectangle asked for and resizes to the size asked
for, and a graphics device that succeeds. -/
def exampleAnswers : ReaderAnswers :=
  { CreateTexture2D := S_OK
    QueryPerformanceCounter := 1
    CropTexture := fun _ rect => (S_OK, { Width := RectWidth rect, Height := RectHeight rect })
    ResizeTexture := fun _ size _ =>
      (S_OK, { Width := size.cx, Height := size.cy },
        { left := 0, top := 0, right := size.cx, bottom := size.cy }) }

/-- An initialised reader of a 200 x 200 image for `exampleSource`, which has no source
rectangle and is anchored at the centre. -/
def exampleReader : ImageReader :=
  { m_RecordingSource := some (.source exampleSource)
    m_Texture := some { Width := 200, Height := 200 }
    m_LastGrabTimeStamp := 0
    m_TextureManager := true
    trace := [] }

/-- The reader of `exampleReader` for a source cropped to the 100 x 50 rectangle at the
origin. -/
def croppingReader : ImageReader :=
  { exampleReader with
    m_RecordingSource :=
      some (.source { exampleSource with
        SourceRect := some { left := 0, top := 0, right := 100, bottom := 50 } }) }

/-- A session from start to end: begin, pause, snapshot, begin again (which resumes),
end, completion of the task. -/
def exampleSteps : List ControlStep :=
  [.BeginRecording exampleHost "C:\\out.mp4" false, .PauseRecording,
    .TakeSnapshot exampleHost "C:\\snap.png" false (some { Width := 1920, Height := 1080 }),
    .BeginRecording exampleHost "C:\\out.mp4" false, .EndRecording,
    .taskCompleted exampleText (some (REC_RESULT.ofHRESULT S_OK "")) (REC_RESULT.ofHRESULT S_OK "") []]

/-! ## Arithmetic of the double model -/

theorem round_intCast (d : Int) : round (d : ℚ) = d := by
  unfold round
  split
  · rw [Int.floor_int_add]; norm_num
  · have h : ((d : ℚ) - 1 / 2) = (-(1 / 2) : ℚ) + ((d : Int) : ℚ) := by ring
    rw [h, Int.ceil_add_int]; norm_num

theorem toInt_intCast (d : Int) :
    toInt (d : ℚ) = if INT_MIN ≤ d ∧ d ≤ INT_MAX then d else INT_MIN := by
  unfold toInt
  have h : (if (0 : ℚ) ≤ (d : ℚ) then ⌊(d : ℚ)⌋ else ⌈(d : ℚ)⌉) = d := by
    split <;> simp
  simp only [h]

theorem toInt_max_round (a b : Int) :
    toInt (max 0 (round ((a : ℚ) - (b : ℚ))))
      = if a - b ≤ INT_MAX then max 0 (a - b) else INT_MIN := by
  have h : ((a : ℚ) - (b : ℚ)) = ((a - b : Int) : ℚ) := by push_cast; ring
  rw [h, round_intCast]
  have h2 : max (0 : ℚ) ((a - b : Int) : ℚ) = ((max 0 (a - b) : Int) : ℚ) := by
    push_cast; rfl
  rw [h2, toInt_intCast]
  unfold INT_MIN INT_MAX
  split_ifs <;> omega

theorem max_half (d : Int) :
    (if (0 : ℚ) ≤ max 0 ((d : ℚ) / 2) then ⌊max 0 ((d : ℚ) / 2)⌋ else ⌈max 0 ((d : ℚ) / 2)⌉)
      = max 0 (d / 2) := by
  rw [if_pos (le_max_left _ _)]
  rcases le_or_lt 0 d with hd | hd
  · have h0 : (0 : ℚ) ≤ (d : ℚ) / 2 := by positivity
    rw [max_eq_right h0]
    have hfloor := Rat.floor_intCast_div_natCast d 2
    simp at hfloor
    rw [hfloor]
    omega
  · have h0 : (d : ℚ) / 2 < 0 := by
      have : (d : ℚ) < 0 := by exact_mod_cast hd
      linarith
    rw [max_eq_left h0.le]
    simp
    omega

theorem toInt_max_round_half (a b : Int) :
    toInt (max 0 (round ((a : ℚ) - (b : ℚ)) / 2))
      = if (a - b) / 2 ≤ INT_MAX then max 0 ((a - b) / 2) else INT_MIN := by
  have h : ((a : ℚ) - (b : ℚ)) = ((a - b : Int) : ℚ) := by push_cast; ring
  rw [h, round_intCast]
  generalize a - b = d
  unfold toInt
  simp only [max_half]
  unfold INT_MIN INT_MAX
  split_ifs <;> omega

/-! ## Rounding to even -/

theorem MakeEven_even (n : Int) : Even (MakeEven n) := by
  rw [Int.even_iff]
  unfold MakeEven
  split <;> omega

theorem MakeEven_of_even (n : Int) (h : n % 2 = 0) : MakeEven n = n := by
  simp [MakeEven, h]

theorem MakeRectEven_eq (r : RECT) :
    MakeRectEven r =
      { left := r.left, top := r.top,
        right := r.left + MakeEven (RectWidth r), bottom := r.top + MakeEven (RectHeight r) } := by
  unfold MakeRectEven MakeEven RectWidth RectHeight
  by_cases hw : (r.right - r.left) % 2 = 0 <;> by_cases hh : (r.bottom - r.top) % 2 = 0 <;>
    simp [hw, hh] <;> cases r <;> simp <;> omega

/-! ## Content offset (claims C5, C6) -/

/-- C5 as stated fails: with a 100x100 parent and 200x200 content anchored at Center
the clamped offset is `(0,0)`, which exceeds destination size minus content size,
`-100`, on both axes.  It also fails for rectangles whose height difference leaves the
range of `int`: a parent of height 2147483647 and a content rectangle of height -1
anchored at BottomRight give the vertical offset -2147483648, which is negative. -/
theorem GetContentOffset_exceeds_when_content_larger :
    GetContentOffset .Center { left := 0, top := 0, right := 100, bottom := 100 }
        { left := 0, top := 0, right := 200, bottom := 200 } = { cx := 0, cy := 0 } ∧
      RectWidth { left := 0, top := 0, right := 100, bottom := 100 }
        - RectWidth { left := 0, top := 0, right := 200, bottom := 200 } = -100 ∧
      ¬ ((GetContentOffset .Center { left := 0, top := 0, right := 100, bottom := 100 }
            { left := 0, top := 0, right := 200, bottom := 200 }).cx
          ≤ RectWidth { left := 0, top := 0, right := 100, bottom := 100 }
            - RectWidth { left := 0, top := 0, right := 200, bottom := 200 }) ∧
      isLONG (RectHeight { left := 0, top := 0, right := 0, bottom := 2147483647 }) ∧
      isLONG (RectHeight { left := 0, top := 1, right := 0, bottom := 0 }) ∧
      GetContentOffset .BottomRight { left := 0, top := 0, right := 0, bottom := 2147483647 }
        { left := 0, top := 1, right := 0, bottom := 0 } = { cx := 0, cy := -2147483648 } ∧
      ¬ (0 ≤ (GetContentOffset .BottomRight
            { left := 0, top := 0, right := 0, bottom := 2147483647 }
            { left := 0, top := 1, right := 0, bottom := 0 }).cy) := by
  have h : GetContentOffset .Center { left := 0, top := 0, right := 100, bottom := 100 }
      { left := 0, top := 0, right := 200, bottom := 200 } = { cx := 0, cy := 0 } := by
    simp only [GetContentOffset, toInt_max_round_half, RectWidth, RectHeight]
    decide
  have h2 : GetContentOffset .BottomRight { left := 0, top := 0, right := 0, bottom := 2147483647 }
      { left := 0, top := 1, right := 0, bottom := 0 } = { cx := 0, cy := -2147483648 } := by
    simp only [GetContentOffset, toInt_max_round, RectWidth, RectHeight]
    decide
  refine ⟨h, by decide, ?_, by decide, by decide, h2, ?_⟩
  · rw [h]
    decide
  · rw [h2]
    decide

/-- C5 (amended): for every anchor and all parent and content rectangles whose widths
and heights are values of `LONG`, on an axis on which the anchor does not use the full
difference of the sizes (TopLeft and Center on both axes, BottomLeft horizontally,
TopRight vertically) or on which that difference is at most `INT_MAX`, the component
of the offset is never negative and, where the content is not larger than the
destination, never exceeds destination size minus content size.  The condition on the
difference holds whenever the content size on that axis is not negative. -/
theorem GetContentOffset_bounds (anchor : ContentAnchor) (P C : RECT)
    (hwP : isLONG (RectWidth P)) (hwC : isLONG (RectWidth C))
    (hhP : isLONG (RectHeight P)) (hhC : isLONG (RectHeight C)) :
    ((anchor = .TopRight ∨ anchor = .BottomRight → RectWidth P - RectWidth C ≤ INT_MAX) →
      0 ≤ (GetContentOffset anchor P C).cx ∧
      (RectWidth C ≤ RectWidth P →
        (GetContentOffset anchor P C).cx ≤ RectWidth P - RectWidth C)) ∧
    ((anchor = .BottomLeft ∨ anchor = .BottomRight → RectHeight P - RectHeight C ≤ INT_MAX) →
      0 ≤ (GetContentOffset anchor P C).cy ∧
      (RectHeight C ≤ RectHeight P →
        (GetContentOffset anchor P C).cy ≤ RectHeight P - RectHeight C)) ∧
    (0 ≤ RectWidth C →
      0 ≤ (GetContentOffset anchor P C).cx ∧
      (RectWidth C ≤ RectWidth P →
        (GetContentOffset anchor P C).cx ≤ RectWidth P - RectWidth C)) ∧
    (0 ≤ RectHeight C →
      0 ≤ (GetContentOffset anchor P C).cy ∧
      (RectHeight C ≤ RectHeight P →
        (GetContentOffset anchor P C).cy ≤ RectHeight P - RectHeight C)) := by
  have hcw : (RectWidth P - RectWidth C) / 2 ≤ INT_MAX := by
    unfold isLONG INT_MIN INT_MAX at *
    omega
  have hch : (RectHeight P - RectHeight C) / 2 ≤ INT_MAX := by
    unfold isLONG INT_MIN INT_MAX at *
    omega
  have hw0 : 0 ≤ RectWidth C → RectWidth P - RectWidth C ≤ INT_MAX := by
    intro h0
    unfold isLONG INT_MIN INT_MAX at *
    omega
  have hh0 : 0 ≤ RectHeight C → RectHeight P - RectHeight C ≤ INT_MAX := by
    intro h0
    unfold isLONG INT_MIN INT_MAX at *
    omega
  have hx : RectWidth P - RectWidth C ≤ INT_MAX ∨ (anchor ≠ .TopRight ∧ anchor ≠ .BottomRight) →
      0 ≤ (GetContentOffset anchor P C).cx ∧
      (RectWidth C ≤ RectWidth P →
        (GetContentOffset anchor P C).cx ≤ RectWidth P - RectWidth C) := by
    intro h
    cases anchor <;>
      simp only [GetContentOffset, toInt_max_round, toInt_max_round_half, if_pos hcw] <;>
      first
        | (constructor <;> intros <;> omega)
        | (rcases h with h | h
           · rw [if_pos h]
             constructor <;> intros <;> omega
           · simp at h)
  have hy : RectHeight P - RectHeight C ≤ INT_MAX
      ∨ (anchor ≠ .BottomLeft ∧ anchor ≠ .BottomRight) →
      0 ≤ (GetContentOffset anchor P C).cy ∧
      (RectHeight C ≤ RectHeight P →
        (GetContentOffset anchor P C).cy ≤ RectHeight P - RectHeight C) := by
    intro h
    cases anchor <;>
      simp only [GetContentOffset, toInt_max_round, toInt_max_round_half, if_pos hch] <;>
      first
        | (constructor <;> intros <;> omega)
        | (rcases h with h | h
           · rw [if_pos h]
             constructor <;> intros <;> omega
           · simp at h)
  refine ⟨fun h => hx ?_, fun h => hy ?_, fun h0 => hx (Or.inl (hw0 h0)),
    fun h0 => hy (Or.inl (hh0 h0))⟩
  · by_cases ha : anchor = .TopRight ∨ anchor = .BottomRight
    · exact Or.inl (h ha)
    · exact Or.inr ⟨fun e => ha (Or.inl e), fun e => ha (Or.inr e)⟩
  · by_cases ha : anchor = .BottomLeft ∨ anchor = .BottomRight
    · exact Or.inl (h ha)
    · exact Or.inr ⟨fun e => ha (Or.inl e), fun e => ha (Or.inr e)⟩

/-- Witness for C5: a 1920x1080 destination with 1441x1080 content, anchored at Center
and at BottomRight. -/
theorem GetContentOffset_bounds_witness :
    isLONG (RectWidth { left := 0, top := 0, right := 1920, bottom := 1080 }) ∧
    (0 ≤ (GetContentOffset .Center { left := 0, top := 0, right := 1920, bottom := 1080 }
          { left := 0, top := 0, right := 1441, bottom := 1080 }).cx) ∧
    (GetContentOffset .Center { left := 0, top := 0, right := 1920, bottom := 1080 }
          { left := 0, top := 0, right := 1441, bottom := 1080 }).cx ≤ 1920 - 1441 ∧
    (GetContentOffset .BottomRight { left := 0, top := 0, right := 1920, bottom := 1080 }
          { left := 0, top := 0, right := 1441, bottom := 1080 }).cx ≤ 1920 - 1441 :=
  ⟨by decide,
   ((GetContentOffset_bounds .Center { left := 0, top := 0, right := 1920, bottom := 1080 }
      { left := 0, top := 0, right := 1441, bottom := 1080 }
      (by decide) (by decide) (by decide) (by decide)).1 (fun _ => by decide)).1,
   ((GetContentOffset_bounds .Center { left := 0, top := 0, right := 1920, bottom := 1080 }
      { left := 0, top := 0, right := 1441, bottom := 1080 }
      (by decide) (by decide) (by decide) (by decide)).1 (fun _ => by decide)).2 (by decide),
   ((GetContentOffset_bounds .BottomRight { left := 0, top := 0, right := 1920, bottom := 1080 }
      { left := 0, top := 0, right := 1441, bottom := 1080 }
      (by decide) (by decide) (by decide) (by decide)).2.2.1 (by decide)).2 (by decide)⟩

/-! ## Rectangle resolution (claims C7, C8, C9) -/

theorem MakeRectEven_even (r : RECT) :
    Even (RectWidth (MakeRectEven r)) ∧ Even (RectHeight (MakeRectEven r)) := by
  rw [MakeRectEven_eq]
  constructor
  · simpa [RectWidth] using MakeEven_even (RectWidth r)
  · simpa [RectHeight] using MakeEven_even (RectHeight r)

/-- The input rectangle and output size `InitializeRects` works with when the configured
source rectangle is present and valid. -/
theorem InitializeRects_of_valid (options : OUTPUT_OPTIONS) (c : SIZE) (a b : Bool) (r : RECT)
    (hr : options.SourceRectangle = some r) (hv : IsValidRect r = true) :
    InitializeRects options c a b =
      (S_OK, (if a then some (MakeRectEven r) else none),
        (if b then
          some (if 0 < (options.FrameSize.getD { cx := 0, cy := 0 }).cx ∧
                0 < (options.FrameSize.getD { cx := 0, cy := 0 }).cy then
              { cx := MakeEven (options.FrameSize.getD { cx := 0, cy := 0 }).cx,
                cy := MakeEven (options.FrameSize.getD { cx := 0, cy := 0 }).cy }
            else { cx := MakeEven (RectWidth r), cy := MakeEven (RectHeight r) })
        else none)) := by
  simp only [InitializeRects, hr, hv, if_true]

/-- The input rectangle and output size `InitializeRects` works with when the configured
source rectangle is absent or not valid. -/
theorem InitializeRects_of_no_valid (options : OUTPUT_OPTIONS) (c : SIZE) (a b : Bool)
    (hr : ∀ r, options.SourceRectangle = some r → IsValidRect r = false) :
    InitializeRects options c a b =
      (S_OK,
        (if a then
          some (MakeRectEven { left := 0, top := 0, right := MakeEven c.cx, bottom := MakeEven c.cy })
        else none),
        (if b then
          some (if 0 < (options.FrameSize.getD { cx := 0, cy := 0 }).cx ∧
                0 < (options.FrameSize.getD { cx := 0, cy := 0 }).cy then
              { cx := MakeEven (options.FrameSize.getD { cx := 0, cy := 0 }).cx,
                cy := MakeEven (options.FrameSize.getD { cx := 0, cy := 0 }).cy }
            else { cx := MakeEven c.cx, cy := MakeEven c.cy })
        else none)) := by
  cases hsrc : options.SourceRectangle with
  | none => simp only [InitializeRects, hsrc]
  | some r =>
    have hv := hr r hsrc
    simp only [InitializeRects, hsrc, hv]
    rfl

theorem valid_or_not (options : OUTPUT_OPTIONS) :
    (∃ r, options.SourceRectangle = some r ∧ IsValidRect r = true) ∨
      (∀ r, options.SourceRectangle = some r → IsValidRect r = false) := by
  cases hsrc : options.SourceRectangle with
  | none => right; intro r h; cases h
  | some r =>
    cases hv : IsValidRect r
    · right; intro r2 h; cases h; exact hv
    · left; exact ⟨r, rfl, hv⟩

/-- C7: for every capture frame size and output configuration `InitializeRects` returns
`S_OK` and produces, through whichever out-pointers are given, one adjusted input
rectangle and one output frame size, and both have an even width and an even height. -/
theorem InitializeRects_even (options : OUTPUT_OPTIONS) (captureFrameSize : SIZE) :
    ∃ (rect : RECT) (size : SIZE),
      (∀ a b : Bool, InitializeRects options captureFrameSize a b =
        (S_OK, (if a then some rect else none), (if b then some size else none))) ∧
      Even (RectWidth rect) ∧ Even (RectHeight rect) ∧ Even size.cx ∧ Even size.cy := by
  rcases valid_or_not options with ⟨r, hr, hv⟩ | hno
  · refine ⟨_, _, fun a b => InitializeRects_of_valid options captureFrameSize a b r hr hv,
      (MakeRectEven_even r).1, (MakeRectEven_even r).2, ?_, ?_⟩ <;>
    · split
      · exact MakeEven_even _
      · exact MakeEven_even _
  · refine ⟨_, _, fun a b => InitializeRects_of_no_valid options captureFrameSize a b hno,
      (MakeRectEven_even _).1, (MakeRectEven_even _).2, ?_, ?_⟩ <;>
    · split
      · exact MakeEven_even _
      · exact MakeEven_even _

/-- C8: the input rectangle of `InitializeRects`.  With a configured source rectangle
that is present and valid it is that rectangle, same top-left corner, width and height
rounded to even; otherwise it is the rectangle at the origin whose size is the native
capture size rounded to even. -/
theorem InitializeRects_input_rect (options : OUTPUT_OPTIONS) (captureFrameSize : SIZE) (b : Bool) :
    (∀ r, options.SourceRectangle = some r → IsValidRect r = true →
      (InitializeRects options captureFrameSize true b).2.1 =
        some { left := r.left, top := r.top,
               right := r.left + MakeEven (RectWidth r),
               bottom := r.top + MakeEven (RectHeight r) }) ∧
    ((∀ r, options.SourceRectangle = some r → IsValidRect r = false) →
      (InitializeRects options captureFrameSize true b).2.1 =
        some { left := 0, top := 0,
               right := MakeEven captureFrameSize.cx,
               bottom := MakeEven captureFrameSize.cy }) := by
  constructor
  · intro r hr hv
    rw [InitializeRects_of_valid options captureFrameSize true b r hr hv, MakeRectEven_eq]
    rfl
  · intro hno
    rw [InitializeRects_of_no_valid options captureFrameSize true b hno, MakeRectEven_eq]
    have h1 := MakeEven_of_even _ (Int.even_iff.mp (MakeEven_even captureFrameSize.cx))
    have h2 := MakeEven_of_even _ (Int.even_iff.mp (MakeEven_even captureFrameSize.cy))
    simp [RectWidth, RectHeight, h1, h2]

theorem InitializeRects_input_rect_witness :
    (InitializeRects
        { SourceRectangle := some { left := 10, top := 20, right := 111, bottom := 221 },
          FrameSize := none, Stretch := .Uniform, RecorderMode := .Video,
          IsVideoFramePreviewEnabled := false }
        { cx := 1921, cy := 1081 } true true).2.1 =
      some { left := 10, top := 20, right := 10 + MakeEven 101, bottom := 20 + MakeEven 201 } ∧
    (InitializeRects
        { SourceRectangle := none,
          FrameSize := none, Stretch := .Uniform, RecorderMode := .Video,
          IsVideoFramePreviewEnabled := false }
        { cx := 1921, cy := 1081 } true true).2.1 =
      some { left := 0, top := 0, right := MakeEven 1921, bottom := MakeEven 1081 } :=
  ⟨(InitializeRects_input_rect
      { SourceRectangle := some { left := 10, top := 20, right := 111, bottom := 221 },
        FrameSize := none, Stretch := .Uniform, RecorderMode := .Video,
        IsVideoFramePreviewEnabled := false }
      { cx := 1921, cy := 1081 } true).1 { left := 10, top := 20, right := 111, bottom := 221 }
      rfl (by decide),
   (InitializeRects_input_rect
      { SourceRectangle := none,
        FrameSize := none, Stretch := .Uniform, RecorderMode := .Video,
        IsVideoFramePreviewEnabled := false }
      { cx := 1921, cy := 1081 } true).2 (by intro r h; cases h)⟩

/-- C9: the output size of `InitializeRects`.  A configured frame size with positive
width and height gives that size rounded to even; otherwise the output size is the
even-rounded size of the input rectangle, that is of the valid configured source
rectangle or else of the native capture size.  With neither a source rectangle nor a
frame size configured it is the native capture size rounded to even. -/
theorem InitializeRects_output_size (options : OUTPUT_OPTIONS) (captureFrameSize : SIZE) (a : Bool) :
    (∀ f, options.FrameSize = some f → 0 < f.cx → 0 < f.cy →
      (InitializeRects options captureFrameSize a true).2.2 =
        some { cx := MakeEven f.cx, cy := MakeEven f.cy }) ∧
    ((∀ f, options.FrameSize = some f → ¬ (0 < f.cx ∧ 0 < f.cy)) →
      (∀ r, options.SourceRectangle = some r → IsValidRect r = true →
        (InitializeRects options captureFrameSize a true).2.2 =
          some { cx := MakeEven (RectWidth r), cy := MakeEven (RectHeight r) }) ∧
      ((∀ r, options.SourceRectangle = some r → IsValidRect r = false) →
        (InitializeRects options captureFrameSize a true).2.2 =
          some { cx := MakeEven captureFrameSize.cx, cy := MakeEven captureFrameSize.cy })) ∧
    (options.SourceRectangle = none → options.FrameSize = none →
      (InitializeRects options captureFrameSize a true).2.2 =
        some { cx := MakeEven captureFrameSize.cx, cy := MakeEven captureFrameSize.cy }) := by
  have hnoframe : (∀ f, options.FrameSize = some f → ¬ (0 < f.cx ∧ 0 < f.cy)) →
      ¬ (0 < (options.FrameSize.getD { cx := 0, cy := 0 }).cx ∧
          0 < (options.FrameSize.getD { cx := 0, cy := 0 }).cy) := by
    intro h
    cases hf : options.FrameSize with
    | none => simp
    | some f => simpa using h f hf
  refine ⟨?_, ?_, ?_⟩
  · intro f hf h1 h2
    have hpos : 0 < (options.FrameSize.getD { cx := 0, cy := 0 }).cx ∧
        0 < (options.FrameSize.getD { cx := 0, cy := 0 }).cy := by
      simp [hf, h1, h2]
    rcases valid_or_not options with ⟨r, hr, hv⟩ | hno
    · rw [InitializeRects_of_valid options captureFrameSize a true r hr hv]
      simp [hf, h1, h2]
    · rw [InitializeRects_of_no_valid options captureFrameSize a true hno]
      simp [hf, h1, h2]
  · intro hnf
    have hneg := hnoframe hnf
    refine ⟨?_, ?_⟩
    · intro r hr hv
      rw [InitializeRects_of_valid options captureFrameSize a true r hr hv]
      simp only [if_true, if_neg hneg]
    · intro hno
      rw [InitializeRects_of_no_valid options captureFrameSize a true hno]
      simp only [if_true, if_neg hneg]
  · intro hs hf
    rw [InitializeRects_of_no_valid options captureFrameSize a true (by intro r h; rw [hs] at h; cases h)]
    simp [hf]

theorem InitializeRects_output_size_witness :
    (InitializeRects
        { SourceRectangle := none, FrameSize := some { cx := 1281, cy := 721 },
          Stretch := .Uniform, RecorderMode := .Video, IsVideoFramePreviewEnabled := false }
        { cx := 1921, cy := 1081 } true true).2.2 =
      some { cx := MakeEven 1281, cy := MakeEven 721 } ∧
    (InitializeRects
        { SourceRectangle := none, FrameSize := none,
          Stretch := .Uniform, RecorderMode := .Video, IsVideoFramePreviewEnabled := false }
        { cx := 1921, cy := 1081 } true true).2.2 =
      some { cx := MakeEven 1921, cy := MakeEven 1081 } :=
  ⟨(InitializeRects_output_size
      { SourceRectangle := none, FrameSize := some { cx := 1281, cy := 721 },
        Stretch := .Uniform, RecorderMode := .Video, IsVideoFramePreviewEnabled := false }
      { cx := 1921, cy := 1081 } true).1 { cx := 1281, cy := 721 } rfl (by decide) (by decide),
   (InitializeRects_output_size
      { SourceRectangle := none, FrameSize := none,
        Stretch := .Uniform, RecorderMode := .Video, IsVideoFramePreviewEnabled := false }
      { cx := 1921, cy := 1081 } true).2.2 rfl rfl⟩

/-! ## Session control surface (claims C1, C2, C3, C4) -/

theorem newCalls_append (s t : RecordingManager) (extra : List Call)
    (h : t.trace = s.trace ++ extra) : newCalls s t = extra := by
  simp [newCalls, h]

/-- C2: for every path, stream and texture argument, `TakeSnapshot` called while the
session is not recording returns `E_NOT_VALID_STATE` and does nothing else: the state
it leaves is the state it found, trace included, so no frame is acquired or copied,
no file or stream is written and the snapshot-created callback is not fired.  The same
holds for the path-only and stream-only overloads. -/
theorem TakeSnapshot_not_recording (host : Host) (s : RecordingManager) (path : String)
    (stream : Bool) (pTexture : Option Texture) (h : s.m_IsRecording = false) :
    TakeSnapshot host s path stream pTexture = some (E_NOT_VALID_STATE, s) ∧
    TakeSnapshot.ofPath host s path = some (E_NOT_VALID_STATE, s) ∧
    TakeSnapshot.ofStream host s = some (E_NOT_VALID_STATE, s) := by
  refine ⟨?_, ?_, ?_⟩
  · simp [TakeSnapshot, h]
  · simp [TakeSnapshot.ofPath, TakeSnapshot, h]
  · simp [TakeSnapshot.ofStream, TakeSnapshot, h]

theorem TakeSnapshot_not_recording_witness :
    TakeSnapshot exampleHost idleManager "C:/shot.png" true (some { Width := 8, Height := 8 })
      = some (E_NOT_VALID_STATE, idleManager) :=
  (TakeSnapshot_not_recording exampleHost idleManager "C:/shot.png" true
    (some { Width := 8, Height := 8 }) rfl).1

theorem call_trace (s : RecordingManager) (c : Call) : (s.call c).trace = s.trace ++ [c] := rfl

theorem FAILED_S_OK : FAILED S_OK = false := by decide

theorem FAILED_E_FAIL : FAILED E_FAIL = true := by decide

theorem PauseRecording_noop (s : RecordingManager)
    (h : ¬ (s.m_IsRecording = true ∧ s.m_IsPaused = false)) : PauseRecording s = s := by
  unfold PauseRecording
  rw [if_neg]
  simpa using h

theorem ResumeRecording_noop (s : RecordingManager)
    (h : ¬ (s.m_IsRecording = true ∧ s.m_IsPaused = true)) : ResumeRecording s = s := by
  unfold ResumeRecording
  rw [if_neg]
  simpa using h

theorem PauseRecording_flags (s : RecordingManager)
    (h1 : s.m_IsRecording = true) (h2 : s.m_IsPaused = false) :
    (PauseRecording s).m_IsRecording = true ∧ (PauseRecording s).m_IsPaused = true ∧
    (PauseRecording s).trace = s.trace
      ++ (if s.m_OutputManager then [Call.PauseMediaClock] else [])
      ++ (if s.RecordingStatusChangedCallback then
            [Call.RecordingStatusChangedCallback .STATUS_PAUSED] else []) := by
  unfold PauseRecording
  cases ho : s.m_OutputManager <;> cases hc : s.RecordingStatusChangedCallback <;>
    simp [h1, h2, ho, hc, RecordingManager.callIf]

theorem ResumeRecording_flags (s : RecordingManager)
    (h1 : s.m_IsRecording = true) (h2 : s.m_IsPaused = true) :
    (ResumeRecording s).m_IsRecording = true ∧ (ResumeRecording s).m_IsPaused = false ∧
    (ResumeRecording s).trace = s.trace
      ++ (if s.m_OutputManager then [Call.ResumeMediaClock] else [])
      ++ (if s.m_CaptureManager then [Call.InvalidateCaptureSources] else [])
      ++ (if s.RecordingStatusChangedCallback then
            [Call.RecordingStatusChangedCallback .STATUS_RECORDING] else []) := by
  unfold ResumeRecording
  cases ho : s.m_OutputManager <;> cases hm : s.m_CaptureManager <;>
    cases hc : s.RecordingStatusChangedCallback <;>
    simp [h1, h2, ho, hm, hc, RecordingManager.callIf]

/-- C4: `PauseRecording` and `ResumeRecording` are exactly the Recording/Paused
transitions.  `PauseRecording` acts only when recording and not paused: it sets the
paused flag, pauses the media clock of an existing output manager and calls the
registered status callback with Paused; in every other state it changes nothing.
`ResumeRecording` acts only when recording and paused: it clears the paused flag and
calls the registered status callback with Recording; in every other state it changes
nothing.  Pause then Resume from Recording gives recording and not paused, and a
repeated Pause or a repeated Resume changes nothing further. -/
theorem Pause_Resume_transitions (s : RecordingManager) :
    ((s.m_IsRecording = true ∧ s.m_IsPaused = false) →
      (PauseRecording s).m_IsRecording = true ∧ (PauseRecording s).m_IsPaused = true ∧
      newCalls s (PauseRecording s) =
        (if s.m_OutputManager then [Call.PauseMediaClock] else [])
        ++ (if s.RecordingStatusChangedCallback then
              [Call.RecordingStatusChangedCallback .STATUS_PAUSED] else [])) ∧
    (¬ (s.m_IsRecording = true ∧ s.m_IsPaused = false) → PauseRecording s = s) ∧
    ((s.m_IsRecording = true ∧ s.m_IsPaused = true) →
      (ResumeRecording s).m_IsRecording = true ∧ (ResumeRecording s).m_IsPaused = false ∧
      newCalls s (ResumeRecording s) =
        (if s.m_OutputManager then [Call.ResumeMediaClock] else [])
        ++ (if s.m_CaptureManager then [Call.InvalidateCaptureSources] else [])
        ++ (if s.RecordingStatusChangedCallback then
              [Call.RecordingStatusChangedCallback .STATUS_RECORDING] else [])) ∧
    (¬ (s.m_IsRecording = true ∧ s.m_IsPaused = true) → ResumeRecording s = s) ∧
    ((s.m_IsRecording = true ∧ s.m_IsPaused = false) →
      (ResumeRecording (PauseRecording s)).m_IsRecording = true ∧
      (ResumeRecording (PauseRecording s)).m_IsPaused = false) ∧
    PauseRecording (PauseRecording s) = PauseRecording s ∧
    ResumeRecording (ResumeRecording s) = ResumeRecording s := by
  refine ⟨?_, PauseRecording_noop s, ?_, ResumeRecording_noop s, ?_, ?_, ?_⟩
  · rintro ⟨h1, h2⟩
    obtain ⟨a, b, c⟩ := PauseRecording_flags s h1 h2
    refine ⟨a, b, newCalls_append _ _ _ ?_⟩
    simp only [c, List.append_assoc]
  · rintro ⟨h1, h2⟩
    obtain ⟨a, b, c⟩ := ResumeRecording_flags s h1 h2
    refine ⟨a, b, newCalls_append _ _ _ ?_⟩
    simp only [c, List.append_assoc]
  · rintro ⟨h1, h2⟩
    obtain ⟨a, b, _⟩ := PauseRecording_flags s h1 h2
    obtain ⟨a2, b2, _⟩ := ResumeRecording_flags (PauseRecording s) a b
    exact ⟨a2, b2⟩
  · by_cases h : s.m_IsRecording = true ∧ s.m_IsPaused = false
    · obtain ⟨_, b, _⟩ := PauseRecording_flags s h.1 h.2
      apply PauseRecording_noop
      simp [b]
    · rw [PauseRecording_noop s h, PauseRecording_noop s h]
  · by_cases h : s.m_IsRecording = true ∧ s.m_IsPaused = true
    · obtain ⟨_, b, _⟩ := ResumeRecording_flags s h.1 h.2
      apply ResumeRecording_noop
      simp [b]
    · rw [ResumeRecording_noop s h, ResumeRecording_noop s h]

theorem Pause_Resume_transitions_witness :
    ((PauseRecording recordingManager).m_IsRecording = true ∧
      (PauseRecording recordingManager).m_IsPaused = true ∧
      newCalls recordingManager (PauseRecording recordingManager) =
        (if recordingManager.m_OutputManager then [Call.PauseMediaClock] else [])
        ++ (if recordingManager.RecordingStatusChangedCallback then
              [Call.RecordingStatusChangedCallback .STATUS_PAUSED] else [])) ∧
    ((ResumeRecording (PauseRecording recordingManager)).m_IsRecording = true ∧
      (ResumeRecording (PauseRecording recordingManager)).m_IsPaused = false) :=
  ⟨(Pause_Resume_transitions recordingManager).1 ⟨rfl, rfl⟩,
   (Pause_Resume_transitions recordingManager).2.2.2.2.1 ⟨rfl, rfl⟩⟩

/-- C1: `BeginRecording` called while a session is recording returns `S_FALSE`, creates
no task and leaves the recording flag set.  If the session is paused the call is
`ResumeRecording`: afterwards the session is recording and not paused and the registered
status callback has been called with Recording.  If it is not paused the recording and
paused flags are unchanged and the only action is the call of the registered
recording-failed callback. -/
theorem BeginRecording_while_recording (host : Host) (s : RecordingManager) (path : String)
    (stream : Bool) (hrec : s.m_IsRecording = true) :
    (BeginRecording host s path stream).1 = S_FALSE ∧
    (∀ st, Call.create_task st ∉ newCalls s (BeginRecording host s path stream).2) ∧
    (BeginRecording host s path stream).2.m_IsRecording = true ∧
    (s.m_IsPaused = true →
      (BeginRecording host s path stream).2 = ResumeRecording s ∧
      (BeginRecording host s path stream).2.m_IsPaused = false ∧
      newCalls s (BeginRecording host s path stream).2 =
        (if s.m_OutputManager then [Call.ResumeMediaClock] else [])
        ++ (if s.m_CaptureManager then [Call.InvalidateCaptureSources] else [])
        ++ (if s.RecordingStatusChangedCallback then
              [Call.RecordingStatusChangedCallback .STATUS_RECORDING] else [])) ∧
    (s.m_IsPaused = false →
      (BeginRecording host s path stream).2.m_IsPaused = false ∧
      (BeginRecording host s path stream).2 =
        s.callIf s.RecordingFailedCallback
          (.RecordingFailedCallback "Recording is already in progress, aborting" "") ∧
      newCalls s (BeginRecording host s path stream).2 =
        (if s.RecordingFailedCallback then
          [Call.RecordingFailedCallback "Recording is already in progress, aborting" ""]
        else [])) := by
  cases hp : s.m_IsPaused
  · have hB : BeginRecording host s path stream =
        (S_FALSE, s.callIf s.RecordingFailedCallback
          (.RecordingFailedCallback "Recording is already in progress, aborting" "")) := by
      simp [BeginRecording, hrec, hp]
    have hN : newCalls s (BeginRecording host s path stream).2 =
        (if s.RecordingFailedCallback then
          [Call.RecordingFailedCallback "Recording is already in progress, aborting" ""]
        else []) := by
      apply newCalls_append
      rw [hB]
      cases s.RecordingFailedCallback <;> simp [RecordingManager.callIf]
    refine ⟨by rw [hB], ?_, ?_, by simp, fun _ => ⟨?_, by rw [hB], hN⟩⟩
    · intro st
      rw [hN]
      cases s.RecordingFailedCallback <;> simp
    · rw [hB]
      simp [RecordingManager.callIf, hrec]
    · rw [hB]
      simp [RecordingManager.callIf, hp]
  · have hB : BeginRecording host s path stream = (S_FALSE, ResumeRecording s) := by
      simp [BeginRecording, hrec, hp]
    obtain ⟨a, b, c⟩ := ResumeRecording_flags s hrec hp
    have hN : newCalls s (BeginRecording host s path stream).2 =
        (if s.m_OutputManager then [Call.ResumeMediaClock] else [])
        ++ (if s.m_CaptureManager then [Call.InvalidateCaptureSources] else [])
        ++ (if s.RecordingStatusChangedCallback then
              [Call.RecordingStatusChangedCallback .STATUS_RECORDING] else []) := by
      apply newCalls_append
      rw [hB]
      simp only [c, List.append_assoc]
    refine ⟨by rw [hB], ?_, by rw [hB]; exact a, fun _ => ⟨by rw [hB], by rw [hB]; exact b, hN⟩,
      by simp⟩
    intro st
    rw [hN]
    cases s.m_OutputManager <;> cases s.m_CaptureManager <;>
      cases s.RecordingStatusChangedCallback <;> simp

theorem BeginRecording_while_recording_witness :
    (BeginRecording exampleHost pausedManager "C:/out.mp4" false).1 = S_FALSE ∧
    (BeginRecording exampleHost pausedManager "C:/out.mp4" false).2.m_IsRecording = true ∧
    (BeginRecording exampleHost pausedManager "C:/out.mp4" false).2.m_IsPaused = false :=
  ⟨(BeginRecording_while_recording exampleHost pausedManager "C:/out.mp4" false rfl).1,
   (BeginRecording_while_recording exampleHost pausedManager "C:/out.mp4" false rfl).2.2.1,
   ((BeginRecording_while_recording exampleHost pausedManager "C:/out.mp4" false rfl).2.2.2.1
      rfl).2.1⟩

/-- What `ConfigureOutputDir` leaves alone, and what it appends to the trace. -/
theorem ConfigureOutputDir_frame (host : Host) (s : RecordingManager) (path : String) :
    (ConfigureOutputDir host s path).2.m_IsRecording = s.m_IsRecording ∧
    (ConfigureOutputDir host s path).2.m_IsPaused = s.m_IsPaused ∧
    (ConfigureOutputDir host s path).2.m_RecordingSources = s.m_RecordingSources ∧
    (ConfigureOutputDir host s path).2.RecordingFailedCallback = s.RecordingFailedCallback ∧
    (ConfigureOutputDir host s path).2.m_RecordTaskCts_canceled = s.m_RecordTaskCts_canceled ∧
    (ConfigureOutputDir host s path).2.trace = s.trace
      ++ (if path ≠ "" ∧
            host.exists_ (ConfigureOutputDir.directory host s.m_OutputOptions.RecorderMode path) = false then
          [Call.create_directories (ConfigureOutputDir.directory host s.m_OutputOptions.RecorderMode path)]
        else [])
      ++ (if FAILED (ConfigureOutputDir host s path).1 = true ∧ s.RecordingFailedCallback = true then
          [Call.RecordingFailedCallback ("Failed to create output folder: " ++ host.ec_message) ""]
        else []) := by
  unfold ConfigureOutputDir
  dsimp only
  generalize ConfigureOutputDir.directory host _ path = directory
  split_ifs <;> simp_all [RecordingManager.callIf, FAILED_S_OK, FAILED_E_FAIL]

/-- The shape of `BeginRecording` when no session is active. -/
theorem BeginRecording_of_idle (host : Host) (s : RecordingManager) (path : String)
    (stream : Bool) (hrec : s.m_IsRecording = false) :
    BeginRecording host s path stream =
      if (CheckDependencies host s).1 = false then
        (S_FALSE, s.callIf s.RecordingFailedCallback
          (.RecordingFailedCallback (CheckDependencies host s).2 ""))
      else if FAILED (ConfigureOutputDir host { s with m_EncoderResult := S_FALSE } path).1 = true then
        ConfigureOutputDir host { s with m_EncoderResult := S_FALSE } path
      else if s.m_RecordingSources = [] then
        (S_FALSE, (ConfigureOutputDir host { s with m_EncoderResult := S_FALSE } path).2.callIf
          s.RecordingFailedCallback
          (.RecordingFailedCallback "No valid recording sources found in recorder parameters." ""))
      else
        (S_OK, ({ (ConfigureOutputDir host { s with m_EncoderResult := S_FALSE } path).2 with
            m_IsRecording := true, m_RecordTaskCts_canceled := false }).call (.create_task stream)) := by
  have hf := ConfigureOutputDir_frame host { s with m_EncoderResult := S_FALSE } path
  unfold BeginRecording
  dsimp only
  generalize ConfigureOutputDir host { s with m_EncoderResult := S_FALSE } path = cfg at hf ⊢
  rcases cfg with ⟨hr, s1⟩
  dsimp only at hf
  obtain ⟨-, -, hsrc, hcb, -, -⟩ := hf
  rcases hd : CheckDependencies host s with ⟨ok, errorText⟩
  simp only [hrec, Bool.false_eq_true, if_false]
  cases ok
  · simp
  · simp only [Bool.not_true, Bool.false_eq_true, if_false]
    cases hfail : FAILED hr
    · simp only [Bool.false_eq_true, if_false]
      simp [hsrc, hcb]
    · simp

/-- What `BeginRecording` does in each of its four outcomes when no session is active. -/
theorem BeginRecording_idle_facts (host : Host) (s : RecordingManager) (path : String)
    (stream : Bool) (hrec : s.m_IsRecording = false) :
    ((CheckDependencies host s).1 = false →
      (BeginRecording host s path stream).1 = S_FALSE ∧
      (BeginRecording host s path stream).2.m_IsRecording = false ∧
      newCalls s (BeginRecording host s path stream).2 =
        (if s.RecordingFailedCallback then
          [Call.RecordingFailedCallback (CheckDependencies host s).2 ""] else [])) ∧
    ((CheckDependencies host s).1 = true →
      FAILED (ConfigureOutputDir host { s with m_EncoderResult := S_FALSE } path).1 = true →
      FAILED (BeginRecording host s path stream).1 = true ∧
      (BeginRecording host s path stream).2.m_IsRecording = false ∧
      newCalls s (BeginRecording host s path stream).2 =
        newCalls s (ConfigureOutputDir host { s with m_EncoderResult := S_FALSE } path).2) ∧
    ((CheckDependencies host s).1 = true →
      FAILED (ConfigureOutputDir host { s with m_EncoderResult := S_FALSE } path).1 = false →
      s.m_RecordingSources = [] →
      (BeginRecording host s path stream).1 = S_FALSE ∧
      (BeginRecording host s path stream).2.m_IsRecording = false ∧
      newCalls s (BeginRecording host s path stream).2 =
        newCalls s (ConfigureOutputDir host { s with m_EncoderResult := S_FALSE } path).2
        ++ (if s.RecordingFailedCallback then
          [Call.RecordingFailedCallback "No valid recording sources found in recorder parameters." ""]
          else [])) ∧
    ((CheckDependencies host s).1 = true →
      FAILED (ConfigureOutputDir host { s with m_EncoderResult := S_FALSE } path).1 = false →
      s.m_RecordingSources ≠ [] →
      (BeginRecording host s path stream).1 = S_OK ∧
      (BeginRecording host s path stream).2.m_IsRecording = true ∧
      (BeginRecording host s path stream).2.m_RecordTaskCts_canceled = false ∧
      newCalls s (BeginRecording host s path stream).2 =
        newCalls s (ConfigureOutputDir host { s with m_EncoderResult := S_FALSE } path).2
        ++ [Call.create_task stream]) := by
  have hf := ConfigureOutputDir_frame host { s with m_EncoderResult := S_FALSE } path
  rw [BeginRecording_of_idle host s path stream hrec]
  generalize ConfigureOutputDir host { s with m_EncoderResult := S_FALSE } path = cfg at hf ⊢
  rcases cfg with ⟨hr, s1⟩
  dsimp only at hf ⊢
  obtain ⟨hrec1, -, -, -, -, htr⟩ := hf
  rw [List.append_assoc] at htr
  refine ⟨?_, ?_, ?_, ?_⟩
  · intro hd
    simp only [hd, if_true, true_and]
    refine ⟨by simp [RecordingManager.callIf, hrec], newCalls_append _ _ _ ?_⟩
    cases s.RecordingFailedCallback <;> simp [RecordingManager.callIf]
  · intro hd hfail
    simp only [hd, hfail, Bool.true_eq_false, if_false, if_true, true_and]
    rw [hrec1, hrec]
    simp
  · intro hd hfail hsrc
    simp only [hd, hfail, hsrc, Bool.true_eq_false, Bool.false_eq_true, if_false, if_true, true_and]
    refine ⟨by simp [RecordingManager.callIf, hrec1, hrec], ?_⟩
    rw [newCalls_append s s1 _ htr]
    apply newCalls_append
    cases s.RecordingFailedCallback <;> simp [RecordingManager.callIf, htr, hfail]
  · intro hd hfail hsrc
    simp only [hd, hfail, hsrc, Bool.true_eq_false, Bool.false_eq_true, if_false, true_and]
    refine ⟨by simp [RecordingManager.call], by simp [RecordingManager.call], ?_⟩
    rw [newCalls_append s s1 _ htr]
    apply newCalls_append
    simp [RecordingManager.call, htr]

theorem ConfigureOutputDir_newCalls (host : Host) (s : RecordingManager) (path : String) :
    ∃ extra, newCalls s (ConfigureOutputDir host { s with m_EncoderResult := S_FALSE } path).2 = extra ∧
      (∀ st, Call.create_task st ∉ extra) ∧
      (FAILED (ConfigureOutputDir host { s with m_EncoderResult := S_FALSE } path).1 = true →
        s.RecordingFailedCallback = true →
        Call.RecordingFailedCallback ("Failed to create output folder: " ++ host.ec_message) "" ∈ extra) := by
  obtain ⟨-, -, -, -, -, htr⟩ :=
    ConfigureOutputDir_frame host { s with m_EncoderResult := S_FALSE } path
  dsimp only at htr
  rw [List.append_assoc] at htr
  refine ⟨_, newCalls_append s _ _ htr, ?_, ?_⟩
  · intro st
    simp only [List.mem_append, not_or]
    constructor <;> split <;> simp
  · intro hfail hcb
    have h := And.intro hfail hcb
    rw [if_pos h]
    simp

/-- The shape of `BeginRecording` when a session is active. -/
theorem BeginRecording_of_recording (host : Host) (s : RecordingManager) (path : String)
    (stream : Bool) (hrec : s.m_IsRecording = true) :
    (BeginRecording host s path stream).1 = S_FALSE ∧
    (BeginRecording host s path stream).2.m_IsRecording = true ∧
    ∀ st, Call.create_task st ∉ newCalls s (BeginRecording host s path stream).2 := by
  cases hp : s.m_IsPaused
  · have hB : BeginRecording host s path stream =
        (S_FALSE, s.callIf s.RecordingFailedCallback
          (.RecordingFailedCallback "Recording is already in progress, aborting" "")) := by
      simp [BeginRecording, hrec, hp]
    rw [hB]
    refine ⟨rfl, by simp [RecordingManager.callIf, hrec], fun st => ?_⟩
    rw [newCalls_append s _
      (if s.RecordingFailedCallback then
        [Call.RecordingFailedCallback "Recording is already in progress, aborting" ""] else [])
      (by cases s.RecordingFailedCallback <;> simp [RecordingManager.callIf])]
    cases s.RecordingFailedCallback <;> simp
  · have hB : BeginRecording host s path stream = (S_FALSE, ResumeRecording s) := by
      simp [BeginRecording, hrec, hp]
    obtain ⟨a, -, c⟩ := ResumeRecording_flags s hrec hp
    rw [hB]
    refine ⟨rfl, a, fun st => ?_⟩
    simp only [List.append_assoc] at c
    rw [newCalls_append s _ _ c]
    cases s.m_OutputManager <;> cases s.m_CaptureManager <;>
      cases s.RecordingStatusChangedCallback <;> simp

/-- C3: `BeginRecording` sets the recording flag and creates the session task exactly
when no session is active, the dependency check passes, the output directory is
configured successfully and at least one recording source is configured; in every
other case it does not return `S_OK`, leaves the recording flag as it was and creates no
task.  In particular, called with no session active and an empty source list, it leaves
the recording flag false, creates no task and calls the registered recording-failed
callback; once dependencies and output directory are in order the result is `S_FALSE`
and the failure reported is the missing recording sources. -/
theorem BeginRecording_starts_session_iff (host : Host) (s : RecordingManager) (path : String)
    (stream : Bool) :
    (canStartSession host s path = true →
      (BeginRecording host s path stream).1 = S_OK ∧
      (BeginRecording host s path stream).2.m_IsRecording = true ∧
      Call.create_task stream ∈ newCalls s (BeginRecording host s path stream).2) ∧
    (canStartSession host s path = false →
      (BeginRecording host s path stream).1 ≠ S_OK ∧
      (BeginRecording host s path stream).2.m_IsRecording = s.m_IsRecording ∧
      ∀ st, Call.create_task st ∉ newCalls s (BeginRecording host s path stream).2) ∧
    (s.m_IsRecording = false → s.m_RecordingSources = [] →
      (BeginRecording host s path stream).2.m_IsRecording = false ∧
      (∀ st, Call.create_task st ∉ newCalls s (BeginRecording host s path stream).2) ∧
      (s.RecordingFailedCallback = true →
        ∃ error, Call.RecordingFailedCallback error "" ∈
          newCalls s (BeginRecording host s path stream).2) ∧
      ((CheckDependencies host s).1 = true →
        FAILED (ConfigureOutputDir host { s with m_EncoderResult := S_FALSE } path).1 = false →
        (BeginRecording host s path stream).1 = S_FALSE ∧
        (s.RecordingFailedCallback = true →
          Call.RecordingFailedCallback "No valid recording sources found in recorder parameters." ""
            ∈ newCalls s (BeginRecording host s path stream).2))) := by
  obtain ⟨extra, hextra, hnotask, hfailcb⟩ := ConfigureOutputDir_newCalls host s path
  have hSF : ∀ hr : Int, FAILED hr = !SUCCEEDED hr := by
    intro hr
    simp only [FAILED, SUCCEEDED]
    by_cases h : hr < 0
    · simp [h]
    · simp [h, not_lt.mp h]
  refine ⟨?_, ?_, ?_⟩
  · intro hcan
    simp only [canStartSession, Bool.and_eq_true, Bool.not_eq_true', decide_eq_true_eq] at hcan
    obtain ⟨⟨⟨hrec, hd⟩, hc⟩, hsrc⟩ := hcan
    have hfail : FAILED (ConfigureOutputDir host { s with m_EncoderResult := S_FALSE } path).1
        = false := by rw [hSF, hc]; rfl
    obtain ⟨h1, h2, -, h4⟩ := (BeginRecording_idle_facts host s path stream hrec).2.2.2 hd hfail hsrc
    exact ⟨h1, h2, by rw [h4]; simp⟩
  · intro hcan
    cases hrec : s.m_IsRecording
    · obtain ⟨f1, f2, f3, f4⟩ := BeginRecording_idle_facts host s path stream hrec
      cases hd : (CheckDependencies host s).1
      · obtain ⟨h1, h2, h3⟩ := f1 hd
        refine ⟨by rw [h1]; decide, h2, fun st => ?_⟩
        rw [h3]
        cases s.RecordingFailedCallback <;> simp
      · cases hfail : FAILED (ConfigureOutputDir host { s with m_EncoderResult := S_FALSE } path).1
        · by_cases hsrc : s.m_RecordingSources = []
          · obtain ⟨h1, h2, h3⟩ := f3 hd hfail hsrc
            refine ⟨by rw [h1]; decide, h2, fun st => ?_⟩
            rw [h3, hextra]
            have := hnotask st
            cases s.RecordingFailedCallback <;> simp [this]
          · exfalso
            have hc : SUCCEEDED (ConfigureOutputDir host { s with m_EncoderResult := S_FALSE } path).1
                = true := by
              have := hSF (ConfigureOutputDir host { s with m_EncoderResult := S_FALSE } path).1
              rw [hfail] at this
              simpa using this.symm
            unfold canStartSession at hcan
            rw [hc, hd, hrec] at hcan
            simp [hsrc] at hcan
        · obtain ⟨h1, h2, h3⟩ := f2 hd hfail
          refine ⟨?_, h2, fun st => ?_⟩
          · intro h0
            rw [h0] at h1
            exact absurd h1 (by decide)
          · rw [h3, hextra]
            exact hnotask st
    · obtain ⟨h1, h2, h3⟩ := BeginRecording_of_recording host s path stream hrec
      exact ⟨by rw [h1]; decide, h2, h3⟩
  · intro hrec hsrc
    obtain ⟨f1, f2, f3, -⟩ := BeginRecording_idle_facts host s path stream hrec
    cases hd : (CheckDependencies host s).1
    · obtain ⟨-, h2, h3⟩ := f1 hd
      refine ⟨h2, fun st => ?_, fun hcb => ⟨(CheckDependencies host s).2, ?_⟩,
        fun h => by cases h⟩
      · rw [h3]
        cases s.RecordingFailedCallback <;> simp
      · rw [h3, hcb]
        simp
    · cases hfail : FAILED (ConfigureOutputDir host { s with m_EncoderResult := S_FALSE } path).1
      · obtain ⟨h1, h2, h3⟩ := f3 hd hfail hsrc
        refine ⟨h2, fun st => ?_,
          fun hcb => ⟨"No valid recording sources found in recorder parameters.", ?_⟩,
          fun _ _ => ⟨h1, fun hcb => ?_⟩⟩
        · rw [h3, hextra]
          have := hnotask st
          cases s.RecordingFailedCallback <;> simp [this]
        · rw [h3, hcb]
          simp
        · rw [h3, hcb]
          simp
      · obtain ⟨-, h2, h3⟩ := f2 hd hfail
        refine ⟨h2, fun st => ?_,
          fun hcb => ⟨"Failed to create output folder: " ++ host.ec_message, ?_⟩,
          fun _ h => by cases h⟩
        · rw [h3, hextra]
          exact hnotask st
        · rw [h3, hextra]
          exact hfailcb hfail hcb

theorem BeginRecording_starts_session_iff_witness :
    ((BeginRecording exampleHost idleManager "C:/out.mp4" false).1 = S_OK ∧
      (BeginRecording exampleHost idleManager "C:/out.mp4" false).2.m_IsRecording = true ∧
      Call.create_task false ∈
        newCalls idleManager (BeginRecording exampleHost idleManager "C:/out.mp4" false).2) ∧
    (BeginRecording exampleHost { idleManager with m_RecordingSources := [] } "C:/out.mp4"
      false).2.m_IsRecording = false :=
  ⟨(BeginRecording_starts_session_iff exampleHost idleManager "C:/out.mp4" false).1 (by decide),
   ((BeginRecording_starts_session_iff exampleHost { idleManager with m_RecordingSources := [] }
      "C:/out.mp4" false).2.2 rfl rfl).1⟩

/-! ## Recorder loop: all sources failed (claim C10) -/

theorem restartOrExit_exitPoint (inp : CycleInput) (st : RecorderLoop)
    (captureResult : CAPTURE_RESULT) (code : HRESULT) :
    (restartOrExit inp st captureResult code).exitPoint ≠ some .AllSourcesFailed := by
  unfold restartOrExit
  dsimp only
  simp only [apply_ite ErrorBlockOutcome.exitPoint, ErrorBlockOutcome.exitPoint]
  split_ifs <;> simp

theorem recordFrame_exitPoint (inp : CycleInput) (st : RecorderLoop) :
    (recordFrame inp st).exitPoint ≠ some .AllSourcesFailed := by
  unfold recordFrame
  dsimp only
  generalize PrepareAndRenderFrame inp _ _ _ = p
  rcases p with _ | ⟨hr, st2⟩ <;> dsimp only <;>
    simp only [apply_ite CycleOutcome.exitPoint, CycleOutcome.exitPoint] <;>
    split_ifs <;> simp

theorem allSourcesFailedUnrecoverably_iff (captureData : List CAPTURE_RESULT) :
    allSourcesFailedUnrecoverably captureData = true ↔
      captureData ≠ [] ∧
        ∀ r ∈ captureData, FAILED r.RecordingResult = true ∧ r.IsRecoverableError = false := by
  unfold allSourcesFailedUnrecoverably
  simp [List.length_pos]

theorem handleErrorEvent_exitPoint (inp : CycleInput) (st : RecorderLoop)
    (hrule : allSourcesFailedUnrecoverably inp.captureResults = false) :
    (handleErrorEvent inp st).exitPoint ≠ some .AllSourcesFailed := by
  unfold handleErrorEvent
  simp only [hrule, Bool.false_eq_true, if_false]
  split
  · exact restartOrExit_exitPoint _ _ _ _
  · split
    · split
      · exact restartOrExit_exitPoint _ _ _ _
      · simp [ErrorBlockOutcome.exitPoint]
    · simp [ErrorBlockOutcome.exitPoint]

theorem recorderLoopCycle_exitPoint (inp : CycleInput) (st : RecorderLoop)
    (hrule : allSourcesFailedUnrecoverably inp.captureResults = false) :
    (recorderLoopCycle inp st).exitPoint ≠ some .AllSourcesFailed := by
  unfold recorderLoopCycle
  split
  · simp [CycleOutcome.exitPoint]
  · dsimp only
    split
    · have h := handleErrorEvent_exitPoint inp
        { st with ErrorEvent := st.ErrorEvent || inp.ErrorEventSignalled } hrule
      revert h
      generalize handleErrorEvent inp _ = o
      intro h
      cases o with
      | proceed st2 => exact recordFrame_exitPoint _ _
      | continue_ st2 => simp [CycleOutcome.exitPoint]
      | exit point result st2 => simpa [CycleOutcome.exitPoint, ErrorBlockOutcome.exitPoint] using h
    · exact recordFrame_exitPoint _ _

/-- C10: in an iteration that is not cancelled at the top, with the error event
signalled, at least one capture source and every source's result a failure that is not
recoverable, the loop returns the first source's failure code and does nothing else:
the state is left as it was (no call is made, so no restart is attempted, and the
restart count is unchanged), and the whole loop ends there whatever later iterations
would bring.  Conversely, when some source has not reported an unrecoverable failure,
the iteration does not leave the loop through this all-sources-failed return. -/
theorem all_sources_failed_ends_session (inp : CycleInput) (st : RecorderLoop) :
    (inp.is_canceled_top = false → (st.ErrorEvent = true ∨ inp.ErrorEventSignalled = true) →
      ∀ hne : inp.captureResults ≠ [],
      (∀ r ∈ inp.captureResults, FAILED r.RecordingResult = true ∧ r.IsRecoverableError = false) →
      FAILED (inp.captureResults.head hne).RecordingResult = true ∧
      recorderLoopCycle inp st =
        .exit .AllSourcesFailed
          (REC_RESULT.ofHRESULT (inp.captureResults.head hne).RecordingResult "")
          { st with ErrorEvent := true } ∧
      (∀ later, recorderLoop (inp :: later) st =
        some (.AllSourcesFailed,
          REC_RESULT.ofHRESULT (inp.captureResults.head hne).RecordingResult "",
          { st with ErrorEvent := true })) ∧
      newCalls st.mgr ({ st with ErrorEvent := true } : RecorderLoop).mgr = [] ∧
      ({ st with ErrorEvent := true } : RecorderLoop).mgr.m_RestartCaptureCount
        = st.mgr.m_RestartCaptureCount) ∧
    ((∃ r ∈ inp.captureResults,
        ¬ (FAILED r.RecordingResult = true ∧ r.IsRecoverableError = false)) →
      ∀ result st', recorderLoopCycle inp st ≠ .exit .AllSourcesFailed result st') := by
  constructor
  · intro hc he hne hall
    have hrule := (allSourcesFailedUnrecoverably_iff inp.captureResults).mpr ⟨hne, hall⟩
    have hev : (st.ErrorEvent || inp.ErrorEventSignalled) = true := by
      rcases he with h | h <;> simp [h]
    have hcycle : recorderLoopCycle inp st =
        .exit .AllSourcesFailed
          (REC_RESULT.ofHRESULT (inp.captureResults.head hne).RecordingResult "")
          { st with ErrorEvent := true } := by
      obtain ⟨first, others, hlist⟩ := List.exists_cons_of_ne_nil hne
      have hhead : ∀ (l : List CAPTURE_RESULT) (h : l ≠ []), l = first :: others →
          l.head h = first := by
        intro l h e
        subst e
        rfl
      rw [hhead _ hne hlist]
      unfold recorderLoopCycle
      simp only [hc, Bool.false_eq_true, if_false, hev, if_true]
      unfold handleErrorEvent
      rw [if_pos hrule]
      simp only [hlist]
    refine ⟨(hall _ (List.head_mem hne)).1, hcycle, ?_, ?_, rfl⟩
    · intro later
      simp only [recorderLoop, hcycle]
    · simp [newCalls]
  · rintro ⟨r, hr, hnot⟩ result st' heq
    have hrule : allSourcesFailedUnrecoverably inp.captureResults = false := by
      cases h : allSourcesFailedUnrecoverably inp.captureResults
      · rfl
      · exact absurd (((allSourcesFailedUnrecoverably_iff _).mp h).2 r hr) hnot
    have h := recorderLoopCycle_exitPoint inp st hrule
    rw [heq] at h
    exact h rfl

theorem all_sources_failed_ends_session_witness :
    recorderLoopCycle allFailedInput exampleLoop =
      .exit .AllSourcesFailed (REC_RESULT.ofHRESULT E_FAIL "")
        { exampleLoop with ErrorEvent := true } :=
  ((all_sources_failed_ends_session allFailedInput exampleLoop).1 rfl (Or.inr rfl)
    (by decide) (by decide)).2.1

/-! ## End of the session task (claims C17, C18, C19) -/

theorem callIf_trace (s : RecordingManager) (p : Bool) (c : Call) :
    (s.callIf p c).trace = s.trace ++ (if p then [c] else []) := by
  cases p <;> simp [RecordingManager.callIf]

/-- The calls `SetRecordingCompleteStatus` makes and the flags it leaves alone. -/
theorem SetRecordingCompleteStatus_calls (text : ErrorText) (s : RecordingManager)
    (result : REC_RESULT) (frameDelays : List (String × Int)) :
    (SetRecordingCompleteStatus text s result frameDelays).m_IsRecording = s.m_IsRecording ∧
    (SetRecordingCompleteStatus text s result frameDelays).m_IsPaused = s.m_IsPaused ∧
    (SetRecordingCompleteStatus text s result frameDelays).trace = s.trace ++
      ((if s.RecordingStatusChangedCallback then
        [Call.RecordingStatusChangedCallback .STATUS_IDLE] else [])
      ++ (if SUCCEEDED result.RecordingResult && SUCCEEDED result.FinalizeResult then
            (if s.RecordingCompleteCallback then
              [Call.RecordingCompleteCallback s.m_OutputFullPath frameDelays] else [])
          else
            (if s.RecordingFailedCallback then
              [Call.RecordingFailedCallback (SetRecordingCompleteStatus.message text s result)
                (if SUCCEEDED result.FinalizeResult then s.m_OutputFullPath else "")]
            else []))) := by
  unfold SetRecordingCompleteStatus
  dsimp only
  cases hs : (SUCCEEDED result.RecordingResult && SUCCEEDED result.FinalizeResult)
  · simp only [Bool.false_eq_true, if_false]
    refine ⟨by simp [RecordingManager.callIf], by simp [RecordingManager.callIf], ?_⟩
    simp only [callIf_trace, List.append_assoc]
    simp [RecordingManager.callIf, SetRecordingCompleteStatus.message]
  · simp only [if_true]
    refine ⟨by simp [RecordingManager.callIf], by simp [RecordingManager.callIf], ?_⟩
    simp only [callIf_trace, List.append_assoc]
    simp [RecordingManager.callIf]

/-- C17: when the session task ends, the continuation clears the recording flag and the
paused flag whatever the task result is, also when the task threw, and
`SetRecordingCompleteStatus` calls the registered status callback with Idle first, for
every recording result and finalize result, a failing finalize result included; the
continuation does so whenever the manager is not being destructed. -/
theorem session_returns_to_idle (text : ErrorText) (s : RecordingManager)
    (taskResult : Option REC_RESULT) (initialResult result : REC_RESULT)
    (frameDelays : List (String × Int)) :
    (recordTaskContinuation text s taskResult initialResult frameDelays).m_IsRecording = false ∧
    (recordTaskContinuation text s taskResult initialResult frameDelays).m_IsPaused = false ∧
    (s.RecordingStatusChangedCallback = true →
      (newCalls s (SetRecordingCompleteStatus text s result frameDelays)).head?
        = some (Call.RecordingStatusChangedCallback .STATUS_IDLE)) ∧
    (s.RecordingStatusChangedCallback = true → s.m_IsDestructing = false →
      Call.RecordingStatusChangedCallback .STATUS_IDLE
        ∈ newCalls s (recordTaskContinuation text s taskResult initialResult frameDelays)) := by
  refine ⟨?_, ?_, ?_, ?_⟩
  · unfold recordTaskContinuation
    dsimp only
    split
    · rw [(SetRecordingCompleteStatus_calls _ _ _ _).1]
      rfl
    · rfl
  · unfold recordTaskContinuation
    dsimp only
    split
    · rw [(SetRecordingCompleteStatus_calls _ _ _ _).2.1]
      rfl
    · rfl
  · intro hcb
    rw [newCalls_append _ _ _ (SetRecordingCompleteStatus_calls _ _ _ _).2.2, hcb]
    simp
  · intro hcb hd
    unfold recordTaskContinuation
    dsimp only
    have hd2 : (!(RecordingManager.call
        { s with m_CaptureManager := false, m_MouseManager := false, m_IsRecording := false,
                 m_IsPaused := false } Call.CleanupDxResources).m_IsDestructing) = true := by
      simp [RecordingManager.call, hd]
    rw [if_pos hd2]
    unfold newCalls
    rw [(SetRecordingCompleteStatus_calls _ _ _ _).2.2]
    simp [RecordingManager.call, hcb]

/-- Witness for C17: the session of `recordingManager` ends with a failed recording result
and a failed finalize result. -/
theorem session_returns_to_idle_witness :
    (recordTaskContinuation exampleText pausedManager (some ⟨E_FAIL, E_FAIL, ""⟩)
      ⟨S_OK, S_OK, ""⟩ []).m_IsRecording = false ∧
    (recordTaskContinuation exampleText pausedManager (some ⟨E_FAIL, E_FAIL, ""⟩)
      ⟨S_OK, S_OK, ""⟩ []).m_IsPaused = false ∧
    (newCalls pausedManager
        (SetRecordingCompleteStatus exampleText pausedManager ⟨E_FAIL, E_FAIL, ""⟩ [])).head?
      = some (Call.RecordingStatusChangedCallback .STATUS_IDLE) ∧
    Call.RecordingStatusChangedCallback .STATUS_IDLE
      ∈ newCalls pausedManager (recordTaskContinuation exampleText pausedManager
          (some ⟨E_FAIL, E_FAIL, ""⟩) ⟨S_OK, S_OK, ""⟩ []) :=
  have h := session_returns_to_idle exampleText pausedManager (some ⟨E_FAIL, E_FAIL, ""⟩)
    ⟨S_OK, S_OK, ""⟩ ⟨E_FAIL, E_FAIL, ""⟩ []
  ⟨h.1, h.2.1, h.2.2.1 rfl, h.2.2.2 rfl rfl⟩

/-- C18: with the recording-complete and the recording-failed callback both registered,
`SetRecordingCompleteStatus` makes, after the status callback, exactly one further call:
the recording-complete callback when the recording result and the finalize result both
succeed, the recording-failed callback otherwise; so the recording-complete callback is
among its calls if and only if both results succeed, and the recording-failed callback
if and only if they do not. -/
theorem exactly_one_completion_callback (text : ErrorText) (s : RecordingManager)
    (result : REC_RESULT) (frameDelays : List (String × Int))
    (hcomplete : s.RecordingCompleteCallback = true)
    (hfailed : s.RecordingFailedCallback = true) :
    (∃ c, newCalls s (SetRecordingCompleteStatus text s result frameDelays)
        = (if s.RecordingStatusChangedCallback then
            [Call.RecordingStatusChangedCallback .STATUS_IDLE] else []) ++ [c]
      ∧ ((SUCCEEDED result.RecordingResult = true ∧ SUCCEEDED result.FinalizeResult = true) →
          c = Call.RecordingCompleteCallback s.m_OutputFullPath frameDelays)
      ∧ (¬ (SUCCEEDED result.RecordingResult = true ∧ SUCCEEDED result.FinalizeResult = true) →
          c = Call.RecordingFailedCallback (SetRecordingCompleteStatus.message text s result)
                (if SUCCEEDED result.FinalizeResult then s.m_OutputFullPath else ""))) ∧
    ((∃ path delays, Call.RecordingCompleteCallback path delays
          ∈ newCalls s (SetRecordingCompleteStatus text s result frameDelays))
      ↔ (SUCCEEDED result.RecordingResult = true ∧ SUCCEEDED result.FinalizeResult = true)) ∧
    ((∃ message path, Call.RecordingFailedCallback message path
          ∈ newCalls s (SetRecordingCompleteStatus text s result frameDelays))
      ↔ ¬ (SUCCEEDED result.RecordingResult = true ∧ SUCCEEDED result.FinalizeResult = true)) := by
  rw [newCalls_append _ _ _ (SetRecordingCompleteStatus_calls text s result frameDelays).2.2,
    hcomplete, hfailed]
  by_cases hs : SUCCEEDED result.RecordingResult = true ∧ SUCCEEDED result.FinalizeResult = true
  · have hb : (SUCCEEDED result.RecordingResult && SUCCEEDED result.FinalizeResult) = true := by
      simp [hs.1, hs.2]
    rw [hb]
    refine ⟨⟨_, rfl, fun _ => rfl, fun h => absurd hs h⟩, ?_, ?_⟩
    · cases s.RecordingStatusChangedCallback <;> simp [hs]
    · cases s.RecordingStatusChangedCallback <;> simp [hs]
  · have hb : (SUCCEEDED result.RecordingResult && SUCCEEDED result.FinalizeResult) = false := by
      simpa using hs
    rw [hb]
    refine ⟨⟨_, rfl, fun h => absurd h hs, fun _ => rfl⟩, ?_, ?_⟩
    · cases s.RecordingStatusChangedCallback <;> simp [hs]
    · cases s.RecordingStatusChangedCallback <;> simp [hs]

/-- Witness for C18: a session of `recordingManager` whose recording succeeded and whose
finalize failed. -/
theorem exactly_one_completion_callback_witness :
    recordingManager.RecordingCompleteCallback = true ∧
    recordingManager.RecordingFailedCallback = true ∧
    ((∃ message path, Call.RecordingFailedCallback message path
          ∈ newCalls recordingManager
              (SetRecordingCompleteStatus exampleText recordingManager ⟨S_OK, E_FAIL, ""⟩ []))
      ↔ ¬ (SUCCEEDED S_OK = true ∧ SUCCEEDED E_FAIL = true)) :=
  ⟨rfl, rfl,
    (exactly_one_completion_callback exampleText recordingManager ⟨S_OK, E_FAIL, ""⟩ []
      rfl rfl).2.2⟩

/-- C19: whenever `SetRecordingCompleteStatus` calls the recording-failed callback, the
path it passes is the output path of the session if the finalize result succeeded and
the empty string if the finalize result failed. -/
theorem failed_callback_path (text : ErrorText) (s : RecordingManager)
    (result : REC_RESULT) (frameDelays : List (String × Int)) (message path : String)
    (hcall : Call.RecordingFailedCallback message path
      ∈ newCalls s (SetRecordingCompleteStatus text s result frameDelays)) :
    (SUCCEEDED result.FinalizeResult = true → path = s.m_OutputFullPath) ∧
    (FAILED result.FinalizeResult = true → path = "") := by
  rw [newCalls_append _ _ _ (SetRecordingCompleteStatus_calls text s result frameDelays).2.2]
    at hcall
  have hsf : FAILED result.FinalizeResult = true → SUCCEEDED result.FinalizeResult = false := by
    unfold FAILED SUCCEEDED
    intro h
    simp only [decide_eq_true_eq] at h
    simp only [decide_eq_false_iff_not, not_le]
    exact h
  have hpath : path = if SUCCEEDED result.FinalizeResult then s.m_OutputFullPath else "" := by
    revert hcall
    cases s.RecordingStatusChangedCallback <;> cases s.RecordingCompleteCallback <;>
      cases s.RecordingFailedCallback <;>
      cases (SUCCEEDED result.RecordingResult && SUCCEEDED result.FinalizeResult) <;>
      simp
  constructor
  · intro h
    rw [hpath, h]
    rfl
  · intro h
    rw [hpath, hsf h]
    rfl

/-- Witness for C19: the recording of a manager writing to `C:/out.mp4` failed and
finalize succeeded, so the failed callback passes that path. -/
theorem failed_callback_path_witness :
    Call.RecordingFailedCallback "Unspecified error" "C:/out.mp4"
      ∈ newCalls { recordingManager with m_OutputFullPath := "C:/out.mp4" }
          (SetRecordingCompleteStatus exampleText
            { recordingManager with m_OutputFullPath := "C:/out.mp4" } ⟨E_FAIL, S_OK, ""⟩ []) ∧
    (SUCCEEDED S_OK = true → "C:/out.mp4" = "C:/out.mp4") ∧
    (FAILED S_OK = true → "C:/out.mp4" = "") :=
  have h : Call.RecordingFailedCallback "Unspecified error" "C:/out.mp4"
      ∈ newCalls { recordingManager with m_OutputFullPath := "C:/out.mp4" }
          (SetRecordingCompleteStatus exampleText
            { recordingManager with m_OutputFullPath := "C:/out.mp4" } ⟨E_FAIL, S_OK, ""⟩ []) := by
    decide
  ⟨h, failed_callback_path exampleText { recordingManager with m_OutputFullPath := "C:/out.mp4" }
    ⟨E_FAIL, S_OK, ""⟩ [] "Unspecified error" "C:/out.mp4" h⟩

/-! ## Retry budget and restart (claims C11, C13) -/

/-- A recoverable failure among the capture results rules out the all-sources-failed
return. -/
theorem not_allSourcesFailed_of_find (captureData : List CAPTURE_RESULT) (r : CAPTURE_RESULT)
    (hfirst : captureData.find? (fun obj => FAILED obj.RecordingResult && obj.IsRecoverableError)
      = some r) :
    allSourcesFailedUnrecoverably captureData = false ∧ FAILED r.RecordingResult = true := by
  have hp := List.find?_some hfirst
  have hm := List.mem_of_find?_eq_some hfirst
  simp only [Bool.and_eq_true] at hp
  refine ⟨?_, hp.1⟩
  cases h : allSourcesFailedUnrecoverably captureData
  · rfl
  · have h2 := ((allSourcesFailedUnrecoverably_iff captureData).mp h).2 r hm
    rw [hp.2] at h2
    exact absurd h2.2 (by decide)

theorem recordFrame_exitPoint_retry (inp : CycleInput) (st : RecorderLoop) :
    (recordFrame inp st).exitPoint ≠ some .RetryCountExceeded := by
  unfold recordFrame
  dsimp only
  generalize PrepareAndRenderFrame inp _ _ _ = p
  rcases p with _ | ⟨hr, st2⟩ <;> dsimp only <;>
    simp only [apply_ite CycleOutcome.exitPoint, CycleOutcome.exitPoint] <;>
    split_ifs <;> simp

/-- C11: in an iteration that is not cancelled at the top and in which the error event
is signalled, let `r` be the first recoverable failure among the capture results.  If
its permitted-retry count is non-negative and the restart count has reached it, the
loop returns with the code of `r` and the text "Retry count was exceeded, exiting",
and the manager is left as it was, so no call of `RestartCapture` is made.  If the
permitted-retry count is negative, the iteration does not leave through the
retry-count return whatever the restart count is: the error block runs
`RestartCapture` for `r`. -/
theorem retry_budget (inp : CycleInput) (st : RecorderLoop) (r : CAPTURE_RESULT)
    (hcancel : inp.is_canceled_top = false)
    (hevent : (st.ErrorEvent || inp.ErrorEventSignalled) = true)
    (hfirst : inp.captureResults.find?
      (fun obj => FAILED obj.RecordingResult && obj.IsRecoverableError) = some r) :
    (0 ≤ r.NumberOfRetries → r.NumberOfRetries ≤ st.mgr.m_RestartCaptureCount →
      recorderLoopCycle inp st
        = .exit .RetryCountExceeded
            (REC_RESULT.ofHRESULT r.RecordingResult "Retry count was exceeded, exiting")
            { st with ErrorEvent := true }) ∧
    (r.NumberOfRetries < 0 →
      (recorderLoopCycle inp st).exitPoint ≠ some .RetryCountExceeded ∧
      handleErrorEvent inp { st with ErrorEvent := true }
        = (if FAILED (RestartCapture inp.restart { st with ErrorEvent := true } r).hr then
            .continue_
              { RestartCapture inp.restart { st with ErrorEvent := true } r with
                ErrorEvent := true
                mgr := (RestartCapture inp.restart { st with ErrorEvent := true } r).mgr.call
                  .SetEvent }
          else .proceed (RestartCapture inp.restart { st with ErrorEvent := true } r))) := by
  obtain ⟨hrule, hfail⟩ := not_allSourcesFailed_of_find _ _ hfirst
  have hblock : ∀ st2 : RecorderLoop, handleErrorEvent inp st2
      = restartOrExit inp st2 r r.RecordingResult := by
    intro st2
    unfold handleErrorEvent
    simp only [hrule, Bool.false_eq_true, if_false, hfirst]
  have hcycle : recorderLoopCycle inp st
      = match handleErrorEvent inp { st with ErrorEvent := true } with
        | .exit point result st => .exit point result st
        | .continue_ st => .next st
        | .proceed st => recordFrame inp st := by
    unfold recorderLoopCycle
    simp only [hcancel, Bool.false_eq_true, if_false, hevent, if_true]
  constructor
  · intro h0 hreached
    rw [hcycle, hblock]
    unfold restartOrExit
    have hc : (r.NumberOfRetries ≥ 0
        ∧ ({ st with ErrorEvent := true } : RecorderLoop).mgr.m_RestartCaptureCount
            ≥ r.NumberOfRetries) ∧ FAILED r.RecordingResult = true := ⟨⟨h0, hreached⟩, hfail⟩
    rw [if_pos hc]
  · intro hneg
    have hc : ∀ st2 : RecorderLoop, ¬ ((r.NumberOfRetries ≥ 0
        ∧ st2.mgr.m_RestartCaptureCount ≥ r.NumberOfRetries)
        ∧ FAILED r.RecordingResult = true) := by
      intro st2 h
      exact absurd h.1.1 (not_le.mpr hneg)
    have hrestart : ∀ st2 : RecorderLoop, restartOrExit inp st2 r r.RecordingResult
        = (if FAILED (RestartCapture inp.restart st2 r).hr then
            .continue_
              { RestartCapture inp.restart st2 r with
                ErrorEvent := true
                mgr := (RestartCapture inp.restart st2 r).mgr.call .SetEvent }
          else .proceed (RestartCapture inp.restart st2 r)) := by
      intro st2
      unfold restartOrExit
      rw [if_neg (hc st2)]
    refine ⟨?_, ?_⟩
    · rw [hcycle, hblock, hrestart]
      split_ifs
      · simp [CycleOutcome.exitPoint]
      · exact recordFrame_exitPoint_retry _ _
    · rw [hblock, hrestart]

/-- Witness for C11: with two retries permitted and two restarts made the loop returns
the failure code of the source; with unlimited retries and the same two restarts it does
not return through the retry-count check. -/
theorem retry_budget_witness :
    recorderLoopCycle retryInput restartedLoop
      = .exit .RetryCountExceeded
          (REC_RESULT.ofHRESULT DXGI_ERROR_WAIT_TIMEOUT "Retry count was exceeded, exiting")
          { restartedLoop with ErrorEvent := true } ∧
    (recorderLoopCycle unlimitedRetryInput restartedLoop).exitPoint
      ≠ some .RetryCountExceeded :=
  ⟨(retry_budget retryInput restartedLoop { recoverableResult with NumberOfRetries := 2 }
      rfl rfl rfl).1 (by decide) (by decide),
    ((retry_budget unlimitedRetryInput restartedLoop recoverableResult rfl rfl rfl).2
      (by decide)).1⟩

/-- C13: `RestartCapture` given a failure that is not a device error makes no call that
cleans or creates the graphics device, sets the viewport or initialises the mouse
manager, the texture manager or the output manager: it stops the capture, waits, and,
if stopping succeeded, recreates and initialises the capture manager and, if that
succeeded, resets the error event and starts the capture with the sources and overlays
the loop was started with.  Whenever one of the device-level calls is made, the failure
given is flagged as a device error and stopping the capture succeeded.  Given a device
error, with stopping the capture and every initialisation before it succeeding, the
device is cleaned and created again and the three managers are initialised before the
capture manager is recreated.  The sources and overlays of the loop are left as they
were. -/
theorem RestartCapture_device_gate (a : RestartAnswers) (st : RecorderLoop)
    (result : CAPTURE_RESULT) :
    (result.IsDeviceError = false →
      newCalls st.mgr (RestartCapture a st result).mgr
        = [Call.StopCapture, Call.Wait]
          ++ (if SUCCEEDED a.StopCapture then
                [Call.CaptureManagerReset, Call.CaptureManagerInitialize] else [])
          ++ (if SUCCEEDED a.StopCapture && SUCCEEDED a.CaptureManagerInitialize then
                [Call.ResetEvent, Call.StartCapture st.sources st.overlays] else [])) ∧
    (∀ c ∈ newCalls st.mgr (RestartCapture a st result).mgr,
      (c = Call.CleanDx ∨ c = Call.InitializeDx
        ∨ c = Call.SetViewPort st.videoOutputFrameSize.cx st.videoOutputFrameSize.cy
        ∨ c = Call.MouseManagerInitialize ∨ c = Call.TextureManagerInitialize
        ∨ c = Call.OutputManagerInitialize) →
      result.IsDeviceError = true ∧ SUCCEEDED a.StopCapture = true) ∧
    (result.IsDeviceError = true → SUCCEEDED a.StopCapture = true →
      SUCCEEDED a.InitializeDx = true → SUCCEEDED a.MouseManagerInitialize = true →
      SUCCEEDED a.TextureManagerInitialize = true →
      newCalls st.mgr (RestartCapture a st result).mgr
        = [Call.StopCapture, Call.Wait, Call.CleanDx, Call.InitializeDx,
            Call.SetViewPort st.videoOutputFrameSize.cx st.videoOutputFrameSize.cy,
            Call.MouseManagerInitialize, Call.TextureManagerInitialize,
            Call.OutputManagerInitialize]
          ++ (if SUCCEEDED a.OutputManagerInitialize then
                [Call.CaptureManagerReset, Call.CaptureManagerInitialize] else [])
          ++ (if SUCCEEDED a.OutputManagerInitialize && SUCCEEDED a.CaptureManagerInitialize
              then [Call.ResetEvent, Call.StartCapture st.sources st.overlays] else [])) ∧
    (RestartCapture a st result).sources = st.sources ∧
    (RestartCapture a st result).overlays = st.overlays := by
  rw [newCalls_append st.mgr (RestartCapture a st result).mgr _ rfl]
  refine ⟨?_, ?_, ?_, rfl, rfl⟩
  · intro hdev
    simp only [hdev, Bool.and_false, Bool.false_and, Bool.false_eq_true, if_false,
      List.append_nil]
    cases h : SUCCEEDED a.StopCapture <;> simp [h]
  · intro c hc hdevice
    cases hdev : result.IsDeviceError
    · exfalso
      simp only [hdev, Bool.and_false, Bool.false_and, Bool.false_eq_true, if_false,
        List.append_nil] at hc
      rcases hdevice with h | h | h | h | h | h <;> subst h <;>
        cases SUCCEEDED a.StopCapture <;>
        cases SUCCEEDED a.CaptureManagerInitialize <;> simp at hc
    · cases hstop : SUCCEEDED a.StopCapture
      · exfalso
        simp only [hstop, hdev, Bool.and_false, Bool.false_and, Bool.false_eq_true, if_false,
          List.append_nil] at hc
        rcases hdevice with h | h | h | h | h | h <;> subst h <;> simp at hc
      · exact ⟨rfl, rfl⟩
  · intro hdev hstop hdx hmouse htexture
    simp only [hdev, hstop, hdx, hmouse, htexture, Bool.and_true, Bool.true_and, if_true]
    cases h : SUCCEEDED a.OutputManagerInitialize <;> simp [h]

/-- Witness for C13: a restart for a device error in which every step succeeds. -/
theorem RestartCapture_device_gate_witness :
    newCalls exampleLoop.mgr
        (RestartCapture exampleRestart exampleLoop
          { recoverableResult with IsDeviceError := true }).mgr
      = [Call.StopCapture, Call.Wait, Call.CleanDx, Call.InitializeDx,
          Call.SetViewPort 1920 1080, Call.MouseManagerInitialize,
          Call.TextureManagerInitialize, Call.OutputManagerInitialize,
          Call.CaptureManagerReset, Call.CaptureManagerInitialize, Call.ResetEvent,
          Call.StartCapture [exampleSource] []] ∧
    newCalls exampleLoop.mgr (RestartCapture exampleRestart exampleLoop recoverableResult).mgr
      = [Call.StopCapture, Call.Wait, Call.CaptureManagerReset, Call.CaptureManagerInitialize,
          Call.ResetEvent, Call.StartCapture [exampleSource] []] :=
  ⟨(RestartCapture_device_gate exampleRestart exampleLoop
      { recoverableResult with IsDeviceError := true }).2.2.1 rfl rfl rfl rfl rfl,
    (RestartCapture_device_gate exampleRestart exampleLoop recoverableResult).1 rfl⟩

/-! ## Calls that hand no frame to the encoder -/

theorem noFrameHanded_refl (s : RecordingManager) : noFrameHanded s s :=
  ⟨[], by simp [RecordingManager.calls], rfl⟩

theorem noFrameHanded_trans {s t u : RecordingManager} (h1 : noFrameHanded s t)
    (h2 : noFrameHanded t u) : noFrameHanded s u := by
  obtain ⟨e1, rfl, hr1⟩ := h1
  obtain ⟨e2, rfl, hr2⟩ := h2
  refine ⟨e1 ++ e2, by simp [RecordingManager.calls], ?_⟩
  simp only [renderedFrames, List.filterMap_append] at hr1 hr2 ⊢
  rw [hr1, hr2]
  rfl

theorem noFrameHanded_call (s : RecordingManager) (c : Call) (hc : c.renderedFrame? = none) :
    noFrameHanded s (s.call c) :=
  ⟨[c], rfl, by simp [renderedFrames, hc]⟩

theorem noFrameHanded_callIf (s : RecordingManager) (p : Bool) (c : Call)
    (hc : c.renderedFrame? = none) : noFrameHanded s (s.callIf p c) := by
  cases p
  · exact ⟨[], by simp [RecordingManager.calls, RecordingManager.callIf], rfl⟩
  · exact ⟨[c], by simp [RecordingManager.calls, RecordingManager.callIf],
      by simp [renderedFrames, hc]⟩

theorem resize_noFrameHanded (host : Host) (s : RecordingManager) (hr : HRESULT)
    (pProcessedTexture : Texture) (videoInputFrameRect : RECT) (videoOutputFrameSize : SIZE)
    (r : HRESULT × Option Texture × RecordingManager)
    (h : ProcessTextureTransforms.resize host s hr pProcessedTexture videoInputFrameRect
      videoOutputFrameSize = some r) : noFrameHanded s r.2.2 := by
  unfold ProcessTextureTransforms.resize at h
  dsimp only at h
  split_ifs at h <;> cases h <;> dsimp only <;>
    repeat first
      | exact noFrameHanded_refl _
      | exact noFrameHanded_call _ _ (by rfl)
      | refine noFrameHanded_trans ?_ (noFrameHanded_call _ _ (by rfl))

theorem ProcessTextureTransforms_noFrameHanded (host : Host) (s : RecordingManager)
    (pTexture : Texture) (videoInputFrameRect : RECT) (videoOutputFrameSize : SIZE)
    (r : HRESULT × Option Texture × RecordingManager)
    (h : ProcessTextureTransforms host s pTexture videoInputFrameRect videoOutputFrameSize
      = some r) : noFrameHanded s r.2.2 := by
  unfold ProcessTextureTransforms at h
  dsimp only at h
  split_ifs at h
  · cases h
    exact noFrameHanded_call _ _ (by rfl)
  · exact noFrameHanded_trans (noFrameHanded_call _ _ (by rfl))
      (resize_noFrameHanded _ _ _ _ _ _ _ h)
  · exact resize_noFrameHanded _ _ _ _ _ _ _ h

theorem ProcessTexture_noFrameHanded (host : Host) (s : RecordingManager)
    (pTexture : Option Texture) (pPtrInfo : Option PTR_INFO)
    (r : HRESULT × Option Texture × RecordingManager)
    (h : ProcessTexture host s pTexture pPtrInfo = some r) : noFrameHanded s r.2.2 := by
  unfold ProcessTexture at h
  dsimp only at h
  have hpre : noFrameHanded s
      ((s.call Call.ProcessOverlays).callIf pPtrInfo.isSome Call.ProcessMousePointer) :=
    noFrameHanded_trans (noFrameHanded_call _ _ (by rfl)) (noFrameHanded_callIf _ _ _ (by rfl))
  split_ifs at h
  split at h
  · split_ifs at h
    · cases h
      exact hpre
    · split at h
      · rename_i heq
        have h2 := ProcessTextureTransforms_noFrameHanded _ _ _ _ _ _ heq
        split_ifs at h <;> cases h <;> exact noFrameHanded_trans hpre h2
      · cases h
  · cases h

theorem SaveTextureAsVideoSnapshot_noFrameHanded (host : Host) (s : RecordingManager)
    (pTexture : Option Texture) (path : Option String) (destRect : RECT)
    (r : HRESULT × RecordingManager)
    (h : SaveTextureAsVideoSnapshot host s pTexture path destRect = some r) :
    noFrameHanded s r.2 := by
  unfold SaveTextureAsVideoSnapshot at h
  dsimp only at h
  cases pTexture with
  | none => cases h
  | some frame =>
    dsimp only at h
    cases path <;> dsimp only at h <;> split_ifs at h <;> cases h <;> dsimp only <;>
      repeat first
        | exact noFrameHanded_call _ _ (by rfl)
        | refine noFrameHanded_trans ?_ (noFrameHanded_call _ _ (by rfl))
theorem TakeSnapshot_write_noFrameHanded (host : Host) (s : RecordingManager) (path : String)
    (stream : Bool) (processedTexture : Option Texture) (r : HRESULT × RecordingManager)
    (h : TakeSnapshot.write host s path stream processedTexture = some r) :
    noFrameHanded s r.2 := by
  unfold TakeSnapshot.write at h
  by_cases hcm : (!s.m_CaptureManager) = true
  · rw [if_pos hcm] at h
    cases h
  rw [if_neg hcm] at h
  generalize InitializeRects s.m_OutputOptions host.GetOutputSize true false = ir at h
  rcases ir with ⟨hr, _ | rect, sz⟩
  · cases h
  dsimp only at h
  by_cases hf : FAILED hr = true
  · rw [if_pos hf] at h
    cases h
    exact noFrameHanded_refl _
  rw [if_neg hf] at h
  by_cases hp : path ≠ ""
  · rw [if_pos hp] at h
    by_cases hdir : (!host.exists_ (host.parent_path path)
        && !host.create_directories (host.parent_path path)) = true
    · rw [if_pos hdir] at h
      cases h
      exact noFrameHanded_callIf _ _ _ (by rfl)
    · rw [if_neg hdir] at h
      generalize hs : SaveTextureAsVideoSnapshot host _ processedTexture (some path) rect = o at h
      cases o with
      | none => cases h
      | some r2 =>
        have h1 := noFrameHanded_trans (noFrameHanded_callIf s _ _ (by rfl))
          (SaveTextureAsVideoSnapshot_noFrameHanded _ _ _ _ _ _ hs)
        dsimp only at h
        split_ifs at h <;> cases h
        · exact h1
        · exact noFrameHanded_trans h1 (noFrameHanded_callIf _ _ _ (by rfl))
  · rw [if_neg hp] at h
    by_cases hst : stream = true
    · rw [if_pos hst] at h
      generalize hs : SaveTextureAsVideoSnapshot host _ processedTexture none rect = o at h
      cases o with
      | none => cases h
      | some r2 =>
        have h1 := SaveTextureAsVideoSnapshot_noFrameHanded _ _ _ _ _ _ hs
        dsimp only at h
        split_ifs at h <;> cases h
        · exact h1
        · exact noFrameHanded_trans h1 (noFrameHanded_callIf _ _ _ (by rfl))
    · rw [if_neg hst] at h
      cases h
      exact noFrameHanded_refl _

theorem TakeSnapshot_noFrameHanded (host : Host) (s : RecordingManager) (path : String)
    (stream : Bool) (pTexture : Option Texture) (r : HRESULT × RecordingManager)
    (h : TakeSnapshot host s path stream pTexture = some r) : noFrameHanded s r.2 := by
  unfold TakeSnapshot at h
  by_cases hrec : (!s.m_IsRecording) = true
  · rw [if_pos hrec] at h
    cases h
    exact noFrameHanded_refl _
  rw [if_neg hrec] at h
  cases pTexture with
  | some texture => exact TakeSnapshot_write_noFrameHanded _ _ _ _ _ _ h
  | none =>
    dsimp only at h
    by_cases hcm : (!s.m_CaptureManager) = true
    · rw [if_pos hcm] at h
      cases h
    rw [if_neg hcm] at h
    have hcall : noFrameHanded s
        (s.call (if s.m_IsPaused then Call.AcquireNextFrame 0 else Call.CopyCurrentFrame)) :=
      noFrameHanded_call _ _ (by cases s.m_IsPaused <;> rfl)
    generalize (if s.m_IsPaused = true then host.AcquireNextFrame else host.CopyCurrentFrame)
      = acquired at h
    generalize s.call (if s.m_IsPaused then Call.AcquireNextFrame 0 else Call.CopyCurrentFrame)
      = s2 at h hcall
    rcases acquired with ⟨hr, capturedFrame⟩
    dsimp only at h
    split_ifs at h
    · cases h
      exact hcall
    · generalize hp : ProcessTexture host s2 capturedFrame.Frame capturedFrame.PtrInfo = o at h
      cases o with
      | none => cases h
      | some r2 =>
        exact noFrameHanded_trans hcall
          (noFrameHanded_trans (ProcessTexture_noFrameHanded _ _ _ _ _ hp)
            (TakeSnapshot_write_noFrameHanded _ _ _ _ _ _ h))

/-! ## One frame per iteration (claims C12, C14, C15, C16, C20) -/

theorem noFrameHanded_fields {s t : RecordingManager} (h : noFrameHanded s t) :
    t.m_RestartCaptureCount = s.m_RestartCaptureCount ∧ t.m_AudioOptions = s.m_AudioOptions ∧
    t.m_OutputOptions = s.m_OutputOptions ∧ t.m_SnapshotOptions = s.m_SnapshotOptions ∧
    t.m_IsPaused = s.m_IsPaused ∧
    ∃ extra, t.trace = s.trace ++ extra ∧ renderedFrames extra = [] := by
  obtain ⟨e, rfl, hr⟩ := h
  exact ⟨rfl, rfl, rfl, rfl, rfl, e, rfl, hr⟩

theorem PrepareAndRenderFrame_spec (inp : CycleInput) (st : RecorderLoop)
    (pTextureToRender : Option Texture) (duration100Nanos : Int) (r : HRESULT × RecorderLoop)
    (h : PrepareAndRenderFrame inp st pTextureToRender duration100Nanos = some r) :
    r.2.mgr.m_RestartCaptureCount = st.mgr.m_RestartCaptureCount ∧
    r.2.mgr.m_OutputOptions = st.mgr.m_OutputOptions ∧
    ((r.1 = S_FALSE ∧ noFrameHanded st.mgr r.2.mgr ∧ r.2.frameNr = st.frameNr
        ∧ r.2.lastFrameStartPos100Nanos = st.lastFrameStartPos100Nanos
        ∧ r.2.totalDiff = st.totalDiff) ∨
      (∃ pre post frame diff,
        audioDiff st.mgr.m_AudioOptions inp.GrabAudioFrame duration100Nanos = some diff ∧
        r.1 = inp.RenderFrame ∧
        r.2.mgr.trace = st.mgr.trace ++ (pre ++
          Call.RenderFrame
            { Frame := frame, Duration := duration100Nanos + diff,
              StartPos := st.lastFrameStartPos100Nanos + st.totalDiff,
              Audio := inp.GrabAudioFrame } :: post) ∧
        renderedFrames pre = [] ∧ renderedFrames post = [] ∧
        ((FAILED inp.RenderFrame = true ∧ r.2.frameNr = st.frameNr
            ∧ r.2.lastFrameStartPos100Nanos = st.lastFrameStartPos100Nanos
            ∧ r.2.totalDiff = st.totalDiff) ∨
          (FAILED inp.RenderFrame = false ∧ r.2.frameNr = st.frameNr + 1
            ∧ r.2.lastFrameStartPos100Nanos = st.lastFrameStartPos100Nanos + duration100Nanos
            ∧ r.2.totalDiff = st.totalDiff + diff)))) := by
  unfold PrepareAndRenderFrame at h
  generalize hp : ProcessTexture inp.host st.mgr pTextureToRender st.pPtrInfo = processed at h
  cases processed with
  | none => cases h
  | some p =>
    obtain ⟨renderHr, processedTexture, mgr1⟩ := p
    obtain ⟨e1, hm1, hr1⟩ := ProcessTexture_noFrameHanded _ _ _ _ _ hp
    dsimp only at hm1
    subst hm1
    dsimp only at h
    split at h
    · cases h
      exact ⟨rfl, rfl, Or.inl ⟨rfl, ⟨e1, rfl, hr1⟩, rfl, rfl, rfl⟩⟩
    · have hafter : ∀ (o : Option RecorderLoop) (c : Bool)
          (taken : Option (HRESULT × RecordingManager)),
          (∀ t, taken = some t → noFrameHanded (st.mgr.calls e1) t.2) →
          (if c = true then
              match taken with
              | some (_, mgr) =>
                some { st with mgr := mgr, previousSnapshotTaken := some inp.now }
              | none => none
            else some { st with mgr := st.mgr.calls e1 }) = o →
          ∀ st2, o = some st2 →
            ∃ e2 prev, renderedFrames e2 = [] ∧
              st2 = { st with mgr := st.mgr.calls e2, previousSnapshotTaken := prev } := by
        intro o c taken htaken ho st2 hst2
        subst hst2
        cases c
        · simp only [Bool.false_eq_true, if_false, Option.some.injEq] at ho
          exact ⟨e1, st.previousSnapshotTaken, hr1, ho.symm⟩
        · simp only [if_true] at ho
          cases taken with
          | none => cases ho
          | some t =>
            obtain ⟨e2, he2, hr2⟩ := noFrameHanded_trans ⟨e1, rfl, hr1⟩ (htaken t rfl)
            simp only [Option.some.injEq] at ho
            exact ⟨e2, some inp.now, hr2, by rw [← ho, he2]⟩
      split at h
      · cases h
      · rename_i st2 hst2
        obtain ⟨e2, prev, hr2, rfl⟩ := hafter _ _ _
          (fun t ht => TakeSnapshot_noFrameHanded _ _ _ _ _ _ ht) rfl st2 hst2
        dsimp only at h
        split at h
        · cases h
        · rename_i diff hdiff
          have hrp : renderedFrames (e2 ++ [Call.GrabAudioFrame duration100Nanos]) = [] := by
            simp only [renderedFrames, List.filterMap_append] at hr2 ⊢
            rw [hr2]
            rfl
          split at h
          · rename_i hfail
            cases h
            refine ⟨rfl, rfl, Or.inr ⟨e2 ++ [Call.GrabAudioFrame duration100Nanos], [],
              (if renderHr = S_OK then processedTexture else pTextureToRender), diff,
              hdiff, rfl, ?_, hrp, rfl, Or.inl ⟨hfail, rfl, rfl, rfl⟩⟩⟩
            simp [RecordingManager.calls, RecordingManager.call]
          · rename_i hfail
            cases h
            refine ⟨by simp [RecordingManager.callIf, RecordingManager.call, RecordingManager.calls],
              by simp [RecordingManager.callIf, RecordingManager.call, RecordingManager.calls],
              Or.inr ⟨e2 ++ [Call.GrabAudioFrame duration100Nanos],
              (if (st.mgr.RecordingFrameNumberChangedCallback && !st.mgr.m_IsDestructing) = true
                then [Call.RecordingFrameNumberChangedCallback (st.frameNr + 1)] else []),
              (if renderHr = S_OK then processedTexture else pTextureToRender),
              diff, hdiff, rfl, ?_, hrp, ?_,
              Or.inr ⟨by simpa using hfail, rfl, rfl, rfl⟩⟩⟩
            · cases hcb : (st.mgr.RecordingFrameNumberChangedCallback && !st.mgr.m_IsDestructing) <;>
                simp [RecordingManager.calls, RecordingManager.call, RecordingManager.callIf, hcb]
            · split <;> rfl
theorem renderedFrames_append (a b : List Call) :
    renderedFrames (a ++ b) = renderedFrames a ++ renderedFrames b := by
  simp [renderedFrames, List.filterMap_append]

theorem recordFrame_spec (inp : CycleInput) (st st2 : RecorderLoop)
    (h : (recordFrame inp st).state? = some st2) :
    st2.mgr.m_RestartCaptureCount
      = (if st.mgr.m_IsPaused = false ∧ SUCCEEDED inp.AcquireNextFrame.1 = true
            ∧ inp.AcquireNextFrame.2.FrameUpdateCount > 0 then 0
          else st.mgr.m_RestartCaptureCount) ∧
    ∃ extra, st2.mgr.trace = st.mgr.trace ++ extra ∧
      ((renderedFrames extra = [] ∧ st2.frameNr = st.frameNr
          ∧ st2.lastFrameStartPos100Nanos = st.lastFrameStartPos100Nanos
          ∧ st2.totalDiff = st.totalDiff) ∨
        (∃ model, renderedFrames extra = [model]
          ∧ model.StartPos = st.lastFrameStartPos100Nanos + st.totalDiff
          ∧ (recordFrame inp st).exitPoint ≠ some .Cancelled
          ∧ ((FAILED inp.RenderFrame = true
                ∧ (recordFrame inp st).exitPoint = some .RenderFrameFailed
                ∧ st2.frameNr = st.frameNr) ∨
              (FAILED inp.RenderFrame = false
                ∧ st2.lastFrameStartPos100Nanos + st2.totalDiff = model.StartPos + model.Duration
                ∧ st2.frameNr = st.frameNr + 1)))) := by
  revert h
  generalize ho : recordFrame inp st = o
  intro h
  unfold recordFrame at ho
  lift_lets at ho
  extract_lets paused pauseCalls src st1 timeout capturedFrame st3 src3 st4 dur st5 at ho
  have hpc : renderedFrames pauseCalls = [] := by
    show renderedFrames (if paused = true then _ else _) = []
    cases paused <;> cases inp.isMediaClockRunning <;>
      cases IsAnySourcePreviewsActive st.mgr <;> rfl
  have hpaused : paused = st.mgr.m_IsPaused := rfl
  have hcf : capturedFrame = inp.AcquireNextFrame.2 := rfl
  have h1 : st1.mgr.m_RestartCaptureCount = st.mgr.m_RestartCaptureCount
      ∧ st1.mgr.trace = st.mgr.trace ++ pauseCalls ∧ st1.frameNr = st.frameNr
      ∧ st1.lastFrameStartPos100Nanos = st.lastFrameStartPos100Nanos
      ∧ st1.totalDiff = st.totalDiff := ⟨rfl, rfl, rfl, rfl, rfl⟩
  have h3 : st3.mgr.m_RestartCaptureCount = st1.mgr.m_RestartCaptureCount
      ∧ st3.mgr.trace = st1.mgr.trace ++ [Call.AcquireNextFrame timeout]
      ∧ st3.frameNr = st1.frameNr
      ∧ st3.lastFrameStartPos100Nanos = st1.lastFrameStartPos100Nanos
      ∧ st3.totalDiff = st1.totalDiff ∧ st3.hr = inp.AcquireNextFrame.1
      ∧ st3.videoFrameDurationMillis = st1.videoFrameDurationMillis :=
    ⟨rfl, rfl, rfl, rfl, rfl, rfl, rfl⟩
  have h4 : st4.mgr.m_RestartCaptureCount
        = (if (SUCCEEDED st3.hr && decide (capturedFrame.FrameUpdateCount > 0)) = true then 0
            else st3.mgr.m_RestartCaptureCount)
      ∧ st4.mgr.trace = st3.mgr.trace ∧ st4.frameNr = st3.frameNr
      ∧ st4.lastFrameStartPos100Nanos = st3.lastFrameStartPos100Nanos
      ∧ st4.totalDiff = st3.totalDiff := ⟨rfl, rfl, rfl, rfl, rfl⟩
  have h5 : st5.mgr.m_RestartCaptureCount = st4.mgr.m_RestartCaptureCount
      ∧ st5.mgr.trace = st4.mgr.trace
          ++ (if (decide (st4.frameNr = 0) && st4.mgr.RecordingStatusChangedCallback) = true
              then [Call.RecordingStatusChangedCallback .STATUS_RECORDING] else [])
      ∧ st5.frameNr = st4.frameNr
      ∧ st5.lastFrameStartPos100Nanos = st4.lastFrameStartPos100Nanos
      ∧ st5.totalDiff = st4.totalDiff :=
    ⟨rfl, callIf_trace _ _ _, rfl, rfl, rfl⟩
  clear_value st5 dur st4 src3 st3 capturedFrame timeout st1 src pauseCalls paused
  obtain ⟨h1c, h1t, h1f, h1l, h1d⟩ := h1
  obtain ⟨h3c, h3t, h3f, h3l, h3d, h3h, -⟩ := h3
  obtain ⟨h4c, h4t, h4f, h4l, h4d⟩ := h4
  obtain ⟨h5c, h5t, h5f, h5l, h5d⟩ := h5
  rw [h1t] at h3t
  rw [h3t] at h4t
  rw [h4t] at h5t
  rw [h1f] at h3f
  rw [h3f] at h4f
  rw [h1l] at h3l
  rw [h3l] at h4l
  rw [h1d] at h3d
  rw [h3d] at h4d
  rw [h1c] at h3c
  rw [h3h, h3c, hcf] at h4c
  have hacq : renderedFrames (pauseCalls ++ [Call.AcquireNextFrame timeout]) = [] := by
    rw [renderedFrames_append, hpc]
    rfl
  have hkeep : st.mgr.m_IsPaused = true →
      (if st.mgr.m_IsPaused = false ∧ SUCCEEDED inp.AcquireNextFrame.1 = true
            ∧ inp.AcquireNextFrame.2.FrameUpdateCount > 0 then (0 : Int)
          else st.mgr.m_RestartCaptureCount) = st.mgr.m_RestartCaptureCount := by
    intro hp
    rw [if_neg]
    rw [hp]
    simp
  split at ho
  · rename_i hskip
    subst ho
    cases h
    have hp : st.mgr.m_IsPaused = true := by
      rw [← hpaused]
      cases paused
      · simp at hskip
      · rfl
    exact ⟨by rw [h1c, hkeep hp], pauseCalls, h1t, Or.inl ⟨hpc, h1f, h1l, h1d⟩⟩
  · split at ho
    · rename_i hp
      subst ho
      cases h
      rw [hpaused] at hp
      refine ⟨by rw [hkeep hp]; exact h3c,
        (pauseCalls ++ [Call.AcquireNextFrame timeout]) ++ [Call.wait st3.videoFrameDurationMillis],
        ?_, Or.inl ⟨?_, h3f, h3l, h3d⟩⟩
      · show st3.mgr.trace ++ [_] = _
        rw [h3t, List.append_assoc, List.append_assoc, List.append_assoc]
      · rw [renderedFrames_append, hacq]
        rfl
    · rename_i hp
      rw [hpaused] at hp
      have hp : st.mgr.m_IsPaused = false := by simpa using hp
      have hcount : st4.mgr.m_RestartCaptureCount
          = (if st.mgr.m_IsPaused = false ∧ SUCCEEDED inp.AcquireNextFrame.1 = true
                ∧ inp.AcquireNextFrame.2.FrameUpdateCount > 0 then 0
              else st.mgr.m_RestartCaptureCount) := by
        rw [h4c]
        simp [hp]
      split at ho
      · rename_i hfail
        subst ho
        cases h
        rw [h3h] at hfail
        refine ⟨?_, pauseCalls ++ [Call.AcquireNextFrame timeout],
          by rw [h3t, List.append_assoc], Or.inl ⟨hacq, h3f, h3l, h3d⟩⟩
        rw [h3c, if_neg]
        intro hc
        have h1 := hfail.1
        have h2 := hc.2.1
        unfold FAILED at h1
        unfold SUCCEEDED at h2
        simp only [decide_eq_true_eq] at h1 h2
        exact absurd h2 (not_le.mpr h1)
      · split at ho
        · subst ho
          cases h
          exact ⟨hcount, pauseCalls ++ [Call.AcquireNextFrame timeout],
            by rw [h4t, List.append_assoc], Or.inl ⟨hacq, h4f, h4l, h4d⟩⟩
        · split at ho
          · subst ho
            cases h
            exact ⟨hcount, pauseCalls ++ [Call.AcquireNextFrame timeout],
              by rw [← List.append_assoc]; exact h4t, Or.inl ⟨hacq, h4f, h4l, h4d⟩⟩
          · generalize hprep : PrepareAndRenderFrame inp st5 capturedFrame.Frame dur = p at ho
            cases p with
            | none =>
              subst ho
              cases h
            | some r =>
              obtain ⟨hrc, -, hcases⟩ := PrepareAndRenderFrame_spec _ _ _ _ _ hprep
              obtain ⟨hr, stR⟩ := r
              dsimp only at ho hrc hcases
              have hout : st2.mgr = stR.mgr ∧ st2.frameNr = stR.frameNr
                  ∧ st2.lastFrameStartPos100Nanos = stR.lastFrameStartPos100Nanos
                  ∧ st2.totalDiff = stR.totalDiff ∧ o.exitPoint ≠ some .Cancelled
                  ∧ (FAILED hr = true → o.exitPoint = some .RenderFrameFailed) := by
                split at ho
                · subst ho
                  cases h
                  exact ⟨rfl, rfl, rfl, rfl, by simp [CycleOutcome.exitPoint], fun _ => rfl⟩
                · rename_i hnf
                  split at ho <;> subst ho <;> cases h <;>
                    exact ⟨rfl, rfl, rfl, rfl, by simp [CycleOutcome.exitPoint],
                      fun hf => absurd hf hnf⟩
              obtain ⟨hm, hf2, hl2, hd2, hne, hrf⟩ := hout
              have hstatus : renderedFrames
                  (pauseCalls ++ [Call.AcquireNextFrame timeout]
                    ++ (if (decide (st4.frameNr = 0) && st4.mgr.RecordingStatusChangedCallback)
                        = true then
                      [Call.RecordingStatusChangedCallback .STATUS_RECORDING] else [])) = [] := by
                rw [renderedFrames_append, hacq]
                split <;> rfl
              obtain ⟨before, hb, hbt⟩ : ∃ before, renderedFrames before = []
                  ∧ st5.mgr.trace = st.mgr.trace ++ before :=
                ⟨_, hstatus, by rw [h5t]; simp only [List.append_assoc]⟩
              have hcount2 : st2.mgr.m_RestartCaptureCount
                  = (if st.mgr.m_IsPaused = false ∧ SUCCEEDED inp.AcquireNextFrame.1 = true
                        ∧ inp.AcquireNextFrame.2.FrameUpdateCount > 0 then 0
                      else st.mgr.m_RestartCaptureCount) := by
                rw [hm, hrc, h5c, hcount]
              rcases hcases with ⟨-, hq, hf, hl, hd⟩
                | ⟨pre, post, frame, diff, -, hhr, htr, hpre, hpost, hfin⟩
              · obtain ⟨-, -, -, -, -, e, het, her⟩ := noFrameHanded_fields hq
                refine ⟨hcount2, before ++ e, by rw [hm, het, hbt, List.append_assoc],
                  Or.inl ⟨by rw [renderedFrames_append, hb, her]; rfl, by rw [hf2, hf, h5f, h4f],
                    by rw [hl2, hl, h5l, h4l], by rw [hd2, hd, h5d, h4d]⟩⟩
              · have hcons : ∀ (m : FrameWriteModel), renderedFrames (Call.RenderFrame m :: post)
                    = [m] := by
                  intro m
                  show m :: renderedFrames post = [m]
                  rw [hpost]
                refine ⟨hcount2, before ++ (pre ++ Call.RenderFrame _ :: post),
                  by rw [hm, htr, hbt, List.append_assoc],
                  Or.inr ⟨_, by rw [renderedFrames_append, renderedFrames_append, hb, hpre, hcons]; rfl,
                    by rw [h5l, h4l, h5d, h4d], hne, ?_⟩⟩
                rcases hfin with ⟨hF, hf, hl, hd⟩ | ⟨hF, hf, hl, hd⟩
                · exact Or.inl ⟨hF, hrf (hhr ▸ hF), by rw [hf2, hf, h5f, h4f]⟩
                · refine Or.inr ⟨hF, ?_, by rw [hf2, hf, h5f, h4f]⟩
                  rw [hl2, hd2, hl, hd]
                  show _ = (st5.lastFrameStartPos100Nanos + st5.totalDiff) + (dur + diff)
                  ring
theorem RestartCapture_spec (a : RestartAnswers) (st : RecorderLoop) (result : CAPTURE_RESULT) :
    (RestartCapture a st result).frameNr = st.frameNr
    ∧ (RestartCapture a st result).lastFrameStartPos100Nanos = st.lastFrameStartPos100Nanos
    ∧ (RestartCapture a st result).totalDiff = st.totalDiff
    ∧ (RestartCapture a st result).mgr.m_IsPaused = st.mgr.m_IsPaused
    ∧ ∃ extra, (RestartCapture a st result).mgr.trace = st.mgr.trace ++ extra
        ∧ renderedFrames extra = [] := by
  refine ⟨rfl, rfl, rfl, rfl, _, rfl, ?_⟩
  simp only [renderedFrames_append]
  repeat' split
  all_goals rfl

theorem handleErrorEvent_spec (inp : CycleInput) (st st2 : RecorderLoop)
    (h : handleErrorEvent inp st = .proceed st2 ∨ handleErrorEvent inp st = .continue_ st2
      ∨ ∃ point result, handleErrorEvent inp st = .exit point result st2) :
    st2.frameNr = st.frameNr
    ∧ st2.lastFrameStartPos100Nanos = st.lastFrameStartPos100Nanos
    ∧ st2.totalDiff = st.totalDiff
    ∧ st2.mgr.m_IsPaused = st.mgr.m_IsPaused
    ∧ ∃ extra, st2.mgr.trace = st.mgr.trace ++ extra ∧ renderedFrames extra = [] := by
  have hsame : st.frameNr = st.frameNr
      ∧ st.lastFrameStartPos100Nanos = st.lastFrameStartPos100Nanos
      ∧ st.totalDiff = st.totalDiff
      ∧ st.mgr.m_IsPaused = st.mgr.m_IsPaused
      ∧ ∃ extra, st.mgr.trace = st.mgr.trace ++ extra ∧ renderedFrames extra = [] :=
    ⟨rfl, rfl, rfl, rfl, [], by simp, rfl⟩
  have hrestart : ∀ (captureResult : CAPTURE_RESULT) (code : HRESULT),
      (restartOrExit inp st captureResult code = .proceed st2
        ∨ restartOrExit inp st captureResult code = .continue_ st2
        ∨ ∃ point result, restartOrExit inp st captureResult code = .exit point result st2) →
      st2.frameNr = st.frameNr
      ∧ st2.lastFrameStartPos100Nanos = st.lastFrameStartPos100Nanos
      ∧ st2.totalDiff = st.totalDiff
      ∧ st2.mgr.m_IsPaused = st.mgr.m_IsPaused
      ∧ ∃ extra, st2.mgr.trace = st.mgr.trace ++ extra ∧ renderedFrames extra = [] := by
    intro captureResult code hr
    unfold restartOrExit at hr
    obtain ⟨hf, hl, hd, hp, e, he, hre⟩ := RestartCapture_spec inp.restart st captureResult
    generalize RestartCapture inp.restart st captureResult = stR at hr hf hl hd hp he
    dsimp only at hr
    split at hr
    · rcases hr with hr | hr | ⟨point, result, hr⟩
      · cases hr
      · cases hr
      · cases hr
        exact hsame
    · split at hr
      · rcases hr with hr | hr | ⟨point, result, hr⟩
        · cases hr
        · cases hr
          refine ⟨hf, hl, hd, hp, e ++ [Call.SetEvent], ?_, ?_⟩
          · show stR.mgr.trace ++ [Call.SetEvent] = _
            rw [he, List.append_assoc]
          · rw [renderedFrames_append, hre]
            rfl
        · cases hr
      · rcases hr with hr | hr | ⟨point, result, hr⟩
        · cases hr
          exact ⟨hf, hl, hd, hp, e, he, hre⟩
        · cases hr
        · cases hr
  unfold handleErrorEvent at h
  split at h
  · split at h
    · rcases h with h | h | ⟨point, result, h⟩
      · cases h
      · cases h
      · cases h
        exact hsame
    · rcases h with h | h | ⟨point, result, h⟩
      · cases h
        exact hsame
      · cases h
      · cases h
  · split at h
    · exact hrestart _ _ h
    · split at h
      · dsimp only at h
        split at h
        · exact hrestart _ _ h
        · rcases h with h | h | ⟨point, result, h⟩
          · cases h
          · cases h
          · cases h
            exact hsame
      · rcases h with h | h | ⟨point, result, h⟩
        · cases h
          exact hsame
        · cases h
        · cases h
theorem recorderLoopCycle_spec (inp : CycleInput) (st st2 : RecorderLoop)
    (h : (recorderLoopCycle inp st).state? = some st2) :
    ∃ extra, st2.mgr.trace = st.mgr.trace ++ extra ∧
      ((renderedFrames extra = [] ∧ st2.frameNr = st.frameNr
          ∧ st2.lastFrameStartPos100Nanos = st.lastFrameStartPos100Nanos
          ∧ st2.totalDiff = st.totalDiff) ∨
        (∃ model, renderedFrames extra = [model]
          ∧ model.StartPos = st.lastFrameStartPos100Nanos + st.totalDiff
          ∧ (recorderLoopCycle inp st).exitPoint ≠ some .Cancelled
          ∧ ((FAILED inp.RenderFrame = true
                ∧ (recorderLoopCycle inp st).exitPoint = some .RenderFrameFailed
                ∧ st2.frameNr = st.frameNr) ∨
              (FAILED inp.RenderFrame = false
                ∧ st2.lastFrameStartPos100Nanos + st2.totalDiff = model.StartPos + model.Duration
                ∧ st2.frameNr = st.frameNr + 1)))) := by
  revert h
  generalize ho : recorderLoopCycle inp st = o
  intro h
  unfold recorderLoopCycle at ho
  split at ho
  · subst ho
    cases h
    exact ⟨[], by simp, Or.inl ⟨rfl, rfl, rfl, rfl⟩⟩
  · lift_lets at ho
    extract_lets st1 at ho
    have h1 : st1.mgr = st.mgr ∧ st1.frameNr = st.frameNr
        ∧ st1.lastFrameStartPos100Nanos = st.lastFrameStartPos100Nanos
        ∧ st1.totalDiff = st.totalDiff := ⟨rfl, rfl, rfl, rfl⟩
    clear_value st1
    obtain ⟨h1m, h1f, h1l, h1d⟩ := h1
    rw [← h1m, ← h1f, ← h1l, ← h1d]
    split at ho
    · generalize hb : handleErrorEvent inp st1 = b at ho
      cases b with
      | exit point result st3 =>
        subst ho
        cases h
        obtain ⟨hf, hl, hd, -, e, he, hre⟩ :=
          handleErrorEvent_spec inp st1 st2 (Or.inr (Or.inr ⟨point, result, hb⟩))
        exact ⟨e, he, Or.inl ⟨hre, hf, hl, hd⟩⟩
      | continue_ st3 =>
        subst ho
        cases h
        obtain ⟨hf, hl, hd, -, e, he, hre⟩ :=
          handleErrorEvent_spec inp st1 st2 (Or.inr (Or.inl hb))
        exact ⟨e, he, Or.inl ⟨hre, hf, hl, hd⟩⟩
      | proceed st3 =>
        subst ho
        dsimp only at h ⊢
        obtain ⟨hf, hl, hd, -, e, he, hre⟩ := handleErrorEvent_spec inp st1 st3 (Or.inl hb)
        obtain ⟨-, e2, he2, hcases⟩ := recordFrame_spec inp st3 st2 h
        rw [hf, hl, hd] at hcases
        refine ⟨e ++ e2, by rw [he2, he, List.append_assoc], ?_⟩
        rw [renderedFrames_append, hre, List.nil_append]
        exact hcases
    · subst ho
      obtain ⟨-, e2, he2, hcases⟩ := recordFrame_spec inp st1 st2 h
      exact ⟨e2, he2, hcases⟩
/-- The start of the next frame is all a chain of frames depends on. -/
theorem chain_of_same_end (a b : FrameWriteModel) (frames : List FrameWriteModel)
    (hab : a.StartPos + a.Duration = b.StartPos + b.Duration)
    (h : List.Chain (fun x y : FrameWriteModel => y.StartPos = x.StartPos + x.Duration) a frames) :
    List.Chain (fun x y : FrameWriteModel => y.StartPos = x.StartPos + x.Duration) b frames := by
  cases h with
  | nil => exact List.Chain.nil
  | cons hr ht => exact List.Chain.cons (by rw [hr, hab]) ht

/-- The frames handed to the encoder from a loop state on continue where the start
position and the accumulated audio difference of that state point. -/
theorem recorderLoopState_frames (inputs : List CycleInput) :
    ∀ st st2 : RecorderLoop, recorderLoopState inputs st = some st2 →
      ∃ extra, st2.mgr.trace = st.mgr.trace ++ extra ∧
        List.Chain (fun x y : FrameWriteModel => y.StartPos = x.StartPos + x.Duration)
          { Frame := none, Duration := 0,
            StartPos := st.lastFrameStartPos100Nanos + st.totalDiff, Audio := [] }
          (renderedFrames extra) := by
  induction inputs with
  | nil =>
    intro st st2 h
    cases h
    exact ⟨[], by simp, List.Chain.nil⟩
  | cons inp rest ih =>
    intro st st2 h
    unfold recorderLoopState at h
    generalize ho : recorderLoopCycle inp st = o at h
    cases o with
    | undefined => cases h
    | exit point result st1 =>
      cases h
      obtain ⟨e, he, hcases⟩ := recorderLoopCycle_spec inp st st2 (by rw [ho]; rfl)
      refine ⟨e, he, ?_⟩
      rcases hcases with ⟨hre, -⟩ | ⟨model, hre, hstart, -⟩
      · rw [hre]
        exact List.Chain.nil
      · rw [hre]
        exact List.Chain.cons (by rw [hstart]; simp) List.Chain.nil
    | next st1 =>
      dsimp only at h
      obtain ⟨e, he, hcases⟩ := recorderLoopCycle_spec inp st st1 (by rw [ho]; rfl)
      obtain ⟨e2, he2, hchain⟩ := ih st1 st2 h
      refine ⟨e ++ e2, by rw [he2, he, List.append_assoc], ?_⟩
      rw [renderedFrames_append]
      rcases hcases with ⟨hre, -, hl, hd⟩ | ⟨model, hre, hstart, -, hfin⟩
      · rw [hre, List.nil_append]
        rw [hl, hd] at hchain
        exact hchain
      · rw [hre]
        rcases hfin with ⟨-, hexit, -⟩ | ⟨-, hnext, -⟩
        · rw [ho] at hexit
          cases hexit
        · refine List.Chain.cons (by rw [hstart]; simp) ?_
          exact chain_of_same_end _ _ _ (by simpa using hnext) hchain

/-- C14: the frames handed to the encoder by the loop of one session, started from the
initial locals of `StartRecorderLoop` and run over any answers of the environment: the
first frame has start position 0 and every later frame starts at the start position of
the frame before it plus the duration handed to the encoder for that frame, so the
difference between the audio-implied and the nominal duration of every earlier frame
stays in all later start positions. -/
theorem frame_start_positions (mgr : RecordingManager) (sources : List RECORDING_SOURCE)
    (overlays : List RECORDING_OVERLAY) (videoInputFrameRect : RECT)
    (videoOutputFrameSize : SIZE) (videoFrameDurationMillis : ℚ)
    (videoFrameDuration100Nanos : Int) (inputs : List CycleInput) (st : RecorderLoop)
    (h : recorderLoopState inputs
      (RecorderLoop.initial mgr sources overlays videoInputFrameRect videoOutputFrameSize
        videoFrameDurationMillis videoFrameDuration100Nanos) = some st) :
    (∀ first, (renderedFrames (newCalls mgr st.mgr)).head? = some first → first.StartPos = 0) ∧
    List.Chain' (fun x y : FrameWriteModel => y.StartPos = x.StartPos + x.Duration)
      (renderedFrames (newCalls mgr st.mgr)) := by
  obtain ⟨e, he, hchain⟩ := recorderLoopState_frames inputs _ st h
  have hnew : newCalls mgr st.mgr = e := newCalls_append _ _ _ he
  rw [hnew]
  constructor
  · intro first hfirst
    cases hre : renderedFrames e with
    | nil =>
      rw [hre] at hfirst
      cases hfirst
    | cons m rest =>
      rw [hre] at hfirst hchain
      simp only [List.head?_cons, Option.some.injEq] at hfirst
      subst hfirst
      cases hchain with
      | cons hr _ =>
        rw [hr]
        rfl
  · have hall : List.Chain' (fun x y : FrameWriteModel => y.StartPos = x.StartPos + x.Duration)
        (_ :: renderedFrames e) := hchain
    exact hall.tail

/-- Witness for C14: two iterations of a session whose first frame has a nominal duration
of 33 ms and audio worth 43 ms: the second frame starts at 43 ms. -/
theorem frame_start_positions_witness :
    ∃ st, recorderLoopState [frameInput, laterFrameInput] audioLoop = some st ∧
      (renderedFrames (newCalls audioManager st.mgr)).map (fun m => (m.StartPos, m.Duration))
        = [(0, 430000), (430000, 330000)] ∧
      List.Chain' (fun x y : FrameWriteModel => y.StartPos = x.StartPos + x.Duration)
        (renderedFrames (newCalls audioManager st.mgr)) :=
  (Option.isSome_iff_exists.mp
    (rfl : (recorderLoopState [frameInput, laterFrameInput] audioLoop).isSome = true)).elim
    (fun st hst =>
      ⟨st, hst, by
        have hmap : (recorderLoopState [frameInput, laterFrameInput] audioLoop).map
            (fun st => (renderedFrames (newCalls audioManager st.mgr)).map
              (fun m => (m.StartPos, m.Duration))) = some [(0, 430000), (430000, 330000)] := rfl
        rw [hst] at hmap
        simpa using hmap,
        (frame_start_positions audioManager [exampleSource] []
          { left := 0, top := 0, right := 1920, bottom := 1080 } { cx := 1920, cy := 1080 }
          (1000 / 30) 333333 [frameInput, laterFrameInput] st hst).2⟩)

/-! ## Duration implied by the audio (claim C15) -/

theorem mem_renderedFrames (model : FrameWriteModel) (calls : List Call)
    (h : Call.RenderFrame model ∈ calls) : model ∈ renderedFrames calls := by
  unfold renderedFrames
  rw [List.mem_filterMap]
  exact ⟨_, h, rfl⟩

/-- For a positive divisor the integer division of the model is the floor of the
quotient. -/
theorem floor_div_of_pos (n d : Int) (hd : 0 < d) : Int.floor ((n : ℚ) / (d : ℚ)) = n / d := by
  obtain ⟨k, rfl⟩ := Int.eq_ofNat_of_zero_le (le_of_lt hd)
  exact Rat.floor_intCast_div_natCast n k

/-- C15: for a frame that `PrepareAndRenderFrame` hands to the encoder, the audio bytes
handed over are the audio grabbed for it; when that audio is empty the duration is the
nominal duration passed in; when it is not empty the duration is the floor of
`frameCount * 10^7 / samplesPerSecond`, where `frameCount` is the floor of the byte
count divided by `(bitsPerSample / 8) * channels`, whatever the nominal duration is.
The audio format values are counts: bits per sample and channels are taken not to be
negative, the bytes per frame to fit 64 bits and the samples per second to be
positive. -/
theorem audio_implied_duration (inp : CycleInput) (st : RecorderLoop)
    (pTextureToRender : Option Texture) (duration100Nanos : Int) (r : HRESULT × RecorderLoop)
    (model : FrameWriteModel)
    (h : PrepareAndRenderFrame inp st pTextureToRender duration100Nanos = some r)
    (hmodel : Call.RenderFrame model ∈ newCalls st.mgr r.2.mgr) :
    model.Audio = inp.GrabAudioFrame ∧
    (inp.GrabAudioFrame = [] → model.Duration = duration100Nanos) ∧
    (inp.GrabAudioFrame ≠ [] →
      0 ≤ st.mgr.m_AudioOptions.AudioBitsPerSample →
      0 ≤ st.mgr.m_AudioOptions.AudioChannels →
      st.mgr.m_AudioOptions.AudioBitsPerSample / 8 * st.mgr.m_AudioOptions.AudioChannels < 2 ^ 64 →
      0 < st.mgr.m_AudioOptions.AudioSamplesPerSecond →
      0 < st.mgr.m_AudioOptions.AudioBitsPerSample / 8 * st.mgr.m_AudioOptions.AudioChannels ∧
      model.Duration
        = Int.floor
            (((Int.floor (((inp.GrabAudioFrame.length : Int) : ℚ)
                / ((st.mgr.m_AudioOptions.AudioBitsPerSample / 8
                    * st.mgr.m_AudioOptions.AudioChannels : Int) : ℚ)) * 10 ^ 7 : Int) : ℚ)
              / (st.mgr.m_AudioOptions.AudioSamplesPerSecond : ℚ))) := by
  obtain ⟨-, -, hcases⟩ := PrepareAndRenderFrame_spec _ _ _ _ _ h
  rcases hcases with ⟨-, hq, -⟩ | ⟨pre, post, frame, diff, hdiff, -, htr, hpre, hpost, -⟩
  · exfalso
    obtain ⟨-, -, -, -, -, e, het, her⟩ := noFrameHanded_fields hq
    rw [newCalls_append _ _ _ het] at hmodel
    have hmem := mem_renderedFrames _ _ hmodel
    rw [her] at hmem
    cases hmem
  · rw [newCalls_append _ _ _ htr] at hmodel
    have hmem := mem_renderedFrames _ _ hmodel
    have hone : renderedFrames (pre ++ Call.RenderFrame
        { Frame := frame, Duration := duration100Nanos + diff,
          StartPos := st.lastFrameStartPos100Nanos + st.totalDiff,
          Audio := inp.GrabAudioFrame } :: post)
        = [{ Frame := frame, Duration := duration100Nanos + diff,
              StartPos := st.lastFrameStartPos100Nanos + st.totalDiff,
              Audio := inp.GrabAudioFrame }] := by
      rw [renderedFrames_append, hpre]
      show _ :: renderedFrames post = _
      rw [hpost]
    rw [hone, List.mem_singleton] at hmem
    subst hmem
    refine ⟨rfl, ?_, ?_⟩
    · intro hempty
      unfold audioDiff at hdiff
      rw [hempty] at hdiff
      simp only [List.length_nil, gt_iff_lt, lt_self_iff_false, if_false, Option.some.injEq]
        at hdiff
      show duration100Nanos + diff = duration100Nanos
      rw [← hdiff]
      ring
    · intro hne hbits hchannels hfits hsps
      have hlen : inp.GrabAudioFrame.length > 0 := List.length_pos.mpr hne
      have hbits8 : (0 : Int) ≤ st.mgr.m_AudioOptions.AudioBitsPerSample / 8 :=
        Int.ediv_nonneg hbits (by decide)
      have hprod : (0 : Int) ≤ st.mgr.m_AudioOptions.AudioBitsPerSample / 8
          * st.mgr.m_AudioOptions.AudioChannels := mul_nonneg hbits8 hchannels
      have hbpf : (Int.tdiv st.mgr.m_AudioOptions.AudioBitsPerSample 8
          * st.mgr.m_AudioOptions.AudioChannels) % 2 ^ 64
          = st.mgr.m_AudioOptions.AudioBitsPerSample / 8
            * st.mgr.m_AudioOptions.AudioChannels := by
        rw [Int.tdiv_eq_ediv hbits (by decide)]
        exact Int.emod_eq_of_lt hprod hfits
      unfold audioDiff at hdiff
      rw [if_pos hlen] at hdiff
      dsimp only at hdiff
      rw [hbpf] at hdiff
      split at hdiff
      · cases hdiff
      · rename_i hnz
        simp only [not_or] at hnz
        have hpos : 0 < st.mgr.m_AudioOptions.AudioBitsPerSample / 8
            * st.mgr.m_AudioOptions.AudioChannels := lt_of_le_of_ne hprod (Ne.symm hnz.1)
        refine ⟨hpos, ?_⟩
        simp only [Option.some.injEq] at hdiff
        show duration100Nanos + diff = _
        rw [← hdiff, floor_div_of_pos _ _ hpos, floor_div_of_pos _ _ hsps]
        have hfc : (0 : Int) ≤ (inp.GrabAudioFrame.length : Int)
            / (st.mgr.m_AudioOptions.AudioBitsPerSample / 8
              * st.mgr.m_AudioOptions.AudioChannels) :=
          Int.ediv_nonneg (Int.ofNat_nonneg _) hprod
        rw [Int.tdiv_eq_ediv (by positivity) (le_of_lt hsps)]
        ring_nf

/-- Witness for C15: 43 bytes of 8-bit mono audio at 1000 samples per second are grabbed
for a frame whose nominal duration is 33 ms; the frame is handed to the encoder with a
duration of 43 ms. -/
theorem audio_implied_duration_witness :
    ∃ r, PrepareAndRenderFrame frameInput audioLoop frameInput.AcquireNextFrame.2.Frame 330000
        = some r ∧
      Call.RenderFrame
          { Frame := some { Width := 1920, Height := 1080 }, Duration := 430000, StartPos := 0,
            Audio := List.replicate 43 0 }
        ∈ newCalls audioLoop.mgr r.2.mgr ∧
      (430000 : Int)
        = Int.floor
            (((Int.floor (((frameInput.GrabAudioFrame.length : Int) : ℚ)
                / ((audioLoop.mgr.m_AudioOptions.AudioBitsPerSample / 8
                    * audioLoop.mgr.m_AudioOptions.AudioChannels : Int) : ℚ)) * 10 ^ 7 : Int) : ℚ)
              / (audioLoop.mgr.m_AudioOptions.AudioSamplesPerSecond : ℚ)) :=
  (Option.isSome_iff_exists.mp
    (rfl : (PrepareAndRenderFrame frameInput audioLoop frameInput.AcquireNextFrame.2.Frame
      330000).isSome = true)).elim
    (fun r hr =>
      have hmem : Call.RenderFrame
          { Frame := some { Width := 1920, Height := 1080 }, Duration := 430000, StartPos := 0,
            Audio := List.replicate 43 0 }
          ∈ newCalls audioLoop.mgr r.2.mgr := by
        have hd : (PrepareAndRenderFrame frameInput audioLoop
            frameInput.AcquireNextFrame.2.Frame 330000).map
            (fun r => decide (Call.RenderFrame
              { Frame := some { Width := 1920, Height := 1080 }, Duration := 430000,
                StartPos := 0, Audio := List.replicate 43 0 }
              ∈ newCalls audioLoop.mgr r.2.mgr)) = some true := rfl
        rw [hr] at hd
        simpa using hd
      ⟨r, hr, hmem,
        ((audio_implied_duration frameInput audioLoop frameInput.AcquireNextFrame.2.Frame 330000
          r _ hr hmem).2.2 (by decide) (by decide) (by decide) (by decide) (by decide)).2⟩)

/-! ## Cancellation (claim C16) -/

theorem recordFrame_cancelled (inp : CycleInput) (st st2 : RecorderLoop) (result : REC_RESULT)
    (h : recordFrame inp st = .exit .Cancelled result st2) :
    result = REC_RESULT.ofHRESULT S_OK "" ∧ st2.hr = S_OK
      ∧ inp.is_canceled_afterAcquire = true := by
  unfold recordFrame at h
  lift_lets at h
  extract_lets paused pauseCalls src st1 timeout capturedFrame st3 src3 st4 dur st5 at h
  clear_value st5 dur st4 src3 st3 capturedFrame timeout st1 src pauseCalls paused
  split at h
  · cases h
  · split at h
    · cases h
    · split at h
      · cases h
      · split at h
        · cases h
        · split at h
          · rename_i hc
            cases h
            exact ⟨rfl, rfl, hc⟩
          · generalize PrepareAndRenderFrame inp st5 capturedFrame.Frame dur = p at h
            cases p with
            | none => cases h
            | some r =>
              dsimp only at h
              split at h
              · cases h
              · split at h <;> cases h

theorem restartOrExit_exitPoint_cancelled (inp : CycleInput) (st : RecorderLoop)
    (captureResult : CAPTURE_RESULT) (code : HRESULT) :
    (restartOrExit inp st captureResult code).exitPoint ≠ some .Cancelled := by
  unfold restartOrExit
  dsimp only
  simp only [apply_ite ErrorBlockOutcome.exitPoint, ErrorBlockOutcome.exitPoint]
  split_ifs <;> simp

theorem handleErrorEvent_exitPoint_cancelled (inp : CycleInput) (st : RecorderLoop) :
    (handleErrorEvent inp st).exitPoint ≠ some .Cancelled := by
  unfold handleErrorEvent
  split
  · split <;> simp [ErrorBlockOutcome.exitPoint]
  · split
    · exact restartOrExit_exitPoint_cancelled _ _ _ _
    · split
      · dsimp only
        split
        · exact restartOrExit_exitPoint_cancelled _ _ _ _
        · simp [ErrorBlockOutcome.exitPoint]
      · simp [ErrorBlockOutcome.exitPoint]

/-- C16: when the cancellation token is found cancelled at the top of an iteration, the
loop is left at once with the result code `S_OK`, whatever result code the previous
iteration left, and the manager is as it was: no call is made.  When it is found
cancelled after the frame acquisition (the session is not paused, the acquisition has
succeeded or timed out and the media time stamp was read), the loop is left with the
result code `S_OK`, whatever the acquisition returned, and the acquisition is the only
call of that part of the iteration.  Whenever an iteration leaves the loop through a
cancellation, the result is `S_OK` with an empty error text, the result code of the
loop is `S_OK`, and no frame was handed to the encoder in that iteration; the loop has
ended, so later answers of the environment are not looked at. -/
theorem cancellation_leaves_loop (inp : CycleInput) (st : RecorderLoop) :
    (inp.is_canceled_top = true →
      recorderLoopCycle inp st
        = .exit .Cancelled (REC_RESULT.ofHRESULT S_OK "") { st with hr := S_OK }) ∧
    (st.mgr.m_IsPaused = false →
      ¬ (FAILED inp.AcquireNextFrame.1 = true ∧ inp.AcquireNextFrame.1 ≠ DXGI_ERROR_WAIT_TIMEOUT) →
      FAILED inp.GetMediaTimeStamp.1 = false → inp.is_canceled_afterAcquire = true →
      ∃ st2, recordFrame inp st = .exit .Cancelled (REC_RESULT.ofHRESULT S_OK "") st2
        ∧ st2.hr = S_OK
        ∧ newCalls st.mgr st2.mgr
          = [Call.AcquireNextFrame (GetTimeUntilNextFrameMillis st inp.timestampBeforeAcquire)]) ∧
    (∀ result st2, recorderLoopCycle inp st = .exit .Cancelled result st2 →
      result = REC_RESULT.ofHRESULT S_OK "" ∧ result.RecordingResult = S_OK ∧ st2.hr = S_OK
        ∧ renderedFrames (newCalls st.mgr st2.mgr) = []
        ∧ ∀ rest, recorderLoop (inp :: rest) st = some (.Cancelled, result, st2)) := by
  refine ⟨?_, ?_, ?_⟩
  · intro hc
    unfold recorderLoopCycle
    rw [if_pos hc]
  · intro hp hacq hts hc
    generalize ho : recordFrame inp st = o
    unfold recordFrame at ho
    lift_lets at ho
    extract_lets paused pauseCalls src st1 timeout capturedFrame st3 src3 st4 dur st5 at ho
    have hpaused : paused = st.mgr.m_IsPaused := rfl
    have hpc : paused = false → pauseCalls = [] := by
      intro hf
      show (if paused = true then _ else _) = []
      rw [hf]
      rfl
    have htimeout : timeout = GetTimeUntilNextFrameMillis st inp.timestampBeforeAcquire := rfl
    have h3h : st3.hr = inp.AcquireNextFrame.1 := rfl
    have h4t : st4.mgr.trace = st.mgr.trace ++ pauseCalls ++ [Call.AcquireNextFrame timeout] :=
      rfl
    clear_value st5 dur st4 src3 st3 capturedFrame timeout st1 src pauseCalls paused
    rw [hp] at hpaused
    subst hpaused
    rw [hpc rfl, List.append_nil, htimeout] at h4t
    rw [h3h] at ho
    simp only [Bool.false_and, Bool.false_eq_true, if_false, if_neg hacq, hts, hc, if_true]
      at ho
    subst ho
    exact ⟨_, rfl, rfl, newCalls_append _ _ _ h4t⟩
  · intro result st2 h
    have hres : result = REC_RESULT.ofHRESULT S_OK "" ∧ st2.hr = S_OK := by
      have h2 := h
      unfold recorderLoopCycle at h2
      split at h2
      · cases h2
        exact ⟨rfl, rfl⟩
      · dsimp only at h2
        split at h2
        · have hb := handleErrorEvent_exitPoint_cancelled inp
            { st with ErrorEvent := st.ErrorEvent || inp.ErrorEventSignalled }
          revert hb h2
          generalize handleErrorEvent inp _ = b
          intro h2 hb
          cases b with
          | exit point result3 st3 =>
            cases h2
            simp [ErrorBlockOutcome.exitPoint] at hb
          | continue_ st3 => cases h2
          | proceed st3 =>
            exact ⟨(recordFrame_cancelled _ _ _ _ h2).1, (recordFrame_cancelled _ _ _ _ h2).2.1⟩
        · exact ⟨(recordFrame_cancelled _ _ _ _ h2).1, (recordFrame_cancelled _ _ _ _ h2).2.1⟩
    obtain ⟨e, he, hcases⟩ := recorderLoopCycle_spec inp st st2 (by rw [h]; rfl)
    refine ⟨hres.1, by rw [hres.1]; rfl, hres.2, ?_, ?_⟩
    · rw [newCalls_append _ _ _ he]
      rcases hcases with ⟨hre, -⟩ | ⟨model, -, -, hne, -⟩
      · exact hre
      · rw [h] at hne
        exact absurd rfl hne
    · intro rest
      unfold recorderLoop
      rw [h]

/-- Witness for C16: cancellation found at the top of an iteration that follows a failed
one, and cancellation found after an acquisition that timed out. -/
theorem cancellation_leaves_loop_witness :
    recorderLoopCycle cancelledTopInput failedLoop
      = .exit .Cancelled (REC_RESULT.ofHRESULT S_OK "") { failedLoop with hr := S_OK } ∧
    (∃ st2, recordFrame cancelledAfterTimeoutInput exampleLoop
        = .exit .Cancelled (REC_RESULT.ofHRESULT S_OK "") st2
      ∧ st2.hr = S_OK
      ∧ newCalls exampleLoop.mgr st2.mgr
        = [Call.AcquireNextFrame
            (GetTimeUntilNextFrameMillis exampleLoop
              cancelledAfterTimeoutInput.timestampBeforeAcquire)]) ∧
    renderedFrames (newCalls failedLoop.mgr
      ({ failedLoop with hr := S_OK } : RecorderLoop).mgr) = [] :=
  ⟨(cancellation_leaves_loop cancelledTopInput failedLoop).1 rfl,
    (cancellation_leaves_loop cancelledAfterTimeoutInput exampleLoop).2.1 rfl (by decide) rfl rfl,
    ((cancellation_leaves_loop cancelledTopInput failedLoop).2.2 _ _
      ((cancellation_leaves_loop cancelledTopInput failedLoop).1 rfl)).2.2.2.1⟩

/-! ## A frame that is not handed to the encoder (claim C20) -/

/-- C20, divergence of the code: in a video session that takes snapshots along with the
video and has no snapshots directory, an iteration that is neither cancelled nor paused
and acquires a frame successfully goes on to the next iteration without handing a frame
to the encoder: the early `return S_FALSE` of `PrepareAndRenderFrame` comes before
`RenderFrame`.  The frame number stays 0, no call of the iteration is `RenderFrame`, and
the same happens in every following iteration, because the time of the last snapshot is
never set.  Such a session is what `BeginRecording` starts for a stream, where no output
path is given from which a snapshots directory could be derived. -/
theorem snapshot_without_directory_hands_no_frame :
    (BeginRecording exampleHost
      { idleManager with m_SnapshotOptions := snapshotLoop.mgr.m_SnapshotOptions } "" true).1 = S_OK ∧
    (BeginRecording exampleHost
      { idleManager with m_SnapshotOptions := snapshotLoop.mgr.m_SnapshotOptions } ""
      true).2.m_SnapshotOptions = snapshotLoop.mgr.m_SnapshotOptions ∧
    frameInput.is_canceled_top = false ∧ frameInput.is_canceled_afterAcquire = false ∧
    snapshotLoop.mgr.m_IsPaused = false ∧
    SUCCEEDED frameInput.AcquireNextFrame.1 = true ∧
    (recorderLoopCycle frameInput snapshotLoop).exitPoint = none ∧
    (recorderLoopCycle frameInput snapshotLoop).state?.map
        (fun st => (renderedFrames (newCalls snapshotLoop.mgr st.mgr), st.frameNr))
      = some ([], 0) ∧
    (recorderLoopCycle frameInput snapshotLoop).state?.map
        (fun st => (newCalls snapshotLoop.mgr st.mgr).map
          (fun c => match c with
            | .AcquireNextFrame _ => "AcquireNextFrame"
            | .RecordingStatusChangedCallback _ => "RecordingStatusChangedCallback"
            | .ProcessOverlays => "ProcessOverlays"
            | .GrabAudioFrame _ => "GrabAudioFrame"
            | .RenderFrame _ => "RenderFrame"
            | _ => "other"))
      = some ["AcquireNextFrame", "RecordingStatusChangedCallback", "ProcessOverlays"] ∧
    (recorderLoopState [frameInput, laterFrameInput, laterFrameInput] snapshotLoop).map
        (fun st => (renderedFrames (newCalls snapshotLoop.mgr st.mgr), st.frameNr))
      = some ([], 0) := by
  refine ⟨rfl, rfl, rfl, rfl, rfl, rfl, rfl, rfl, rfl, rfl⟩

/-! ## Kinds of calls made by the texture functions -/

theorem callsOnly_refl (p : Call → Bool) (s : RecordingManager) : callsOnly p s s :=
  ⟨[], by simp [RecordingManager.calls], by simp⟩

theorem callsOnly_trans {p : Call → Bool} {s t u : RecordingManager} (h1 : callsOnly p s t)
    (h2 : callsOnly p t u) : callsOnly p s u := by
  obtain ⟨e1, rfl, hr1⟩ := h1
  obtain ⟨e2, rfl, hr2⟩ := h2
  refine ⟨e1 ++ e2, by simp [RecordingManager.calls], ?_⟩
  intro c hc
  rcases List.mem_append.mp hc with h | h
  · exact hr1 c h
  · exact hr2 c h

theorem callsOnly_call (p : Call → Bool) (s : RecordingManager) (c : Call) (hc : p c = true) :
    callsOnly p s (s.call c) :=
  ⟨[c], rfl, by simpa using hc⟩

theorem callsOnly_callIf (p : Call → Bool) (s : RecordingManager) (b : Bool) (c : Call)
    (hc : p c = true) : callsOnly p s (s.callIf b c) := by
  cases b
  · exact ⟨[], by simp [RecordingManager.calls, RecordingManager.callIf], by simp⟩
  · exact ⟨[c], by simp [RecordingManager.calls, RecordingManager.callIf], by simpa using hc⟩

theorem callsOnly_fields {p : Call → Bool} {s t : RecordingManager} (h : callsOnly p s t) :
    t.m_RestartCaptureCount = s.m_RestartCaptureCount ∧ t.m_IsPaused = s.m_IsPaused ∧
    t.m_IsRecording = s.m_IsRecording ∧
    ∃ extra, t.trace = s.trace ++ extra ∧ ∀ c ∈ extra, p c = true := by
  obtain ⟨e, rfl, hr⟩ := h
  exact ⟨rfl, rfl, rfl, e, rfl, hr⟩

theorem resize_textureWork (host : Host) (s : RecordingManager) (hr : HRESULT)
    (pProcessedTexture : Texture) (videoInputFrameRect : RECT) (videoOutputFrameSize : SIZE)
    (r : HRESULT × Option Texture × RecordingManager)
    (h : ProcessTextureTransforms.resize host s hr pProcessedTexture videoInputFrameRect
      videoOutputFrameSize = some r) : callsOnly Call.isTextureWork s r.2.2 := by
  unfold ProcessTextureTransforms.resize at h
  dsimp only at h
  split_ifs at h <;> cases h <;> dsimp only <;>
    repeat first
      | exact callsOnly_call _ _ _ (by rfl)
      | refine callsOnly_trans ?_ (callsOnly_call _ _ _ (by rfl))
      | exact callsOnly_refl _ _

theorem ProcessTextureTransforms_textureWork (host : Host) (s : RecordingManager)
    (pTexture : Texture) (videoInputFrameRect : RECT) (videoOutputFrameSize : SIZE)
    (r : HRESULT × Option Texture × RecordingManager)
    (h : ProcessTextureTransforms host s pTexture videoInputFrameRect videoOutputFrameSize
      = some r) : callsOnly Call.isTextureWork s r.2.2 := by
  unfold ProcessTextureTransforms at h
  dsimp only at h
  split_ifs at h
  · cases h
    exact callsOnly_call _ _ _ (by rfl)
  · exact callsOnly_trans (callsOnly_call _ _ _ (by rfl))
      (resize_textureWork _ _ _ _ _ _ _ h)
  · exact resize_textureWork _ _ _ _ _ _ _ h

theorem ProcessTexture_textureWork (host : Host) (s : RecordingManager)
    (pTexture : Option Texture) (pPtrInfo : Option PTR_INFO)
    (r : HRESULT × Option Texture × RecordingManager)
    (h : ProcessTexture host s pTexture pPtrInfo = some r) :
    callsOnly Call.isTextureWork (s.call Call.ProcessOverlays) r.2.2 := by
  unfold ProcessTexture at h
  dsimp only at h
  have hpre : callsOnly Call.isTextureWork (s.call Call.ProcessOverlays)
      ((s.call Call.ProcessOverlays).callIf pPtrInfo.isSome Call.ProcessMousePointer) :=
    callsOnly_callIf _ _ _ _ (by rfl)
  split_ifs at h
  split at h
  · split_ifs at h
    · cases h
      exact hpre
    · split at h
      · rename_i heq
        have h2 := ProcessTextureTransforms_textureWork _ _ _ _ _ _ heq
        split_ifs at h <;> cases h <;> exact callsOnly_trans hpre h2
      · cases h
  · cases h

theorem SaveTextureAsVideoSnapshot_textureWork (host : Host) (s : RecordingManager)
    (pTexture : Option Texture) (path : Option String) (destRect : RECT)
    (r : HRESULT × RecordingManager)
    (h : SaveTextureAsVideoSnapshot host s pTexture path destRect = some r) :
    callsOnly Call.isTextureWork s r.2 := by
  unfold SaveTextureAsVideoSnapshot at h
  dsimp only at h
  cases pTexture with
  | none => cases h
  | some frame =>
    dsimp only at h
    cases path <;> dsimp only at h <;> split_ifs at h <;> cases h <;> dsimp only <;>
      repeat first
        | exact callsOnly_call _ _ _ (by rfl)
        | refine callsOnly_trans ?_ (callsOnly_call _ _ _ (by rfl))

theorem TakeSnapshot_write_textureWork (host : Host) (s : RecordingManager) (path : String)
    (stream : Bool) (processedTexture : Option Texture) (r : HRESULT × RecordingManager)
    (h : TakeSnapshot.write host s path stream processedTexture = some r) :
    callsOnly Call.isTextureWork s r.2 := by
  unfold TakeSnapshot.write at h
  by_cases hcm : (!s.m_CaptureManager) = true
  · rw [if_pos hcm] at h
    cases h
  rw [if_neg hcm] at h
  generalize InitializeRects s.m_OutputOptions host.GetOutputSize true false = ir at h
  rcases ir with ⟨hr, _ | rect, sz⟩
  · cases h
  dsimp only at h
  by_cases hf : FAILED hr = true
  · rw [if_pos hf] at h
    cases h
    exact callsOnly_refl _ _
  rw [if_neg hf] at h
  by_cases hp : path ≠ ""
  · rw [if_pos hp] at h
    by_cases hdir : (!host.exists_ (host.parent_path path)
        && !host.create_directories (host.parent_path path)) = true
    · rw [if_pos hdir] at h
      cases h
      exact callsOnly_callIf _ _ _ _ (by rfl)
    · rw [if_neg hdir] at h
      generalize hs : SaveTextureAsVideoSnapshot host _ processedTexture (some path) rect = o at h
      cases o with
      | none => cases h
      | some r2 =>
        have h1 := callsOnly_trans (callsOnly_callIf Call.isTextureWork s _ _ (by rfl))
          (SaveTextureAsVideoSnapshot_textureWork _ _ _ _ _ _ hs)
        dsimp only at h
        split_ifs at h <;> cases h
        · exact h1
        · exact callsOnly_trans h1 (callsOnly_callIf _ _ _ _ (by rfl))
  · rw [if_neg hp] at h
    by_cases hst : stream = true
    · rw [if_pos hst] at h
      generalize hs : SaveTextureAsVideoSnapshot host _ processedTexture none rect = o at h
      cases o with
      | none => cases h
      | some r2 =>
        have h1 := SaveTextureAsVideoSnapshot_textureWork _ _ _ _ _ _ hs
        dsimp only at h
        split_ifs at h <;> cases h
        · exact h1
        · exact callsOnly_trans h1 (callsOnly_callIf _ _ _ _ (by rfl))
    · rw [if_neg hst] at h
      cases h
      exact callsOnly_refl _ _

theorem TakeSnapshot_textureWork (host : Host) (s : RecordingManager) (path : String)
    (stream : Bool) (pTexture : Option Texture) (r : HRESULT × RecordingManager)
    (h : TakeSnapshot host s path stream pTexture = some r) :
    (∀ texture, pTexture = some texture → callsOnly Call.isTextureWork s r.2) ∧
    (pTexture = none → s.m_IsRecording = true →
      callsOnly Call.isTextureWork
        (s.call (if s.m_IsPaused then Call.AcquireNextFrame 0 else Call.CopyCurrentFrame)) r.2) := by
  unfold TakeSnapshot at h
  by_cases hrec : (!s.m_IsRecording) = true
  · rw [if_pos hrec] at h
    cases h
    refine ⟨fun _ _ => callsOnly_refl _ _, fun _ hr => ?_⟩
    rw [hr] at hrec
    cases hrec
  rw [if_neg hrec] at h
  cases pTexture with
  | some texture =>
    exact ⟨fun _ _ => TakeSnapshot_write_textureWork _ _ _ _ _ _ h, fun hn => by cases hn⟩
  | none =>
    refine ⟨fun _ hn => (by cases hn), fun _ _ => ?_⟩
    dsimp only at h
    by_cases hcm : (!s.m_CaptureManager) = true
    · rw [if_pos hcm] at h
      cases h
    rw [if_neg hcm] at h
    generalize (if s.m_IsPaused = true then host.AcquireNextFrame else host.CopyCurrentFrame)
      = acquired at h
    generalize s.call (if s.m_IsPaused then Call.AcquireNextFrame 0 else Call.CopyCurrentFrame)
      = s2 at h
    rcases acquired with ⟨hr, capturedFrame⟩
    dsimp only at h
    split_ifs at h
    · cases h
      exact callsOnly_refl _ _
    · generalize hp : ProcessTexture host s2 capturedFrame.Frame capturedFrame.PtrInfo = o at h
      cases o with
      | none => cases h
      | some r2 =>
        exact callsOnly_trans (callsOnly_call _ _ _ (by rfl))
          (callsOnly_trans (ProcessTexture_textureWork _ _ _ _ _ hp)
            (TakeSnapshot_write_textureWork _ _ _ _ _ _ h))

/-! ## Kinds of calls made by an iteration of the loop -/

theorem callsOnly_mono {p q : Call → Bool} (hpq : ∀ c, p c = true → q c = true)
    {s t : RecordingManager} (h : callsOnly p s t) : callsOnly q s t := by
  obtain ⟨e, rfl, hr⟩ := h
  exact ⟨e, rfl, fun c hc => hpq c (hr c hc)⟩

theorem isLoopWork_of_isTextureWork (c : Call) (h : c.isTextureWork = true) :
    c.isLoopWork = true := by
  cases c <;> simp_all [Call.isLoopWork, Call.isTextureWork]

theorem isLoopWork_facts (c : Call) (h : c.isLoopWork = true) :
    c.grabbedDuration? = none ∧ c.renderedFrame? = none ∧ c.isStartCapture = false
      ∧ c ≠ Call.StopCapture := by
  cases c <;>
    simp_all [Call.isLoopWork, Call.isTextureWork, Call.grabbedDuration?, Call.renderedFrame?,
      Call.isStartCapture]

theorem filterMap_eq_nil_of_forall {α β : Type} (f : α → Option β) (l : List α)
    (h : ∀ c ∈ l, f c = none) : l.filterMap f = [] := by
  induction l with
  | nil => rfl
  | cons a l ih =>
    rw [List.filterMap_cons, h a (List.mem_cons_self a l)]
    exact ih (fun c hc => h c (List.mem_cons_of_mem a hc))

theorem TakeSnapshot_loopWork (host : Host) (s : RecordingManager) (path : String)
    (stream : Bool) (pTexture : Option Texture) (r : HRESULT × RecordingManager)
    (h : TakeSnapshot host s path stream pTexture = some r) :
    callsOnly Call.isLoopWork s r.2 := by
  obtain ⟨htexture, hnone⟩ := TakeSnapshot_textureWork host s path stream pTexture r h
  cases pTexture with
  | some texture => exact callsOnly_mono isLoopWork_of_isTextureWork (htexture texture rfl)
  | none =>
    cases hrec : s.m_IsRecording with
    | true =>
      exact callsOnly_trans
        (callsOnly_call _ _ _ (by cases s.m_IsPaused <;> rfl))
        (callsOnly_mono isLoopWork_of_isTextureWork (hnone rfl hrec))
    | false =>
      unfold TakeSnapshot at h
      rw [if_pos (by rw [hrec]; rfl)] at h
      cases h
      exact callsOnly_refl _ _

theorem PrepareAndRenderFrame_calls (inp : CycleInput) (st : RecorderLoop)
    (pTextureToRender : Option Texture) (duration100Nanos : Int) (r : HRESULT × RecorderLoop)
    (h : PrepareAndRenderFrame inp st pTextureToRender duration100Nanos = some r) :
    ∃ work, (∀ c ∈ work, c.isLoopWork = true) ∧
      ((r.1 = S_FALSE ∧ r.2.mgr.trace = st.mgr.trace ++ Call.ProcessOverlays :: work
          ∧ r.2.lastFrameStartPos100Nanos = st.lastFrameStartPos100Nanos) ∨
        (∃ model callback, r.1 = inp.RenderFrame ∧
          r.2.mgr.trace = st.mgr.trace
            ++ (Call.ProcessOverlays :: work
              ++ [Call.GrabAudioFrame duration100Nanos, Call.RenderFrame model] ++ callback) ∧
          (∀ c ∈ callback, c.isLoopWork = true) ∧
          ((FAILED inp.RenderFrame = true
              ∧ r.2.lastFrameStartPos100Nanos = st.lastFrameStartPos100Nanos) ∨
            (FAILED inp.RenderFrame = false
              ∧ r.2.lastFrameStartPos100Nanos
                = st.lastFrameStartPos100Nanos + duration100Nanos)))) := by
  unfold PrepareAndRenderFrame at h
  generalize hp : ProcessTexture inp.host st.mgr pTextureToRender st.pPtrInfo = processed at h
  cases processed with
  | none => cases h
  | some p =>
    obtain ⟨renderHr, processedTexture, mgr1⟩ := p
    obtain ⟨e1, hm1, hr1⟩ := callsOnly_mono isLoopWork_of_isTextureWork
      (ProcessTexture_textureWork _ _ _ _ _ hp)
    dsimp only at hm1
    subst hm1
    dsimp only at h
    split at h
    · cases h
      exact ⟨e1, hr1, Or.inl ⟨rfl, by simp [RecordingManager.calls, RecordingManager.call], rfl⟩⟩
    · have hafter : ∀ (o : Option RecorderLoop) (c : Bool)
          (taken : Option (HRESULT × RecordingManager)),
          (∀ t, taken = some t →
            callsOnly Call.isLoopWork ((st.mgr.call Call.ProcessOverlays).calls e1) t.2) →
          (if c = true then
              match taken with
              | some (_, mgr) =>
                some { st with mgr := mgr, previousSnapshotTaken := some inp.now }
              | none => none
            else some { st with mgr := (st.mgr.call Call.ProcessOverlays).calls e1 }) = o →
          ∀ st2, o = some st2 →
            ∃ e2 prev, (∀ c ∈ e2, c.isLoopWork = true) ∧
              st2 = { st with mgr := (st.mgr.call Call.ProcessOverlays).calls e2,
                              previousSnapshotTaken := prev } := by
        intro o c taken htaken ho st2 hst2
        subst hst2
        cases c
        · simp only [Bool.false_eq_true, if_false, Option.some.injEq] at ho
          exact ⟨e1, st.previousSnapshotTaken, hr1, ho.symm⟩
        · simp only [if_true] at ho
          cases taken with
          | none => cases ho
          | some t =>
            obtain ⟨e2, he2, hr2⟩ :=
              callsOnly_trans (⟨e1, rfl, hr1⟩ : callsOnly Call.isLoopWork
                (st.mgr.call Call.ProcessOverlays) _) (htaken t rfl)
            simp only [Option.some.injEq] at ho
            exact ⟨e2, some inp.now, hr2, by rw [← ho, he2]⟩
      split at h
      · cases h
      · rename_i st2 hst2
        obtain ⟨e2, prev, hr2, rfl⟩ := hafter _ _ _
          (fun t ht => TakeSnapshot_loopWork _ _ _ _ _ _ ht) rfl st2 hst2
        dsimp only at h
        split at h
        · cases h
        · rename_i diff hdiff
          split at h
          · rename_i hfail
            cases h
            refine ⟨e2, hr2, Or.inr ⟨
              ({ Frame := (if renderHr = S_OK then processedTexture else pTextureToRender),
                 Duration := duration100Nanos + diff,
                 StartPos := st.lastFrameStartPos100Nanos + st.totalDiff,
                 Audio := inp.GrabAudioFrame } : FrameWriteModel), [], rfl, ?_, by simp, Or.inl ⟨hfail, rfl⟩⟩⟩
            simp [RecordingManager.calls, RecordingManager.call]
          · rename_i hfail
            cases h
            refine ⟨e2, hr2, Or.inr ⟨
              ({ Frame := (if renderHr = S_OK then processedTexture else pTextureToRender),
                 Duration := duration100Nanos + diff,
                 StartPos := st.lastFrameStartPos100Nanos + st.totalDiff,
                 Audio := inp.GrabAudioFrame } : FrameWriteModel),
              (if (st.mgr.RecordingFrameNumberChangedCallback && !st.mgr.m_IsDestructing) = true
                then [Call.RecordingFrameNumberChangedCallback (st.frameNr + 1)] else []),
              rfl, ?_, ?_, Or.inr ⟨by simpa using hfail, rfl⟩⟩⟩
            · cases hcb : (st.mgr.RecordingFrameNumberChangedCallback && !st.mgr.m_IsDestructing) <;>
                simp [RecordingManager.calls, RecordingManager.call, RecordingManager.callIf, hcb]
            · intro c hc
              split at hc
              · rw [List.mem_singleton.mp hc]
                rfl
              · cases hc

theorem recordFrame_calls (inp : CycleInput) (st st2 : RecorderLoop)
    (h : (recordFrame inp st).state? = some st2) :
    ∃ extra, st2.mgr.trace = st.mgr.trace ++ extra ∧
      (((∀ c ∈ extra, c.isLoopWork = true)
          ∧ st2.lastFrameStartPos100Nanos = st.lastFrameStartPos100Nanos
          ∧ (st.mgr.m_IsPaused = false →
              ¬ (FAILED inp.AcquireNextFrame.1 = true
                  ∧ inp.AcquireNextFrame.1 ≠ DXGI_ERROR_WAIT_TIMEOUT) →
              FAILED inp.GetMediaTimeStamp.1 = false → inp.is_canceled_afterAcquire = false →
              Call.ProcessOverlays ∈ extra)) ∨
        (st.mgr.m_IsPaused = false ∧
          ¬ (FAILED inp.AcquireNextFrame.1 = true
              ∧ inp.AcquireNextFrame.1 ≠ DXGI_ERROR_WAIT_TIMEOUT) ∧
          ∃ pre model callback,
            extra = pre
              ++ [Call.GrabAudioFrame (inp.GetMediaTimeStamp.2 - st.lastFrameStartPos100Nanos),
                  Call.RenderFrame model] ++ callback ∧
            (∀ c ∈ pre, c.isLoopWork = true) ∧ (∀ c ∈ callback, c.isLoopWork = true) ∧
            Call.ProcessOverlays ∈ pre ∧
            ((FAILED inp.RenderFrame = true
                ∧ st2.lastFrameStartPos100Nanos = st.lastFrameStartPos100Nanos
                ∧ (recordFrame inp st).exitPoint = some .RenderFrameFailed) ∨
              (FAILED inp.RenderFrame = false
                ∧ st2.lastFrameStartPos100Nanos = inp.GetMediaTimeStamp.2)))) := by
  revert h
  generalize ho : recordFrame inp st = o
  intro h
  unfold recordFrame at ho
  lift_lets at ho
  extract_lets paused pauseCalls src st1 timeout capturedFrame st3 src3 st4 dur st5 at ho
  have hpc : ∀ c ∈ pauseCalls, c.isLoopWork = true := by
    have hall : pauseCalls.all Call.isLoopWork = true := by
      show List.all (if paused = true then _ else _) Call.isLoopWork = true
      cases paused <;> cases inp.isMediaClockRunning <;>
        cases IsAnySourcePreviewsActive st.mgr <;> rfl
    exact fun c hc => List.all_eq_true.mp hall c hc
  have hpaused : paused = st.mgr.m_IsPaused := rfl
  have h1 : st1.mgr.trace = st.mgr.trace ++ pauseCalls
      ∧ st1.lastFrameStartPos100Nanos = st.lastFrameStartPos100Nanos := ⟨rfl, rfl⟩
  have h3 : st3.mgr.trace = st1.mgr.trace ++ [Call.AcquireNextFrame timeout]
      ∧ st3.lastFrameStartPos100Nanos = st1.lastFrameStartPos100Nanos
      ∧ st3.hr = inp.AcquireNextFrame.1 := ⟨rfl, rfl, rfl⟩
  have h4 : st4.mgr.trace = st3.mgr.trace
      ∧ st4.lastFrameStartPos100Nanos = st3.lastFrameStartPos100Nanos := ⟨rfl, rfl⟩
  have h5 : st5.mgr.trace = st4.mgr.trace
          ++ (if (decide (st4.frameNr = 0) && st4.mgr.RecordingStatusChangedCallback) = true
              then [Call.RecordingStatusChangedCallback .STATUS_RECORDING] else [])
      ∧ st5.lastFrameStartPos100Nanos = st4.lastFrameStartPos100Nanos :=
    ⟨callIf_trace _ _ _, rfl⟩
  have hdur : dur = inp.GetMediaTimeStamp.2 - st4.lastFrameStartPos100Nanos := rfl
  clear_value st5 dur st4 src3 st3 capturedFrame timeout st1 src pauseCalls paused
  obtain ⟨h1t, h1l⟩ := h1
  obtain ⟨h3t, h3l, h3h⟩ := h3
  obtain ⟨h4t, h4l⟩ := h4
  obtain ⟨h5t, h5l⟩ := h5
  rw [h1t] at h3t
  rw [h3t] at h4t
  rw [h4t] at h5t
  rw [h1l] at h3l
  rw [h3l] at h4l
  rw [h4l] at h5l hdur
  have hacq : ∀ c ∈ pauseCalls ++ [Call.AcquireNextFrame timeout], c.isLoopWork = true := by
    intro c hc
    rcases List.mem_append.mp hc with hc | hc
    · exact hpc c hc
    · rw [List.mem_singleton.mp hc]
      rfl
  split at ho
  · rename_i hskip
    subst ho
    cases h
    have hp : st.mgr.m_IsPaused = true := by
      rw [← hpaused]
      cases paused
      · simp at hskip
      · rfl
    exact ⟨pauseCalls, h1t, Or.inl ⟨hpc, h1l, fun hnp => by rw [hp] at hnp; cases hnp⟩⟩
  · split at ho
    · rename_i hp
      subst ho
      cases h
      rw [hpaused] at hp
      refine ⟨(pauseCalls ++ [Call.AcquireNextFrame timeout])
          ++ [Call.wait st3.videoFrameDurationMillis], ?_,
        Or.inl ⟨?_, h3l, fun hnp => by rw [hp] at hnp; cases hnp⟩⟩
      · show st3.mgr.trace ++ [_] = _
        rw [h3t, List.append_assoc, List.append_assoc, List.append_assoc]
      · intro c hc
        rcases List.mem_append.mp hc with hc | hc
        · exact hacq c hc
        · rw [List.mem_singleton.mp hc]
          rfl
    · rename_i hp
      rw [hpaused] at hp
      have hp : st.mgr.m_IsPaused = false := by simpa using hp
      split at ho
      · rename_i hfail
        subst ho
        cases h
        rw [h3h] at hfail
        exact ⟨pauseCalls ++ [Call.AcquireNextFrame timeout],
          by rw [h3t, List.append_assoc], Or.inl ⟨hacq, h3l, fun _ hn => absurd hfail hn⟩⟩
      · rename_i hnofail
        rw [h3h] at hnofail
        split at ho
        · rename_i hts
          subst ho
          cases h
          exact ⟨pauseCalls ++ [Call.AcquireNextFrame timeout],
            by rw [h4t, List.append_assoc],
            Or.inl ⟨hacq, h4l, fun _ _ hn => by rw [hts] at hn; cases hn⟩⟩
        · split at ho
          · rename_i hcancel
            subst ho
            cases h
            exact ⟨pauseCalls ++ [Call.AcquireNextFrame timeout],
              by rw [← List.append_assoc]; exact h4t,
              Or.inl ⟨hacq, h4l, fun _ _ _ hn => by rw [hcancel] at hn; cases hn⟩⟩
          · generalize hprep : PrepareAndRenderFrame inp st5 capturedFrame.Frame dur = p at ho
            cases p with
            | none =>
              subst ho
              cases h
            | some r =>
              obtain ⟨work, hwork, hcases⟩ := PrepareAndRenderFrame_calls _ _ _ _ _ hprep
              obtain ⟨hr, stR⟩ := r
              dsimp only at ho hcases
              have hout : st2.mgr = stR.mgr
                  ∧ st2.lastFrameStartPos100Nanos = stR.lastFrameStartPos100Nanos
                  ∧ (FAILED hr = true → o.exitPoint = some .RenderFrameFailed) := by
                split at ho
                · subst ho
                  cases h
                  exact ⟨rfl, rfl, fun _ => rfl⟩
                · rename_i hnf
                  split at ho <;> subst ho <;> cases h <;>
                    exact ⟨rfl, rfl, fun hf => absurd hf hnf⟩
              obtain ⟨hm, hl2, hrf⟩ := hout
              have hstatus : ∀ c ∈ pauseCalls ++ [Call.AcquireNextFrame timeout]
                    ++ (if (decide (st4.frameNr = 0) && st4.mgr.RecordingStatusChangedCallback)
                        = true then
                      [Call.RecordingStatusChangedCallback .STATUS_RECORDING] else []),
                  c.isLoopWork = true := by
                intro c hc
                rcases List.mem_append.mp hc with hc | hc
                · exact hacq c hc
                · split at hc
                  · rw [List.mem_singleton.mp hc]
                    rfl
                  · cases hc
              obtain ⟨before, hb, hbt⟩ : ∃ before, (∀ c ∈ before, c.isLoopWork = true)
                  ∧ st5.mgr.trace = st.mgr.trace ++ before :=
                ⟨_, hstatus, by rw [h5t]; simp only [List.append_assoc]⟩
              have hpre : ∀ c ∈ before ++ Call.ProcessOverlays :: work, c.isLoopWork = true := by
                intro c hc
                rcases List.mem_append.mp hc with hc | hc
                · exact hb c hc
                · rcases List.mem_cons.mp hc with hc | hc
                  · rw [hc]
                    rfl
                  · exact hwork c hc
              rcases hcases with ⟨-, htr, hl⟩ | ⟨model, callback, hhr, htr, hcb, hfin⟩
              · refine ⟨before ++ Call.ProcessOverlays :: work,
                  by rw [hm, htr, hbt, List.append_assoc],
                  Or.inl ⟨hpre, by rw [hl2, hl, h5l], fun _ _ _ _ => ?_⟩⟩
                simp
              · refine ⟨before ++ (Call.ProcessOverlays :: work
                    ++ [Call.GrabAudioFrame dur, Call.RenderFrame model] ++ callback),
                  by rw [hm, htr, hbt, List.append_assoc],
                  Or.inr ⟨hp, hnofail, before ++ Call.ProcessOverlays :: work, model, callback,
                    by rw [hdur]; simp only [List.append_assoc], hpre, hcb, by simp, ?_⟩⟩
                rcases hfin with ⟨hF, hl⟩ | ⟨hF, hl⟩
                · exact Or.inl ⟨hF, by rw [hl2, hl, h5l], hrf (hhr ▸ hF)⟩
                · refine Or.inr ⟨hF, ?_⟩
                  rw [hl2, hl, h5l, hdur]
                  ring

/-! ## The frame of a snapshot (claim C21) -/

/-- C21, counterexample: `TakeSnapshot` called without a texture on a manager that is
recording and paused obtains its frame through `AcquireNextFrame`; `CopyCurrentFrame`
is not among its calls. -/
theorem paused_snapshot_acquires_next_frame :
    pausedManager.m_IsRecording = true ∧ pausedManager.m_IsPaused = true ∧
    (TakeSnapshot exampleHost pausedManager "C:\\snap.png" false none).map
        (fun r => (r.1, (newCalls pausedManager r.2).map
          (fun c => match c with
            | .AcquireNextFrame _ => "AcquireNextFrame"
            | .CopyCurrentFrame => "CopyCurrentFrame"
            | .ProcessOverlays => "ProcessOverlays"
            | .CreateTexture2D _ _ => "CreateTexture2D"
            | .CopyResource => "CopyResource"
            | .WriteFrameToImage _ => "WriteFrameToImage"
            | .RecordingSnapshotCreatedCallback _ => "RecordingSnapshotCreatedCallback"
            | _ => "other")))
      = some (S_OK, ["AcquireNextFrame", "ProcessOverlays", "CreateTexture2D", "CopyResource",
          "WriteFrameToImage", "RecordingSnapshotCreatedCallback"]) := by
  refine ⟨rfl, rfl, rfl⟩

/-- C21, amended: `TakeSnapshot` called without a texture while the session is recording
obtains its frame through `AcquireNextFrame` with a zero timeout when the session is
paused and through `CopyCurrentFrame` when it is not paused.  When paused, the first
call is `AcquireNextFrame(0)`, every later call is texture or snapshot work,
`CopyCurrentFrame` is not called, and the result does not depend on what
`CopyCurrentFrame` would answer.  When not paused, the first call is
`CopyCurrentFrame`, every later call is texture or snapshot work, `AcquireNextFrame` is
not called, and the result does not depend on what `AcquireNextFrame` would answer. -/
theorem TakeSnapshot_frame_source (host : Host) (s : RecordingManager) (path : String)
    (stream : Bool) (r : HRESULT × RecordingManager) (hrec : s.m_IsRecording = true)
    (h : TakeSnapshot host s path stream none = some r) :
    (s.m_IsPaused = true →
      (∃ work, newCalls s r.2 = Call.AcquireNextFrame 0 :: work
        ∧ ∀ c ∈ work, c.isTextureWork = true) ∧
      Call.CopyCurrentFrame ∉ newCalls s r.2 ∧
      ∀ answer, TakeSnapshot { host with CopyCurrentFrame := answer } s path stream none
        = some r) ∧
    (s.m_IsPaused = false →
      (∃ work, newCalls s r.2 = Call.CopyCurrentFrame :: work
        ∧ ∀ c ∈ work, c.isTextureWork = true) ∧
      (∀ timeout, Call.AcquireNextFrame timeout ∉ newCalls s r.2) ∧
      ∀ answer, TakeSnapshot { host with AcquireNextFrame := answer } s path stream none
        = some r) := by
  obtain ⟨-, -, -, work, hwork, hkind⟩ :=
    callsOnly_fields ((TakeSnapshot_textureWork host s path stream none r h).2 rfl hrec)
  constructor
  · intro hp
    rw [hp] at hwork
    have hcalls : newCalls s r.2 = Call.AcquireNextFrame 0 :: work :=
      newCalls_append _ _ _ (by rw [hwork, call_trace]; simp)
    refine ⟨⟨work, hcalls, hkind⟩, ?_, ?_⟩
    · rw [hcalls]
      intro hmem
      rcases List.mem_cons.mp hmem with hc | hc
      · cases hc
      · have := hkind _ hc
        simp [Call.isTextureWork] at this
    · intro answer
      rw [← h]
      unfold TakeSnapshot
      simp only [hp, if_true]
      rfl
  · intro hp
    rw [hp] at hwork
    have hcalls : newCalls s r.2 = Call.CopyCurrentFrame :: work :=
      newCalls_append _ _ _ (by rw [hwork, call_trace]; simp)
    refine ⟨⟨work, hcalls, hkind⟩, ?_, ?_⟩
    · rw [hcalls]
      intro timeout hmem
      rcases List.mem_cons.mp hmem with hc | hc
      · cases hc
      · have := hkind _ hc
        simp [Call.isTextureWork] at this
    · intro answer
      rw [← h]
      unfold TakeSnapshot
      simp only [hp, Bool.false_eq_true, if_false]
      rfl

/-- Witness for C21: a snapshot to a file on the paused manager and on the recording
manager. -/
theorem TakeSnapshot_frame_source_witness :
    (∃ r, TakeSnapshot exampleHost pausedManager "C:\\snap.png" false none = some r ∧
      Call.CopyCurrentFrame ∉ newCalls pausedManager r.2 ∧
      ∃ work, newCalls pausedManager r.2 = Call.AcquireNextFrame 0 :: work
        ∧ ∀ c ∈ work, c.isTextureWork = true) ∧
    (∃ r, TakeSnapshot exampleHost recordingManager "C:\\snap.png" false none = some r ∧
      (∀ timeout, Call.AcquireNextFrame timeout ∉ newCalls recordingManager r.2) ∧
      ∃ work, newCalls recordingManager r.2 = Call.CopyCurrentFrame :: work
        ∧ ∀ c ∈ work, c.isTextureWork = true) :=
  ⟨(Option.isSome_iff_exists.mp
      (rfl : (TakeSnapshot exampleHost pausedManager "C:\\snap.png" false none).isSome = true)).elim
      (fun r hr =>
        ⟨r, hr,
          ((TakeSnapshot_frame_source exampleHost pausedManager _ false r rfl hr).1 rfl).2.1,
          ((TakeSnapshot_frame_source exampleHost pausedManager _ false r rfl hr).1 rfl).1⟩),
    (Option.isSome_iff_exists.mp
      (rfl : (TakeSnapshot exampleHost recordingManager "C:\\snap.png" false none).isSome = true)).elim
      (fun r hr =>
        ⟨r, hr,
          ((TakeSnapshot_frame_source exampleHost recordingManager _ false r rfl hr).2 rfl).2.1,
          ((TakeSnapshot_frame_source exampleHost recordingManager _ false r rfl hr).2 rfl).1⟩)⟩

/-! ## The mouse pointer in ProcessTexture (claim C22) -/

/-- C22: the result of `ProcessTexture` does not depend on the result of drawing the mouse
pointer.  For every manager, frame and cursor, whatever result code `ProcessMousePointer`
gives (a failure included), `ProcessTexture` returns the same result code and the same
processed texture and makes the same calls in the same order (overlays, pointer,
crop, resize, canvas), as the whole result is equal; in particular it is equal to the
result when drawing the pointer succeeds. -/
theorem ProcessTexture_ignores_mouse_result (host : Host) (s : RecordingManager)
    (pTexture : Option Texture) (pPtrInfo : Option PTR_INFO) (mouseResult : HRESULT) :
    ProcessTexture { host with ProcessMousePointer := mouseResult } s pTexture pPtrInfo
      = ProcessTexture host s pTexture pPtrInfo ∧
    ProcessTexture { host with ProcessMousePointer := mouseResult } s pTexture pPtrInfo
      = ProcessTexture { host with ProcessMousePointer := S_OK } s pTexture pPtrInfo := by
  constructor <;> rfl

/-! ## Calls and restart count of the error block -/

theorem RestartCapture_calls (a : RestartAnswers) (st : RecorderLoop) (result : CAPTURE_RESULT) :
    ∃ extra, (RestartCapture a st result).mgr.trace = st.mgr.trace ++ extra ∧
      (∀ c ∈ extra, c.grabbedDuration? = none ∧ c.renderedFrame? = none) ∧
      Call.StopCapture ∈ extra ∧
      (((∀ c ∈ extra, c.isStartCapture = false)
          ∧ (RestartCapture a st result).mgr.m_RestartCaptureCount
            = st.mgr.m_RestartCaptureCount) ∨
        (extra.countP Call.isStartCapture = 1
          ∧ (RestartCapture a st result).mgr.m_RestartCaptureCount
            = st.mgr.m_RestartCaptureCount + (if result.NumberOfRetries > 0 then 1 else 0))) := by
  unfold RestartCapture
  lift_lets
  extract_lets hr0 recreate hr1 mouse hr2 texture hr3 output hr4 capture hr5 start hr6 rects
    initialized hr7 calls
  have hcalls : calls = [Call.StopCapture, Call.Wait]
      ++ (if recreate then
            [Call.CleanDx, Call.InitializeDx,
              Call.SetViewPort st.videoOutputFrameSize.cx st.videoOutputFrameSize.cy]
          else [])
      ++ (if mouse then [Call.MouseManagerInitialize] else [])
      ++ (if texture then [Call.TextureManagerInitialize] else [])
      ++ (if output then [Call.OutputManagerInitialize] else [])
      ++ (if capture then [Call.CaptureManagerReset, Call.CaptureManagerInitialize] else [])
      ++ (if start then [Call.ResetEvent, Call.StartCapture st.sources st.overlays] else []) := rfl
  clear_value calls hr7 initialized rects hr6 start hr5 capture hr4 output hr3 texture hr2 mouse
    hr1 recreate hr0
  subst hcalls
  refine ⟨_, rfl, ?_, by simp, ?_⟩
  · have hall : List.all ([Call.StopCapture, Call.Wait]
        ++ (if recreate then
              [Call.CleanDx, Call.InitializeDx,
                Call.SetViewPort st.videoOutputFrameSize.cx st.videoOutputFrameSize.cy]
            else [])
        ++ (if mouse then [Call.MouseManagerInitialize] else [])
        ++ (if texture then [Call.TextureManagerInitialize] else [])
        ++ (if output then [Call.OutputManagerInitialize] else [])
        ++ (if capture then [Call.CaptureManagerReset, Call.CaptureManagerInitialize] else [])
        ++ (if start then [Call.ResetEvent, Call.StartCapture st.sources st.overlays] else []))
        (fun c => c.grabbedDuration?.isNone && c.renderedFrame?.isNone) = true := by
      cases recreate <;> cases mouse <;> cases texture <;> cases output <;> cases capture <;>
        cases start <;> rfl
    intro c hc
    have := List.all_eq_true.mp hall c hc
    simpa using this
  · cases start
    · refine Or.inl ⟨?_, by simp⟩
      have hall : List.all ([Call.StopCapture, Call.Wait]
          ++ (if recreate then
                [Call.CleanDx, Call.InitializeDx,
                  Call.SetViewPort st.videoOutputFrameSize.cx st.videoOutputFrameSize.cy]
              else [])
          ++ (if mouse then [Call.MouseManagerInitialize] else [])
          ++ (if texture then [Call.TextureManagerInitialize] else [])
          ++ (if output then [Call.OutputManagerInitialize] else [])
          ++ (if capture then [Call.CaptureManagerReset, Call.CaptureManagerInitialize] else [])
          ++ (if false then [Call.ResetEvent, Call.StartCapture st.sources st.overlays] else []))
          (fun c => !c.isStartCapture) = true := by
        cases recreate <;> cases mouse <;> cases texture <;> cases output <;> cases capture <;> rfl
      intro c hc
      have := List.all_eq_true.mp hall c hc
      simpa using this
    · refine Or.inr ⟨?_, ?_⟩
      · cases recreate <;> cases mouse <;> cases texture <;> cases output <;> cases capture <;> rfl
      · by_cases hn : result.NumberOfRetries > 0
        · simp [hn]
        · simp [hn]

theorem restartOrExit_calls (inp : CycleInput) (st st2 : RecorderLoop)
    (captureResult : CAPTURE_RESULT) (code : HRESULT) (hfail : FAILED code = true)
    (h : restartOrExit inp st captureResult code = .proceed st2
      ∨ restartOrExit inp st captureResult code = .continue_ st2
      ∨ ∃ point result, restartOrExit inp st captureResult code = .exit point result st2) :
    st2 = st ∨
      (¬ (captureResult.NumberOfRetries ≥ 0
          ∧ st.mgr.m_RestartCaptureCount ≥ captureResult.NumberOfRetries) ∧
        ∃ extra, st2.mgr.trace = st.mgr.trace ++ extra ∧
          (∀ c ∈ extra, c.grabbedDuration? = none ∧ c.renderedFrame? = none) ∧
          Call.StopCapture ∈ extra ∧
          (((∀ c ∈ extra, c.isStartCapture = false)
              ∧ st2.mgr.m_RestartCaptureCount = st.mgr.m_RestartCaptureCount) ∨
            (extra.countP Call.isStartCapture = 1
              ∧ st2.mgr.m_RestartCaptureCount
                = st.mgr.m_RestartCaptureCount
                  + (if captureResult.NumberOfRetries > 0 then 1 else 0)))) := by
  unfold restartOrExit at h
  obtain ⟨e, he, hkind, hstop, hcount⟩ := RestartCapture_calls inp.restart st captureResult
  generalize RestartCapture inp.restart st captureResult = stR at h he hcount
  dsimp only at h
  split at h
  · rcases h with h | h | ⟨point, result, h⟩
    · cases h
    · cases h
    · cases h
      exact Or.inl rfl
  · rename_i hbudget
    have hb : ¬ (captureResult.NumberOfRetries ≥ 0
        ∧ st.mgr.m_RestartCaptureCount ≥ captureResult.NumberOfRetries) :=
      fun hc => hbudget ⟨hc, hfail⟩
    split at h
    · rcases h with h | h | ⟨point, result, h⟩
      · cases h
      · cases h
        refine Or.inr ⟨hb, e ++ [Call.SetEvent], ?_, ?_, ?_, ?_⟩
        · show stR.mgr.trace ++ [Call.SetEvent] = _
          rw [he, List.append_assoc]
        · intro c hc
          rcases List.mem_append.mp hc with hc | hc
          · exact hkind c hc
          · rw [List.mem_singleton.mp hc]
            exact ⟨rfl, rfl⟩
        · exact List.mem_append_left _ hstop
        · rcases hcount with ⟨hno, hc⟩ | ⟨hone, hc⟩
          · refine Or.inl ⟨?_, hc⟩
            intro c hm
            rcases List.mem_append.mp hm with hm | hm
            · exact hno c hm
            · rw [List.mem_singleton.mp hm]
              rfl
          · refine Or.inr ⟨?_, hc⟩
            rw [List.countP_append, hone]
            rfl
      · cases h
    · rcases h with h | h | ⟨point, result, h⟩
      · cases h
        exact Or.inr ⟨hb, e, he, hkind, hstop, hcount⟩
      · cases h
      · cases h

theorem handleErrorEvent_calls (inp : CycleInput) (st st2 : RecorderLoop)
    (h : handleErrorEvent inp st = .proceed st2 ∨ handleErrorEvent inp st = .continue_ st2
      ∨ ∃ point result, handleErrorEvent inp st = .exit point result st2) :
    st2 = st ∨
      ∃ captureResult : CAPTURE_RESULT,
        (captureResult ∈ inp.captureResults
          ∨ ∃ code, captureResult = inp.ProcessCaptureHRESULT code) ∧
        captureResult.IsRecoverableError = true ∧
        ¬ (captureResult.NumberOfRetries ≥ 0
          ∧ st.mgr.m_RestartCaptureCount ≥ captureResult.NumberOfRetries) ∧
        ∃ extra, st2.mgr.trace = st.mgr.trace ++ extra ∧
          (∀ c ∈ extra, c.grabbedDuration? = none ∧ c.renderedFrame? = none) ∧
          Call.StopCapture ∈ extra ∧
          (((∀ c ∈ extra, c.isStartCapture = false)
              ∧ st2.mgr.m_RestartCaptureCount = st.mgr.m_RestartCaptureCount) ∨
            (extra.countP Call.isStartCapture = 1
              ∧ st2.mgr.m_RestartCaptureCount
                = st.mgr.m_RestartCaptureCount
                  + (if captureResult.NumberOfRetries > 0 then 1 else 0))) := by
  unfold handleErrorEvent at h
  split at h
  · split at h
    · rcases h with h | h | ⟨point, result, h⟩
      · cases h
      · cases h
      · cases h
        exact Or.inl rfl
    · rcases h with h | h | ⟨point, result, h⟩
      · cases h
        exact Or.inl rfl
      · cases h
      · cases h
  · split at h
    · rename_i captureResult hfind
      have hpred := List.find?_some hfind
      simp only [Bool.and_eq_true] at hpred
      rcases restartOrExit_calls inp st st2 captureResult _ hpred.1 h with hsame | ⟨hb, hrest⟩
      · exact Or.inl hsame
      · exact Or.inr ⟨captureResult, Or.inl (List.mem_of_find?_eq_some hfind), hpred.2, hb, hrest⟩
    · split at h
      · rename_i hfailed
        dsimp only at h
        split at h
        · rename_i hrecov
          rcases restartOrExit_calls inp st st2 _ _ hfailed h with hsame | ⟨hb, hrest⟩
          · exact Or.inl hsame
          · exact Or.inr ⟨_, Or.inr ⟨st.hr, rfl⟩, hrecov, hb, hrest⟩
        · rcases h with h | h | ⟨point, result, h⟩
          · cases h
          · cases h
          · cases h
            exact Or.inl rfl
      · rcases h with h | h | ⟨point, result, h⟩
        · cases h
          exact Or.inl rfl
        · cases h
        · cases h

/-! ## The parts of an iteration -/

theorem recorderLoopCycle_parts (inp : CycleInput) (st st2 : RecorderLoop)
    (h : (recorderLoopCycle inp st).state? = some st2) :
    (inp.is_canceled_top = true ∧ st2 = { st with hr := S_OK }) ∨
    (inp.is_canceled_top = false ∧
      ∃ st1 : RecorderLoop,
        ((st1 = { st with ErrorEvent := st.ErrorEvent || inp.ErrorEventSignalled }
            ∧ (st.ErrorEvent || inp.ErrorEventSignalled) = false)
          ∨ ((st.ErrorEvent || inp.ErrorEventSignalled) = true
            ∧ handleErrorEvent inp
                { st with ErrorEvent := st.ErrorEvent || inp.ErrorEventSignalled }
              = .proceed st1)) ∧
        recorderLoopCycle inp st = recordFrame inp st1 ∧
        (recordFrame inp st1).state? = some st2) ∨
    (inp.is_canceled_top = false ∧ (st.ErrorEvent || inp.ErrorEventSignalled) = true ∧
      (handleErrorEvent inp { st with ErrorEvent := st.ErrorEvent || inp.ErrorEventSignalled }
          = .continue_ st2
        ∨ ∃ point result,
          handleErrorEvent inp { st with ErrorEvent := st.ErrorEvent || inp.ErrorEventSignalled }
            = .exit point result st2
          ∧ recorderLoopCycle inp st = .exit point result st2)) := by
  revert h
  generalize ho : recorderLoopCycle inp st = o
  intro h
  unfold recorderLoopCycle at ho
  split at ho
  · rename_i hc
    subst ho
    cases h
    exact Or.inl ⟨hc, rfl⟩
  · rename_i hc
    have hc : inp.is_canceled_top = false := by simpa using hc
    dsimp only at ho
    split at ho
    · rename_i hev
      generalize hb : handleErrorEvent inp
          { st with ErrorEvent := st.ErrorEvent || inp.ErrorEventSignalled } = b at ho
      cases b with
      | exit point result st3 =>
        dsimp only at ho
        subst ho
        cases h
        exact Or.inr (Or.inr ⟨hc, hev, Or.inr ⟨point, result, rfl, rfl⟩⟩)
      | continue_ st3 =>
        dsimp only at ho
        subst ho
        cases h
        exact Or.inr (Or.inr ⟨hc, hev, Or.inl rfl⟩)
      | proceed st3 =>
        dsimp only at ho
        exact Or.inr (Or.inl ⟨hc, st3, Or.inr ⟨hev, rfl⟩, ho.symm, by rw [ho]; exact h⟩)
    · rename_i hev
      exact Or.inr (Or.inl ⟨hc, _, Or.inl ⟨rfl, by simpa using hev⟩, ho.symm,
        by rw [ho]; exact h⟩)

/-! ## An iteration while the session is paused (claim C23) -/

theorem recordFrame_paused (inp : CycleInput) (st : RecorderLoop)
    (hp : st.mgr.m_IsPaused = true) :
    ∃ st2, recordFrame inp st = .next st2 ∧
      st2.mgr.trace = st.mgr.trace
        ++ ((if inp.isMediaClockRunning then [Call.PauseMediaClock] else [])
          ++ (if IsAnySourcePreviewsActive st.mgr then
                [Call.ClearRecordedBytes,
                  Call.AcquireNextFrame (GetTimeUntilNextFrameMillis st inp.timestampBeforeAcquire),
                  Call.wait st.videoFrameDurationMillis]
              else [Call.wait 10, Call.ClearRecordedBytes])) ∧
      st2.frameNr = st.frameNr ∧
      st2.lastFrameStartPos100Nanos = st.lastFrameStartPos100Nanos ∧
      st2.totalDiff = st.totalDiff ∧
      st2.mgr.m_RestartCaptureCount = st.mgr.m_RestartCaptureCount := by
  generalize ho : recordFrame inp st = o
  unfold recordFrame at ho
  lift_lets at ho
  extract_lets paused pauseCalls src st1 timeout capturedFrame st3 src3 st4 dur st5 at ho
  have hpaused : paused = st.mgr.m_IsPaused := rfl
  have hcalls : pauseCalls = if paused then
      (if inp.isMediaClockRunning then [Call.PauseMediaClock] else [])
      ++ (if IsAnySourcePreviewsActive st.mgr then [] else [Call.wait 10])
      ++ [Call.ClearRecordedBytes]
    else [] := rfl
  have htimeout : timeout = GetTimeUntilNextFrameMillis st inp.timestampBeforeAcquire := rfl
  have hprev : IsAnySourcePreviewsActive st1.mgr = IsAnySourcePreviewsActive st.mgr := rfl
  have h1 : st1.mgr.trace = st.mgr.trace ++ pauseCalls ∧ st1.frameNr = st.frameNr
      ∧ st1.lastFrameStartPos100Nanos = st.lastFrameStartPos100Nanos
      ∧ st1.totalDiff = st.totalDiff
      ∧ st1.mgr.m_RestartCaptureCount = st.mgr.m_RestartCaptureCount := ⟨rfl, rfl, rfl, rfl, rfl⟩
  have h3 : st3.mgr.trace = st.mgr.trace ++ pauseCalls ++ [Call.AcquireNextFrame timeout]
      ∧ st3.frameNr = st.frameNr
      ∧ st3.lastFrameStartPos100Nanos = st.lastFrameStartPos100Nanos
      ∧ st3.totalDiff = st.totalDiff
      ∧ st3.mgr.m_RestartCaptureCount = st.mgr.m_RestartCaptureCount
      ∧ st3.videoFrameDurationMillis = st.videoFrameDurationMillis :=
    ⟨rfl, rfl, rfl, rfl, rfl, rfl⟩
  clear_value st5 dur st4 src3 st3 capturedFrame timeout st1 src pauseCalls paused
  rw [hp] at hpaused
  subst hpaused
  simp only [if_true] at hcalls
  obtain ⟨h1t, h1f, h1l, h1d, h1c⟩ := h1
  obtain ⟨h3t, h3f, h3l, h3d, h3c, h3v⟩ := h3
  rw [hprev] at ho
  cases hprv : IsAnySourcePreviewsActive st.mgr
  · rw [hprv] at ho hcalls
    simp only [Bool.not_false, Bool.and_self, if_true, Bool.false_eq_true, if_false] at ho hcalls
    subst ho
    refine ⟨st1, rfl, ?_, h1f, h1l, h1d, h1c⟩
    rw [h1t, hcalls]
    simp
  · rw [hprv] at ho hcalls
    simp only [Bool.not_true, Bool.and_false, Bool.false_eq_true, if_false, if_true,
      List.append_nil] at ho hcalls
    subst ho
    refine ⟨_, rfl, ?_, h3f, h3l, h3d, h3c⟩
    show st3.mgr.trace ++ [Call.wait st3.videoFrameDurationMillis] = _
    rw [h3t, hcalls, htimeout, h3v]
    simp

/-- C23, counterexample: an iteration of a paused session in which the error event is
signalled for a recoverable failure that permits two retries restarts the capture, and
the restart count goes from 0 to 1. -/
theorem paused_cycle_counts_restart :
    pausedLoop.mgr.m_IsPaused = true ∧ pausedLoop.mgr.m_RestartCaptureCount = 0 ∧
    retryInput.is_canceled_top = false ∧
    (recorderLoopCycle retryInput pausedLoop).exitPoint = none ∧
    (recorderLoopCycle retryInput pausedLoop).state?.map
        (fun st => st.mgr.m_RestartCaptureCount) = some 1 := by
  refine ⟨rfl, rfl, rfl, rfl, rfl⟩

/-- C23, amended: an iteration executed while the session is paused ends in a defined
state and never advances the frame state: no frame is handed to the encoder and the
frame number, the last-frame start position and the accumulated audio difference are
left unchanged.  The restart count is never reset; it is left unchanged unless the error
block of that iteration restarts the capture, in which case it goes up by one (an
iteration without a `StartCapture` call leaves it unchanged).  When the iteration is
not cancelled and the error event is not signalled, it goes on to the next iteration
with the restart count unchanged, and its calls are: `PauseMediaClock` if the media
clock is running, and then, when no source preview is active, `wait(10)` and
`ClearRecordedBytes` (no frame is acquired), and when a source preview is active,
`ClearRecordedBytes`, `AcquireNextFrame` and `wait(videoFrameDurationMillis)`. -/
theorem paused_cycle_keeps_frame_state (inp : CycleInput) (st : RecorderLoop)
    (hpaused : st.mgr.m_IsPaused = true) :
    ∃ st2, (recorderLoopCycle inp st).state? = some st2 ∧
      renderedFrames (newCalls st.mgr st2.mgr) = [] ∧
      st2.frameNr = st.frameNr ∧
      st2.lastFrameStartPos100Nanos = st.lastFrameStartPos100Nanos ∧
      st2.totalDiff = st.totalDiff ∧
      (st2.mgr.m_RestartCaptureCount = st.mgr.m_RestartCaptureCount
        ∨ (st2.mgr.m_RestartCaptureCount = st.mgr.m_RestartCaptureCount + 1
          ∧ (newCalls st.mgr st2.mgr).countP Call.isStartCapture = 1)) ∧
      ((∀ c ∈ newCalls st.mgr st2.mgr, c.isStartCapture = false) →
        st2.mgr.m_RestartCaptureCount = st.mgr.m_RestartCaptureCount) ∧
      (inp.is_canceled_top = false → (st.ErrorEvent || inp.ErrorEventSignalled) = false →
        recorderLoopCycle inp st = .next st2 ∧
        st2.mgr.m_RestartCaptureCount = st.mgr.m_RestartCaptureCount ∧
        newCalls st.mgr st2.mgr
          = (if inp.isMediaClockRunning then [Call.PauseMediaClock] else [])
            ++ (if IsAnySourcePreviewsActive st.mgr then
                  [Call.ClearRecordedBytes,
                    Call.AcquireNextFrame
                      (GetTimeUntilNextFrameMillis st inp.timestampBeforeAcquire),
                    Call.wait st.videoFrameDurationMillis]
                else [Call.wait 10, Call.ClearRecordedBytes])) := by
  have hexists : ∃ st2, (recorderLoopCycle inp st).state? = some st2 := by
    unfold recorderLoopCycle
    split
    · exact ⟨_, rfl⟩
    · dsimp only
      split
      · generalize hb : handleErrorEvent inp
            { st with ErrorEvent := st.ErrorEvent || inp.ErrorEventSignalled } = b
        cases b with
        | exit point result st1 => exact ⟨_, rfl⟩
        | continue_ st1 => exact ⟨_, rfl⟩
        | proceed st1 =>
          have hp1 : st1.mgr.m_IsPaused = true := by
            rw [(handleErrorEvent_spec inp _ st1 (Or.inl hb)).2.2.2.1]
            exact hpaused
          obtain ⟨st2, hnext, -⟩ := recordFrame_paused inp st1 hp1
          exact ⟨st2, by dsimp only; rw [hnext]; rfl⟩
      · obtain ⟨st2, hnext, -⟩ := recordFrame_paused inp
          { st with ErrorEvent := st.ErrorEvent || inp.ErrorEventSignalled } hpaused
        exact ⟨st2, by rw [hnext]; rfl⟩
  obtain ⟨st2, hst2⟩ := hexists
  refine ⟨st2, hst2, ?_⟩
  have hblock : ∀ st1 : RecorderLoop,
      (handleErrorEvent inp { st with ErrorEvent := st.ErrorEvent || inp.ErrorEventSignalled }
          = .proceed st1
        ∨ handleErrorEvent inp { st with ErrorEvent := st.ErrorEvent || inp.ErrorEventSignalled }
          = .continue_ st1
        ∨ ∃ point result,
          handleErrorEvent inp { st with ErrorEvent := st.ErrorEvent || inp.ErrorEventSignalled }
            = .exit point result st1) →
      st1.mgr.m_IsPaused = true ∧
      ∃ extra, st1.mgr.trace = st.mgr.trace ++ extra ∧ renderedFrames extra = [] ∧
        st1.frameNr = st.frameNr ∧
        st1.lastFrameStartPos100Nanos = st.lastFrameStartPos100Nanos ∧
        st1.totalDiff = st.totalDiff ∧
        ((extra.countP Call.isStartCapture = 0
            ∧ st1.mgr.m_RestartCaptureCount = st.mgr.m_RestartCaptureCount) ∨
          (extra.countP Call.isStartCapture = 1
            ∧ (st1.mgr.m_RestartCaptureCount = st.mgr.m_RestartCaptureCount
              ∨ st1.mgr.m_RestartCaptureCount = st.mgr.m_RestartCaptureCount + 1))) := by
    intro st1 hb
    obtain ⟨hf, hl, hd, hp, -⟩ := handleErrorEvent_spec inp _ st1 hb
    refine ⟨by rw [hp]; exact hpaused, ?_⟩
    rcases handleErrorEvent_calls inp _ st1 hb with
      hsame | ⟨r, -, -, -, e, he, hkind, -, hcount⟩
    · subst hsame
      exact ⟨[], by simp, rfl, rfl, rfl, rfl, Or.inl ⟨rfl, rfl⟩⟩
    · refine ⟨e, he, filterMap_eq_nil_of_forall _ e (fun c hc => (hkind c hc).2), hf, hl, hd, ?_⟩
      rcases hcount with ⟨hno, hc⟩ | ⟨hone, hc⟩
      · exact Or.inl ⟨List.countP_eq_zero.mpr (fun c hm => by rw [hno c hm]; simp), hc⟩
      · refine Or.inr ⟨hone, ?_⟩
        by_cases hn : r.NumberOfRetries > 0
        · rw [if_pos hn] at hc
          exact Or.inr hc
        · rw [if_neg hn, add_zero] at hc
          exact Or.inl hc
  have hframe : ∀ st1 : RecorderLoop, st1.mgr.m_IsPaused = true →
      (recordFrame inp st1).state? = some st2 →
      recordFrame inp st1 = .next st2 ∧
      ∃ extra, st2.mgr.trace = st1.mgr.trace ++ extra ∧ renderedFrames extra = [] ∧
        extra.countP Call.isStartCapture = 0 ∧
        extra = (if inp.isMediaClockRunning then [Call.PauseMediaClock] else [])
            ++ (if IsAnySourcePreviewsActive st1.mgr then
                  [Call.ClearRecordedBytes,
                    Call.AcquireNextFrame
                      (GetTimeUntilNextFrameMillis st1 inp.timestampBeforeAcquire),
                    Call.wait st1.videoFrameDurationMillis]
                else [Call.wait 10, Call.ClearRecordedBytes]) ∧
        st2.frameNr = st1.frameNr ∧
        st2.lastFrameStartPos100Nanos = st1.lastFrameStartPos100Nanos ∧
        st2.totalDiff = st1.totalDiff ∧
        st2.mgr.m_RestartCaptureCount = st1.mgr.m_RestartCaptureCount := by
    intro st1 hp1 hrec
    obtain ⟨st3, hnext, htrace, hf, hl, hd, hc⟩ := recordFrame_paused inp st1 hp1
    rw [hnext] at hrec
    cases hrec
    refine ⟨hnext, _, htrace, ?_, ?_, rfl, hf, hl, hd, hc⟩
    · cases inp.isMediaClockRunning <;> cases IsAnySourcePreviewsActive st1.mgr <;> rfl
    · cases inp.isMediaClockRunning <;> cases IsAnySourcePreviewsActive st1.mgr <;> rfl
  have hzero : ∀ l : List Call, (∀ c ∈ l, c.isStartCapture = false) →
      l.countP Call.isStartCapture = 0 :=
    fun l hl => List.countP_eq_zero.mpr (fun c hm => by rw [hl c hm]; simp)
  rcases recorderLoopCycle_parts inp st st2 hst2 with
    ⟨hc, rfl⟩ | ⟨hc, st1, hst1, hcycle, hrec⟩ | ⟨hc, hev, hb⟩
  · have hnew : newCalls st.mgr ({ st with hr := S_OK } : RecorderLoop).mgr = [] :=
      newCalls_append _ _ _ (by simp)
    rw [hnew]
    exact ⟨rfl, rfl, rfl, rfl, Or.inl rfl, fun _ => rfl,
      fun hn => by rw [hc] at hn; cases hn⟩
  · rcases hst1 with ⟨rfl, -⟩ | ⟨hev, hproceed⟩
    · obtain ⟨hnext, ef, hft, hfr, hfz, hfe, hff, hfl, hfd, hfc⟩ :=
        hframe { st with ErrorEvent := st.ErrorEvent || inp.ErrorEventSignalled } hpaused hrec
      have hnew : newCalls st.mgr st2.mgr = ef := newCalls_append _ _ _ hft
      rw [hnew]
      exact ⟨hfr, hff, hfl, hfd, Or.inl hfc, fun _ => hfc,
        fun _ _ => ⟨by rw [hcycle]; exact hnext, hfc, hfe⟩⟩
    · obtain ⟨hp1, eb, hbt, hbr, hbf, hbl, hbd, hbc⟩ := hblock st1 (Or.inl hproceed)
      obtain ⟨hnext, ef, hft, hfr, hfz, -, hff, hfl, hfd, hfc⟩ := hframe st1 hp1 hrec
      have hnew : newCalls st.mgr st2.mgr = eb ++ ef :=
        newCalls_append _ _ _ (by rw [hft, hbt, List.append_assoc])
      rw [hnew]
      refine ⟨by rw [renderedFrames_append, hbr, hfr]; rfl, by rw [hff, hbf], by rw [hfl, hbl],
        by rw [hfd, hbd], ?_, ?_, fun _ hn => by rw [hev] at hn; cases hn⟩
      · rw [List.countP_append, hfz, hfc]
        rcases hbc with ⟨-, hsame⟩ | ⟨hone, hsame | hplus⟩
        · exact Or.inl hsame
        · exact Or.inl hsame
        · exact Or.inr ⟨hplus, by rw [hone]⟩
      · intro hno
        have hz := hzero _ hno
        rw [List.countP_append, hfz] at hz
        rw [hfc]
        rcases hbc with ⟨-, hsame⟩ | ⟨hone, -⟩
        · exact hsame
        · omega
  · have hb3 : handleErrorEvent inp
          { st with ErrorEvent := st.ErrorEvent || inp.ErrorEventSignalled } = .proceed st2
        ∨ handleErrorEvent inp
          { st with ErrorEvent := st.ErrorEvent || inp.ErrorEventSignalled } = .continue_ st2
        ∨ ∃ point result, handleErrorEvent inp
          { st with ErrorEvent := st.ErrorEvent || inp.ErrorEventSignalled }
            = .exit point result st2 := by
      rcases hb with hb | ⟨point, result, hb, -⟩
      · exact Or.inr (Or.inl hb)
      · exact Or.inr (Or.inr ⟨point, result, hb⟩)
    obtain ⟨-, eb, hbt, hbr, hbf, hbl, hbd, hbc⟩ := hblock st2 hb3
    have hnew : newCalls st.mgr st2.mgr = eb := newCalls_append _ _ _ hbt
    rw [hnew]
    refine ⟨hbr, hbf, hbl, hbd, ?_, ?_, fun _ hn => by rw [hev] at hn; cases hn⟩
    · rcases hbc with ⟨-, hsame⟩ | ⟨hone, hsame | hplus⟩
      · exact Or.inl hsame
      · exact Or.inl hsame
      · exact Or.inr ⟨hplus, hone⟩
    · intro hno
      have hz := hzero _ hno
      rcases hbc with ⟨-, hsame⟩ | ⟨hone, -⟩
      · exact hsame
      · omega

/-- Witness for C23: an iteration without error event of the paused example session,
without and with an active source preview. -/
theorem paused_cycle_keeps_frame_state_witness :
    pausedLoop.mgr.m_IsPaused = true ∧ pausedPreviewLoop.mgr.m_IsPaused = true ∧
    (∃ st2, (recorderLoopCycle frameInput pausedLoop).state? = some st2 ∧
      renderedFrames (newCalls pausedLoop.mgr st2.mgr) = [] ∧
      st2.frameNr = pausedLoop.frameNr ∧
      st2.mgr.m_RestartCaptureCount = pausedLoop.mgr.m_RestartCaptureCount ∧
      newCalls pausedLoop.mgr st2.mgr
        = [Call.PauseMediaClock, Call.wait 10, Call.ClearRecordedBytes]) ∧
    (∃ st2, (recorderLoopCycle frameInput pausedPreviewLoop).state? = some st2 ∧
      renderedFrames (newCalls pausedPreviewLoop.mgr st2.mgr) = [] ∧
      st2.frameNr = pausedPreviewLoop.frameNr ∧
      st2.mgr.m_RestartCaptureCount = 2) :=
  ⟨rfl, rfl,
    (paused_cycle_keeps_frame_state frameInput pausedLoop rfl).elim
      (fun st2 h => ⟨st2, h.1, h.2.1, h.2.2.1, (h.2.2.2.2.2.2.2 rfl rfl).2.1,
        (h.2.2.2.2.2.2.2 rfl rfl).2.2⟩),
    (paused_cycle_keeps_frame_state frameInput pausedPreviewLoop rfl).elim
      (fun st2 h => ⟨st2, h.1, h.2.1, h.2.2.1, (h.2.2.2.2.2.2.2 rfl rfl).2.1⟩)⟩

/-! ## A timeout of the frame acquisition (claim C24) -/

theorem recordFrame_exitPoint_acquire (inp : CycleInput) (st : RecorderLoop) :
    ((recordFrame inp st).exitPoint = some .AcquireNextFrameFailed →
      st.mgr.m_IsPaused = false ∧ FAILED inp.AcquireNextFrame.1 = true
        ∧ inp.AcquireNextFrame.1 ≠ DXGI_ERROR_WAIT_TIMEOUT) ∧
    (st.mgr.m_IsPaused = false →
      ¬ (FAILED inp.AcquireNextFrame.1 = true
          ∧ inp.AcquireNextFrame.1 ≠ DXGI_ERROR_WAIT_TIMEOUT) →
      FAILED inp.GetMediaTimeStamp.1 = false → inp.is_canceled_afterAcquire = false →
      (recordFrame inp st).exitPoint = none
        ∨ (recordFrame inp st).exitPoint = some .RenderFrameFailed
        ∨ (recordFrame inp st).exitPoint = some .ScreenshotTaken) ∧
    (st.mgr.m_IsPaused = false → FAILED inp.AcquireNextFrame.1 = true →
      inp.AcquireNextFrame.1 ≠ DXGI_ERROR_WAIT_TIMEOUT →
      ∃ st2, recordFrame inp st
          = .exit .AcquireNextFrameFailed (REC_RESULT.ofHRESULT inp.AcquireNextFrame.1 "") st2
        ∧ st2.hr = inp.AcquireNextFrame.1
        ∧ st2.mgr.trace = st.mgr.trace
            ++ [Call.AcquireNextFrame (GetTimeUntilNextFrameMillis st inp.timestampBeforeAcquire)]
        ∧ st2.frameNr = st.frameNr
        ∧ st2.mgr.m_RestartCaptureCount = st.mgr.m_RestartCaptureCount) := by
  generalize ho : recordFrame inp st = o
  unfold recordFrame at ho
  lift_lets at ho
  extract_lets paused pauseCalls src st1 timeout capturedFrame st3 src3 st4 dur st5 at ho
  have hpaused : paused = st.mgr.m_IsPaused := rfl
  have hcalls : paused = false → pauseCalls = [] := by
    intro hp
    show (if paused = true then _ else _) = []
    rw [hp]
    rfl
  have htimeout : timeout = GetTimeUntilNextFrameMillis st inp.timestampBeforeAcquire := rfl
  have h3 : st3.hr = inp.AcquireNextFrame.1
      ∧ st3.mgr.trace = st.mgr.trace ++ pauseCalls ++ [Call.AcquireNextFrame timeout]
      ∧ st3.frameNr = st.frameNr
      ∧ st3.mgr.m_RestartCaptureCount = st.mgr.m_RestartCaptureCount :=
    ⟨rfl, rfl, rfl, rfl⟩
  clear_value st5 dur st4 src3 st3 capturedFrame timeout st1 src pauseCalls paused
  obtain ⟨h3h, h3t, h3f, h3c⟩ := h3
  rw [hpaused] at hcalls
  split at ho
  · rename_i hskip
    subst ho
    have hp : st.mgr.m_IsPaused = true := by
      rw [← hpaused]
      cases paused
      · simp at hskip
      · rfl
    refine ⟨fun hn => (by cases hn), fun hnp => ?_, fun hnp => ?_⟩ <;>
    · rw [hp] at hnp
      cases hnp
  · split at ho
    · rename_i hp
      subst ho
      rw [hpaused] at hp
      refine ⟨fun hn => (by cases hn), fun hnp => ?_, fun hnp => ?_⟩ <;>
      · rw [hp] at hnp
        cases hnp
    · rename_i hp
      rw [hpaused] at hp
      have hp : st.mgr.m_IsPaused = false := by simpa using hp
      split at ho
      · rename_i hfail
        subst ho
        rw [h3h] at hfail
        refine ⟨fun _ => ⟨hp, hfail.1, hfail.2⟩, fun _ hn => absurd hfail hn,
          fun _ _ _ => ⟨st3, by rw [h3h], h3h, ?_, h3f, h3c⟩⟩
        rw [h3t, hcalls hp, htimeout, List.append_nil]
      · rename_i hnofail
        rw [h3h] at hnofail
        refine ⟨?_, ?_, fun _ hf hne => absurd ⟨hf, hne⟩ hnofail⟩
        · intro hexit
          exfalso
          split at ho
          · subst ho
            cases hexit
          · split at ho
            · subst ho
              cases hexit
            · generalize PrepareAndRenderFrame inp st5 capturedFrame.Frame dur = p at ho
              cases p with
              | none =>
                subst ho
                cases hexit
              | some r =>
                dsimp only at ho
                split at ho
                · subst ho
                  cases hexit
                · split at ho <;> subst ho <;> cases hexit
        · intro _ _ hts hcancel
          rw [if_neg (by rw [hts]; simp), if_neg (by rw [hcancel]; simp)] at ho
          generalize PrepareAndRenderFrame inp st5 capturedFrame.Frame dur = p at ho
          cases p with
          | none =>
            subst ho
            exact Or.inl rfl
          | some r =>
            dsimp only at ho
            split at ho
            · subst ho
              exact Or.inr (Or.inl rfl)
            · split at ho <;> subst ho
              · exact Or.inr (Or.inr rfl)
              · exact Or.inl rfl

theorem restartOrExit_exitPoint_block (inp : CycleInput) (st : RecorderLoop)
    (captureResult : CAPTURE_RESULT) (code : HRESULT) :
    (restartOrExit inp st captureResult code).exitPoint ≠ some .AcquireNextFrameFailed := by
  unfold restartOrExit
  dsimp only
  simp only [apply_ite ErrorBlockOutcome.exitPoint, ErrorBlockOutcome.exitPoint]
  split_ifs <;> simp

theorem handleErrorEvent_exitPoint_block (inp : CycleInput) (st : RecorderLoop) :
    (handleErrorEvent inp st).exitPoint ≠ some .AcquireNextFrameFailed := by
  unfold handleErrorEvent
  split
  · split <;> simp [ErrorBlockOutcome.exitPoint]
  · split
    · exact restartOrExit_exitPoint_block _ _ _ _
    · split
      · dsimp only
        split
        · exact restartOrExit_exitPoint_block _ _ _ _
        · simp [ErrorBlockOutcome.exitPoint]
      · simp [ErrorBlockOutcome.exitPoint]

/-- C24: in the part of an iteration after the error block, with the session not paused,
a frame acquisition that returns `DXGI_ERROR_WAIT_TIMEOUT` does not end the loop: the
iteration does not leave through the return for a failed acquisition, and when the
media time stamp is read successfully and the task is not cancelled it goes on to the
render step: the iteration ends with the next iteration, with the return for a failed
render or with the return after a screenshot, and whenever it ends in a defined state
`ProcessOverlays`, the first call of the render step, is among its calls.  Any other
failing code ends the loop: the iteration returns the result built from that code with
an empty error text, the result code of the loop is that code, the acquisition is the
only call made, and the loop run over this and any later iterations returns there.  In
a whole iteration, whatever the state, a return for a failed acquisition happens only
for a failing code other than the timeout. -/
theorem acquisition_timeout_is_not_an_error (inp : CycleInput) (st : RecorderLoop)
    (hpaused : st.mgr.m_IsPaused = false) :
    (inp.AcquireNextFrame.1 = DXGI_ERROR_WAIT_TIMEOUT →
      (recordFrame inp st).exitPoint ≠ some .AcquireNextFrameFailed ∧
      (FAILED inp.GetMediaTimeStamp.1 = false → inp.is_canceled_afterAcquire = false →
        ((recordFrame inp st).exitPoint = none
          ∨ (recordFrame inp st).exitPoint = some .RenderFrameFailed
          ∨ (recordFrame inp st).exitPoint = some .ScreenshotTaken) ∧
        ∀ st2, (recordFrame inp st).state? = some st2 →
          Call.ProcessOverlays ∈ newCalls st.mgr st2.mgr)) ∧
    (FAILED inp.AcquireNextFrame.1 = true →
      inp.AcquireNextFrame.1 ≠ DXGI_ERROR_WAIT_TIMEOUT →
      ∃ st2, recordFrame inp st
          = .exit .AcquireNextFrameFailed (REC_RESULT.ofHRESULT inp.AcquireNextFrame.1 "") st2 ∧
        (REC_RESULT.ofHRESULT inp.AcquireNextFrame.1 "").RecordingResult
          = inp.AcquireNextFrame.1 ∧
        st2.hr = inp.AcquireNextFrame.1 ∧
        newCalls st.mgr st2.mgr
          = [Call.AcquireNextFrame
              (GetTimeUntilNextFrameMillis st inp.timestampBeforeAcquire)] ∧
        (inp.is_canceled_top = false → (st.ErrorEvent || inp.ErrorEventSignalled) = false →
          ∀ rest, recorderLoop (inp :: rest) st
            = some (.AcquireNextFrameFailed,
                REC_RESULT.ofHRESULT inp.AcquireNextFrame.1 "", st2))) ∧
    (∀ st1 : RecorderLoop,
      (recorderLoopCycle inp st1).exitPoint = some .AcquireNextFrameFailed →
        FAILED inp.AcquireNextFrame.1 = true
          ∧ inp.AcquireNextFrame.1 ≠ DXGI_ERROR_WAIT_TIMEOUT) := by
  obtain ⟨hexit, hrender, hfail⟩ := recordFrame_exitPoint_acquire inp st
  have hnot : inp.AcquireNextFrame.1 = DXGI_ERROR_WAIT_TIMEOUT →
      ¬ (FAILED inp.AcquireNextFrame.1 = true
        ∧ inp.AcquireNextFrame.1 ≠ DXGI_ERROR_WAIT_TIMEOUT) := fun ht hc => hc.2 ht
  refine ⟨fun ht => ⟨fun he => (hexit he).2.2 ht, fun hts hcancel =>
      ⟨hrender hpaused (hnot ht) hts hcancel, fun st2 hst2 => ?_⟩⟩, fun hf hne => ?_, ?_⟩
  · obtain ⟨extra, htrace, hcases⟩ := recordFrame_calls inp st st2 hst2
    rw [newCalls_append _ _ _ htrace]
    rcases hcases with ⟨-, -, hentry⟩ | ⟨-, -, pre, model, callback, hextra, -, -, hmem, -⟩
    · exact hentry hpaused (hnot ht) hts hcancel
    · rw [hextra]
      simp only [List.mem_append]
      exact Or.inl (Or.inl hmem)
  · obtain ⟨st2, hout, hhr, htrace, -, -⟩ := hfail hpaused hf hne
    refine ⟨st2, hout, rfl, hhr, newCalls_append _ _ _ htrace, fun hc hev rest => ?_⟩
    have hst : ({ st with ErrorEvent := st.ErrorEvent || inp.ErrorEventSignalled } : RecorderLoop)
        = st := by
      have he : st.ErrorEvent = false := by
        cases h : st.ErrorEvent
        · rfl
        · rw [h] at hev
          cases hev
      rw [hev, ← he]
    have hcycle : recorderLoopCycle inp st = recordFrame inp st := by
      unfold recorderLoopCycle
      rw [if_neg (by rw [hc]; simp)]
      dsimp only
      rw [if_neg (by rw [hev]; simp), hst]
    show (match recorderLoopCycle inp st with
      | .next st => recorderLoop rest st
      | .exit point result st => some (point, result, st)
      | .undefined => none) = _
    rw [hcycle, hout]
  · intro st1 he
    unfold recorderLoopCycle at he
    split at he
    · cases he
    · dsimp only at he
      split at he
      · have hb := handleErrorEvent_exitPoint_block inp
          { st1 with ErrorEvent := st1.ErrorEvent || inp.ErrorEventSignalled }
        revert he hb
        generalize handleErrorEvent inp _ = b
        intro he hb
        cases b with
        | proceed st2 => exact ((recordFrame_exitPoint_acquire inp st2).1 he).2
        | continue_ st2 => cases he
        | exit point result st2 => exact absurd he hb
      · exact ((recordFrame_exitPoint_acquire inp _).1 he).2

/-- Witness for C24: an iteration of the example session whose acquisition times out
hands a frame to the encoder and goes on to the next iteration; an iteration whose
acquisition fails with `E_FAIL` ends the loop with `E_FAIL`. -/
theorem acquisition_timeout_is_not_an_error_witness :
    exampleLoop.mgr.m_IsPaused = false ∧
    timeoutInput.AcquireNextFrame.1 = DXGI_ERROR_WAIT_TIMEOUT ∧
    (recordFrame timeoutInput exampleLoop).exitPoint ≠ some .AcquireNextFrameFailed ∧
    (∃ st2, (recordFrame timeoutInput exampleLoop).state? = some st2 ∧
      Call.ProcessOverlays ∈ newCalls exampleLoop.mgr st2.mgr) ∧
    (∃ st2, recorderLoop [failedAcquireInput, frameInput] exampleLoop
      = some (.AcquireNextFrameFailed, REC_RESULT.ofHRESULT E_FAIL "", st2)) :=
  ⟨rfl, rfl,
    ((acquisition_timeout_is_not_an_error timeoutInput exampleLoop rfl).1 rfl).1,
    (Option.isSome_iff_exists.mp
      (rfl : (recordFrame timeoutInput exampleLoop).state?.isSome = true)).elim
      (fun st2 hst2 => ⟨st2, hst2,
        ((((acquisition_timeout_is_not_an_error timeoutInput exampleLoop rfl).1 rfl).2
          rfl rfl).2 st2 hst2)⟩),
    ((acquisition_timeout_is_not_an_error failedAcquireInput exampleLoop rfl).2.1
      (by decide) (by decide)).elim
      (fun st2 h => ⟨st2, h.2.2.2.2 rfl rfl [frameInput]⟩)⟩

/-! ## The time until the next frame (claim C25) -/

/-- C25: the timeout `GetTimeUntilNextFrameMillis` computes is the conversion to
milliseconds of `max(0, nominal - (timestamp - lastFrameStart))` in 100-nanosecond
units; it is never negative; it is zero once the deadline has passed, that is when the
time since the last frame start has reached the nominal frame duration; and when the
media time stamp is not before the last frame start it does not exceed the nominal
frame duration (a duration, so not negative) in milliseconds. -/
theorem GetTimeUntilNextFrameMillis_bounds (st : RecorderLoop) (timestamp : Int) :
    GetTimeUntilNextFrameMillis st timestamp
      = HundredNanosToMillisDouble
          (max 0 (st.videoFrameDuration100Nanos - (timestamp - st.lastFrameStartPos100Nanos))) ∧
    0 ≤ GetTimeUntilNextFrameMillis st timestamp ∧
    (st.videoFrameDuration100Nanos ≤ timestamp - st.lastFrameStartPos100Nanos →
      GetTimeUntilNextFrameMillis st timestamp = 0) ∧
    (st.lastFrameStartPos100Nanos ≤ timestamp → 0 ≤ st.videoFrameDuration100Nanos →
      GetTimeUntilNextFrameMillis st timestamp
        ≤ HundredNanosToMillisDouble st.videoFrameDuration100Nanos) := by
  refine ⟨rfl, ?_, ?_, ?_⟩
  · unfold GetTimeUntilNextFrameMillis HundredNanosToMillisDouble
    dsimp only
    apply div_nonneg
    · exact_mod_cast le_max_left 0 _
    · norm_num
  · intro h
    unfold GetTimeUntilNextFrameMillis HundredNanosToMillisDouble
    dsimp only
    rw [max_eq_left (by omega)]
    simp
  · intro hts hnom
    unfold GetTimeUntilNextFrameMillis HundredNanosToMillisDouble
    dsimp only
    apply div_le_div_of_nonneg_right _ (by norm_num)
    exact_mod_cast max_le hnom (by omega)

/-- Witness for C25: 10 ms after the last frame start of a 30 fps session the timeout is
23.3333 ms; 40 ms after it the timeout is zero. -/
theorem GetTimeUntilNextFrameMillis_bounds_witness :
    GetTimeUntilNextFrameMillis exampleLoop 100000 = 233333 / 10000 ∧
    GetTimeUntilNextFrameMillis exampleLoop 400000 = 0 ∧
    GetTimeUntilNextFrameMillis exampleLoop 100000
      ≤ HundredNanosToMillisDouble exampleLoop.videoFrameDuration100Nanos :=
  ⟨by
      rw [(GetTimeUntilNextFrameMillis_bounds exampleLoop 100000).1]
      show HundredNanosToMillisDouble (max 0 (333333 - (100000 - 0))) = _
      norm_num [HundredNanosToMillisDouble],
    (GetTimeUntilNextFrameMillis_bounds exampleLoop 400000).2.2.1 (by decide),
    (GetTimeUntilNextFrameMillis_bounds exampleLoop 100000).2.2.2 (by decide) (by decide)⟩

/-! ## Crop, resize and placement of an image (claims C26, C29) -/

theorem newReaderCalls_append (r t : ImageReader) (extra : List ReaderCall)
    (h : t.trace = r.trace ++ extra) : newReaderCalls r t = extra := by
  simp [newReaderCalls, h]

/-- The frame `WriteNextFrameToSharedSurface` works on: obtaining it makes no crop and no
resize, leaves the texture manager alone, and a frame comes with `S_OK`. -/
theorem acquired_frame_facts (a : ReaderAnswers) (r : ImageReader) (pTexture : Option Texture) :
    ∃ extra,
      (ImageReader.obtainFrame a r pTexture).2.2.trace = r.trace ++ extra ∧
      (∀ c ∈ extra, c.isCropOrResize = false ∧ c.isPlacement = false) ∧
      (ImageReader.obtainFrame a r pTexture).2.2.m_TextureManager
        = r.m_TextureManager ∧
      ((ImageReader.obtainFrame a r pTexture).2.1.isSome = true →
        (ImageReader.obtainFrame a r pTexture).1 = S_OK) := by
  unfold ImageReader.obtainFrame
  cases pTexture with
  | some texture => exact ⟨[], by simp, by simp, rfl, fun _ => rfl⟩
  | none =>
    dsimp only
    unfold ImageReader.AcquireNextFrame
    split
    · dsimp only
      split
      · exact ⟨[.CreateTexture2D], rfl,
          by simp [ReaderCall.isCropOrResize, ReaderCall.isPlacement], rfl,
          fun h => by simp at h⟩
      · exact ⟨[.CreateTexture2D, .CopyResource, .QueryPerformanceCounter],
          by simp [ImageReader.call],
          by simp [ReaderCall.isCropOrResize, ReaderCall.isPlacement], rfl, fun _ => rfl⟩
    · exact ⟨[], by simp, by simp, rfl, fun h => by simp at h⟩

theorem place_spec (r : ImageReader) (source : RECORDING_SOURCE_BASE) (hr : HRESULT)
    (offsetX offsetY : Int) (destinationRect : RECT) (pProcessedTexture frameDesc : Texture)
    (contentRect : RECT) (htm : r.m_TextureManager = true) :
    ∃ res placement, ImageReader.place r source hr offsetX offsetY destinationRect
        pProcessedTexture frameDesc contentRect = some res ∧
      res.1 = hr ∧
      res.2.trace = r.trace ++ placement ∧
      (∀ c ∈ placement, c.isCropOrResize = false) ∧
      placement =
        [.GetContentOffset source.Anchor destinationRect contentRect,
          .DrawTexture pProcessedTexture
            { left := destinationRect.left + offsetX
                + (GetContentOffset source.Anchor destinationRect contentRect).cx
              top := destinationRect.top + offsetY
                + (GetContentOffset source.Anchor destinationRect contentRect).cy
              right := destinationRect.left + offsetX
                + (GetContentOffset source.Anchor destinationRect contentRect).cx
                + MakeEven frameDesc.Width
              bottom := destinationRect.top + offsetY
                + (GetContentOffset source.Anchor destinationRect contentRect).cy
                + MakeEven frameDesc.Height },
          .SendBitmapCallback pProcessedTexture] := by
  unfold ImageReader.place
  simp [ImageReader.call, htm, ReaderCall.isCropOrResize]

theorem resizeAndPlace_spec (a : ReaderAnswers) (r : ImageReader)
    (source : RECORDING_SOURCE_BASE) (hr : HRESULT) (offsetX offsetY : Int)
    (destinationRect : RECT) (pProcessedTexture : Texture) (htm : r.m_TextureManager = true) :
    ∃ res before after,
      ImageReader.resizeAndPlace a r source hr offsetX offsetY destinationRect pProcessedTexture
        = some res ∧
      res.2.trace = r.trace ++ (before ++ after) ∧
      (∀ c ∈ before, c.isCropTexture = false ∧ c.isPlacement = false) ∧
      (∀ c ∈ after, c.isCropOrResize = false) := by
  unfold ImageReader.resizeAndPlace
  dsimp only
  split
  · rw [htm]
    simp only [Bool.not_true, Bool.false_eq_true, if_false]
    split
    · exact ⟨_, [.ResizeTexture pProcessedTexture
          { cx := RectWidth destinationRect, cy := RectHeight destinationRect } source.Stretch],
        [], rfl, by simp [ImageReader.call],
        by simp [ReaderCall.isCropTexture, ReaderCall.isPlacement], by simp⟩
    · obtain ⟨res, placement, hres, -, htrace, hplace, -⟩ := place_spec
        (r.call (.ResizeTexture pProcessedTexture
          { cx := RectWidth destinationRect, cy := RectHeight destinationRect } source.Stretch))
        source
        (a.ResizeTexture pProcessedTexture
          { cx := RectWidth destinationRect, cy := RectHeight destinationRect } source.Stretch).1
        offsetX offsetY destinationRect
        (a.ResizeTexture pProcessedTexture
          { cx := RectWidth destinationRect, cy := RectHeight destinationRect } source.Stretch).2.1
        pProcessedTexture
        (a.ResizeTexture pProcessedTexture
          { cx := RectWidth destinationRect, cy := RectHeight destinationRect } source.Stretch).2.2
        htm
      refine ⟨res, [.ResizeTexture pProcessedTexture
          { cx := RectWidth destinationRect, cy := RectHeight destinationRect } source.Stretch],
        placement, hres, ?_, by simp [ReaderCall.isCropTexture, ReaderCall.isPlacement], hplace⟩
      rw [htrace]
      simp [ImageReader.call]
  · obtain ⟨res, placement, hres, -, htrace, hplace, -⟩ := place_spec r source hr offsetX offsetY
      destinationRect pProcessedTexture pProcessedTexture destinationRect htm
    exact ⟨res, [], placement, hres, by rw [htrace]; simp, by simp, hplace⟩

theorem cropRect_eq_some_iff (source : RECORDING_SOURCE_BASE) (frame : Texture) (rect : RECT) :
    ImageReader.cropRect source frame = some rect ↔
      ∃ recordingSource, source.asRecordingSource = some recordingSource
        ∧ recordingSource.SourceRect = some rect ∧ IsValidRect rect = true
        ∧ (toUINT (RectWidth rect) ≠ frame.Width ∨ toUINT (RectHeight rect) ≠ frame.Height) := by
  unfold ImageReader.cropRect
  cases has : source.asRecordingSource with
  | none => simp
  | some recordingSource =>
    cases hsr : recordingSource.SourceRect with
    | none => simp [hsr]
    | some sourceRect =>
      by_cases hc : (IsValidRect sourceRect
          && (decide (toUINT (RectWidth sourceRect) ≠ frame.Width)
            || decide (toUINT (RectHeight sourceRect) ≠ frame.Height))) = true
      · simp only [hc, if_true, Option.some.injEq, exists_eq_left', hsr]
        constructor
        · rintro rfl
          exact ⟨rfl, by simpa using hc⟩
        · rintro ⟨h, -⟩
          exact h
      · simp only [hc, Option.some.injEq, exists_eq_left', hsr]
        constructor
        · intro h
          simp at h
        · rintro ⟨rfl, hv, hd⟩
          exfalso
          apply hc
          simpa using ⟨hv, hd⟩

/-- The steps of `WriteNextFrameToSharedSurface` on a reader with a source and a texture
manager, for a frame that is given or acquired: obtaining the frame, the crop if the
test of lines 116-118 asks for one, then steps that are neither a crop nor part of the
placement, then steps that are neither a crop nor a resize. -/
theorem WriteNextFrameToSharedSurface_calls (a : ReaderAnswers) (r : ImageReader)
    (offsetX offsetY : Int) (destinationRect : RECT) (pTexture : Option Texture)
    (source : RECORDING_SOURCE_BASE) (frame : Texture)
    (hsource : r.m_RecordingSource = some source) (htm : r.m_TextureManager = true)
    (hframe : (ImageReader.obtainFrame a r pTexture).2.1 = some frame) :
    ∃ res acquired before after,
      ImageReader.WriteNextFrameToSharedSurface a r offsetX offsetY destinationRect pTexture
        = some res ∧
      newReaderCalls r res.2
        = acquired
          ++ (match ImageReader.cropRect source frame with
              | some sourceRect => [ReaderCall.CropTexture frame sourceRect]
              | none => [])
          ++ before ++ after ∧
      (∀ c ∈ acquired, c.isCropOrResize = false ∧ c.isPlacement = false) ∧
      (∀ c ∈ before, c.isCropTexture = false ∧ c.isPlacement = false) ∧
      (∀ c ∈ after, c.isCropOrResize = false) := by
  unfold ImageReader.WriteNextFrameToSharedSurface
  simp only [hsource]
  obtain ⟨acq, htrace, hacq, htm1, hok⟩ := acquired_frame_facts a r pTexture
  revert htrace htm1 hok hframe
  generalize ImageReader.obtainFrame a r pTexture = A
  obtain ⟨hr0, f, r1⟩ := A
  intro hframe htrace htm1 hok
  dsimp only at hframe htrace htm1 hok ⊢
  subst hframe
  rw [hok rfl, FAILED_S_OK]
  simp only [Bool.false_eq_true, if_false]
  rw [htm] at htm1
  cases hcrop : ImageReader.cropRect source frame with
  | none =>
    obtain ⟨res, before, after, hres, hrt, hb, ha⟩ := resizeAndPlace_spec a r1 source S_OK
      offsetX offsetY destinationRect frame htm1
    refine ⟨res, acq, before, after, hres, ?_, hacq, hb, ha⟩
    apply newReaderCalls_append
    rw [hrt, htrace]
    simp
  | some sourceRect =>
    dsimp only
    rw [htm1]
    simp only [Bool.not_true, Bool.false_eq_true, if_false]
    split
    · refine ⟨_, acq, [], [], rfl, ?_, hacq, by simp, by simp⟩
      apply newReaderCalls_append
      simp [ImageReader.call, htrace]
    · obtain ⟨res, before, after, hres, hrt, hb, ha⟩ := resizeAndPlace_spec a
        (r1.call (.CropTexture frame sourceRect)) source (a.CropTexture frame sourceRect).1
        offsetX offsetY destinationRect
        (if (a.CropTexture frame sourceRect).1 = S_OK then (a.CropTexture frame sourceRect).2
          else frame) htm1
      refine ⟨res, acq, before, after, hres, ?_, hacq, hb, ha⟩
      apply newReaderCalls_append
      rw [hrt]
      simp [ImageReader.call, htrace]

theorem isCropTexture_of_isCropOrResize_false (c : ReaderCall) (h : c.isCropOrResize = false) :
    c.isCropTexture = false := by
  cases c <;> simp_all [ReaderCall.isCropOrResize, ReaderCall.isCropTexture]

theorem toUINT_of_range (x : Int) (h0 : 0 ≤ x) (h1 : x < 2 ^ 32) : toUINT x = x :=
  Int.emod_eq_of_lt h0 h1

/-- C26: in `WriteNextFrameToSharedSurface`, for a reader with a source and a texture
manager and a frame that is given or acquired, the function returns, and among its
steps there is a crop if and only if the source is a recording source with a configured
source rectangle that is valid and whose width or height differs from the width or
height of the frame; the crop is then the crop of that frame to that rectangle.  With
no source rectangle, an invalid one, or one of the size of the frame, no step is a
crop.  The steps split into a first part without any placement step (content offset,
draw, preview callback) and a second part without any crop or resize: crop and resize
come before the placement offset is computed.  The comparison is the one C++ makes
between a `LONG` and the `UINT` size of the frame; for a rectangle whose width and
height are below 2^32 it is the comparison of the numbers. -/
theorem crop_iff_source_rect_differs (a : ReaderAnswers) (r : ImageReader)
    (offsetX offsetY : Int) (destinationRect : RECT) (pTexture : Option Texture)
    (source : RECORDING_SOURCE_BASE) (frame : Texture)
    (hsource : r.m_RecordingSource = some source) (htm : r.m_TextureManager = true)
    (hframe : (ImageReader.obtainFrame a r pTexture).2.1 = some frame) :
    ∃ res,
      ImageReader.WriteNextFrameToSharedSurface a r offsetX offsetY destinationRect pTexture
        = some res ∧
      ((∃ texture rect, ReaderCall.CropTexture texture rect ∈ newReaderCalls r res.2) ↔
        ∃ recordingSource rect, source.asRecordingSource = some recordingSource
          ∧ recordingSource.SourceRect = some rect ∧ IsValidRect rect = true
          ∧ (toUINT (RectWidth rect) ≠ frame.Width ∨ toUINT (RectHeight rect) ≠ frame.Height)) ∧
      (∀ texture rect, ReaderCall.CropTexture texture rect ∈ newReaderCalls r res.2 →
        texture = frame ∧ ∃ recordingSource, source.asRecordingSource = some recordingSource
          ∧ recordingSource.SourceRect = some rect) ∧
      (source.asRecordingSource = none → ∀ c ∈ newReaderCalls r res.2, c.isCropTexture = false) ∧
      (∀ recordingSource, source.asRecordingSource = some recordingSource →
        (recordingSource.SourceRect = none →
          ∀ c ∈ newReaderCalls r res.2, c.isCropTexture = false) ∧
        (∀ rect, recordingSource.SourceRect = some rect →
          (IsValidRect rect = false → ∀ c ∈ newReaderCalls r res.2, c.isCropTexture = false) ∧
          (toUINT (RectWidth rect) = frame.Width → toUINT (RectHeight rect) = frame.Height →
            ∀ c ∈ newReaderCalls r res.2, c.isCropTexture = false) ∧
          (RectWidth rect < 2 ^ 32 → RectHeight rect < 2 ^ 32 →
            ((∃ texture cropped, ReaderCall.CropTexture texture cropped ∈ newReaderCalls r res.2) ↔
              IsValidRect rect = true
                ∧ (RectWidth rect ≠ frame.Width ∨ RectHeight rect ≠ frame.Height))))) ∧
      (∃ front back, newReaderCalls r res.2 = front ++ back
        ∧ (∀ c ∈ front, c.isPlacement = false) ∧ (∀ c ∈ back, c.isCropOrResize = false)) := by
  obtain ⟨res, acq, before, after, hres, hcalls, hacq, hb, ha⟩ :=
    WriteNextFrameToSharedSurface_calls a r offsetX offsetY destinationRect pTexture source frame
      hsource htm hframe
  refine ⟨res, hres, ?_⟩
  rw [hcalls]
  have hmem : ∀ texture rect,
      ReaderCall.CropTexture texture rect
        ∈ acq ++ (match ImageReader.cropRect source frame with
            | some sourceRect => [ReaderCall.CropTexture frame sourceRect]
            | none => []) ++ before ++ after ↔
      texture = frame ∧ ImageReader.cropRect source frame = some rect := by
    intro texture rect
    simp only [List.mem_append]
    constructor
    · rintro (((h | h) | h) | h)
      · have := (hacq _ h).1
        simp [ReaderCall.isCropOrResize] at this
      · cases hk : ImageReader.cropRect source frame with
        | none =>
          rw [hk] at h
          simp at h
        | some sourceRect =>
          rw [hk] at h
          simp only [List.mem_singleton, ReaderCall.CropTexture.injEq] at h
          exact ⟨h.1, by rw [h.2]⟩
      · have := (hb _ h).1
        simp [ReaderCall.isCropTexture] at this
      · have := ha _ h
        simp [ReaderCall.isCropOrResize] at this
    · rintro ⟨rfl, hk⟩
      rw [hk]
      simp
  have hnone : ImageReader.cropRect source frame = none →
      ∀ c ∈ acq ++ (match ImageReader.cropRect source frame with
            | some sourceRect => [ReaderCall.CropTexture frame sourceRect]
            | none => []) ++ before ++ after, c.isCropTexture = false := by
    intro hk c hc
    rw [hk] at hc
    simp only [List.append_nil, List.mem_append] at hc
    rcases hc with (h | h) | h
    · exact isCropTexture_of_isCropOrResize_false c (hacq c h).1
    · exact (hb c h).1
    · exact isCropTexture_of_isCropOrResize_false c (ha c h)
  have hnot : ∀ rect, ImageReader.cropRect source frame ≠ some rect →
      ∀ rect2, ImageReader.cropRect source frame = some rect2 → rect2 ≠ rect := by
    intro rect h rect2 h2 heq
    exact h (heq ▸ h2)
  have hcropNone : (∀ rect, ImageReader.cropRect source frame ≠ some rect) →
      ImageReader.cropRect source frame = none := by
    intro h
    cases hk : ImageReader.cropRect source frame with
    | none => rfl
    | some rect => exact absurd hk (h rect)
  refine ⟨?_, ?_, ?_, ?_, ?_⟩
  · constructor
    · rintro ⟨texture, rect, h⟩
      obtain ⟨recordingSource, h1, h2, h3, h4⟩ :=
        (cropRect_eq_some_iff source frame rect).mp ((hmem texture rect).mp h).2
      exact ⟨recordingSource, rect, h1, h2, h3, h4⟩
    · rintro ⟨recordingSource, rect, h1, h2, h3, h4⟩
      exact ⟨frame, rect, (hmem frame rect).mpr
        ⟨rfl, (cropRect_eq_some_iff source frame rect).mpr ⟨recordingSource, h1, h2, h3, h4⟩⟩⟩
  · intro texture rect h
    obtain ⟨ht, hk⟩ := (hmem texture rect).mp h
    obtain ⟨recordingSource, h1, h2, -, -⟩ := (cropRect_eq_some_iff source frame rect).mp hk
    exact ⟨ht, recordingSource, h1, h2⟩
  · intro hs
    apply hnone
    apply hcropNone
    intro rect hk
    obtain ⟨recordingSource, h1, -⟩ := (cropRect_eq_some_iff source frame rect).mp hk
    rw [hs] at h1
    cases h1
  · intro recordingSource hs
    refine ⟨?_, ?_⟩
    · intro hsr
      apply hnone
      apply hcropNone
      intro rect hk
      obtain ⟨rs2, h1, h2, -⟩ := (cropRect_eq_some_iff source frame rect).mp hk
      rw [hs] at h1
      cases h1
      rw [hsr] at h2
      cases h2
    · intro rect hsr
      have hother : ∀ rect2, ImageReader.cropRect source frame = some rect2 →
          IsValidRect rect = true
            ∧ (toUINT (RectWidth rect) ≠ frame.Width ∨ toUINT (RectHeight rect) ≠ frame.Height) := by
        intro rect2 hk
        obtain ⟨rs2, h1, h2, h3, h4⟩ := (cropRect_eq_some_iff source frame rect2).mp hk
        rw [hs] at h1
        cases h1
        rw [hsr] at h2
        cases h2
        exact ⟨h3, h4⟩
      refine ⟨?_, ?_, ?_⟩
      · intro hinvalid
        apply hnone
        apply hcropNone
        intro rect2 hk
        rw [(hother rect2 hk).1] at hinvalid
        cases hinvalid
      · intro hw hh
        apply hnone
        apply hcropNone
        intro rect2 hk
        rcases (hother rect2 hk).2 with h | h
        · exact h hw
        · exact h hh
      · intro hw hh
        constructor
        · rintro ⟨texture, cropped, h⟩
          obtain ⟨hv, hd⟩ := hother cropped ((hmem texture cropped).mp h).2
          have hvalid := hv
          unfold IsValidRect at hvalid
          simp only [Bool.and_eq_true, decide_eq_true_eq] at hvalid
          rw [toUINT_of_range _ (by unfold RectWidth; omega) hw,
            toUINT_of_range _ (by unfold RectHeight; omega) hh] at hd
          exact ⟨hv, hd⟩
        · rintro ⟨hv, hd⟩
          have hvalid := hv
          unfold IsValidRect at hvalid
          simp only [Bool.and_eq_true, decide_eq_true_eq] at hvalid
          refine ⟨frame, rect, (hmem frame rect).mpr
            ⟨rfl, (cropRect_eq_some_iff source frame rect).mpr ⟨recordingSource, hs, hsr, hv, ?_⟩⟩⟩
          rw [toUINT_of_range _ (by unfold RectWidth; omega) hw,
            toUINT_of_range _ (by unfold RectHeight; omega) hh]
          exact hd
  · refine ⟨acq ++ (match ImageReader.cropRect source frame with
            | some sourceRect => [ReaderCall.CropTexture frame sourceRect]
            | none => []) ++ before, after, rfl, ?_, ha⟩
    intro c hc
    simp only [List.mem_append] at hc
    rcases hc with (h | h) | h
    · exact (hacq c h).2
    · cases hk : ImageReader.cropRect source frame with
      | none =>
        rw [hk] at h
        simp at h
      | some sourceRect =>
        rw [hk] at h
        simp only [List.mem_singleton] at h
        rw [h]
        rfl
    · exact (hb c h).2

/-- Witness for C26: a 200 x 200 image read for a source cropped to 100 x 50 is cropped;
the same image read for a source without source rectangle is not. -/
theorem crop_iff_source_rect_differs_witness :
    croppingReader.m_TextureManager = true ∧
    (ImageReader.obtainFrame exampleAnswers croppingReader none).2.1
      = some { Width := 200, Height := 200 } ∧
    (∃ res,
      ImageReader.WriteNextFrameToSharedSurface exampleAnswers croppingReader 0 0
        { left := 0, top := 0, right := 300, bottom := 300 } none = some res ∧
      ReaderCall.CropTexture { Width := 200, Height := 200 }
        { left := 0, top := 0, right := 100, bottom := 50 } ∈ newReaderCalls croppingReader res.2) ∧
    (∃ res,
      ImageReader.WriteNextFrameToSharedSurface exampleAnswers exampleReader 0 0
        { left := 0, top := 0, right := 300, bottom := 300 } none = some res ∧
      ∀ c ∈ newReaderCalls exampleReader res.2, c.isCropTexture = false) := by
  obtain ⟨res, hres, hiff, hcrop, -, -, -⟩ :=
    crop_iff_source_rect_differs exampleAnswers croppingReader 0 0
      { left := 0, top := 0, right := 300, bottom := 300 } none
      (.source { exampleSource with
        SourceRect := some { left := 0, top := 0, right := 100, bottom := 50 } })
      { Width := 200, Height := 200 } rfl rfl rfl
  obtain ⟨res2, hres2, -, -, -, hcases, -⟩ :=
    crop_iff_source_rect_differs exampleAnswers exampleReader 0 0
      { left := 0, top := 0, right := 300, bottom := 300 } none
      (.source exampleSource) { Width := 200, Height := 200 } rfl rfl rfl
  refine ⟨rfl, rfl, ⟨res, hres, ?_⟩, ⟨res2, hres2, (hcases exampleSource rfl).1 rfl⟩⟩
  obtain ⟨texture, rect, hm⟩ := hiff.mpr ⟨_, _, rfl, rfl, by decide, Or.inl (by decide)⟩
  obtain ⟨ht, recordingSource, hrs, hsr⟩ := hcrop texture rect hm
  cases hrs
  cases hsr
  rw [ht] at hm
  exact hm

/-! ## The rectangle drawn after a resize (claim C29) -/

/-- C29, divergence of the code: for a 200 x 200 image without source rectangle, anchored
at the top-left corner, written with offset (0, 0) to the destination rectangle
(0, 0, 100, 100), the image is resized to content (0, 0, 100, 100), which fits in the
destination, and the content offset is (0, 0); the rectangle passed to `DrawTexture`
has its top-left corner at (0, 0), as the claim says, but is (0, 0, 200, 200): its size
is the size the image had before the resize, because `frameDesc` is read before the
resize and not again after it.  The rectangle does not lie within the destination. -/
theorem drawn_rectangle_has_size_before_resize :
    (ImageReader.WriteNextFrameToSharedSurface exampleAnswers
        { exampleReader with
          m_RecordingSource := some (.source { exampleSource with Anchor := .TopLeft }) } 0 0
        { left := 0, top := 0, right := 100, bottom := 100 } none).map
      (fun res => (res.1, res.2.trace))
      = some (S_OK,
          [ReaderCall.CreateTexture2D, ReaderCall.CopyResource, ReaderCall.QueryPerformanceCounter,
            ReaderCall.ResizeTexture { Width := 200, Height := 200 } { cx := 100, cy := 100 }
              .Uniform,
            ReaderCall.GetContentOffset .TopLeft
              { left := 0, top := 0, right := 100, bottom := 100 }
              { left := 0, top := 0, right := 100, bottom := 100 },
            ReaderCall.DrawTexture { Width := 100, Height := 100 }
              { left := 0, top := 0, right := 200, bottom := 200 },
            ReaderCall.SendBitmapCallback { Width := 100, Height := 100 }]) ∧
    (exampleAnswers.ResizeTexture { Width := 200, Height := 200 } { cx := 100, cy := 100 }
        .Uniform).2.2
      = { left := 0, top := 0, right := 100, bottom := 100 } ∧
    RECT.within { left := 0, top := 0, right := 100, bottom := 100 }
      { left := 0, top := 0, right := 100, bottom := 100 } ∧
    GetContentOffset .TopLeft { left := 0, top := 0, right := 100, bottom := 100 }
        { left := 0, top := 0, right := 100, bottom := 100 } = { cx := 0, cy := 0 } ∧
    (ImageReader.WriteNextFrameToSharedSurface exampleAnswers
        { exampleReader with
          m_RecordingSource := some (.source { exampleSource with Anchor := .TopLeft }) } 0 0
        { left := 0, top := 0, right := 100, bottom := 100 } none).map
      (fun res => drawnRects res.2.trace)
      = some [{ left := 0, top := 0, right := 200, bottom := 200 }] ∧
    ¬ RECT.within { left := 0, top := 0, right := 200, bottom := 200 }
      (RECT.translate { left := 0, top := 0, right := 100, bottom := 100 } 0 0) := by
  refine ⟨by decide, rfl, by decide, rfl, by decide, by decide⟩

/-! ## Restarts within the retry budget (claim C27) -/

theorem recordFrame_no_restart (inp : CycleInput) (st st2 : RecorderLoop)
    (h : (recordFrame inp st).state? = some st2) :
    ∃ extra, st2.mgr.trace = st.mgr.trace ++ extra ∧
      ∀ c ∈ extra, c.isStartCapture = false ∧ c ≠ Call.StopCapture := by
  obtain ⟨extra, htrace, hcases⟩ := recordFrame_calls inp st st2 h
  refine ⟨extra, htrace, ?_⟩
  rcases hcases with ⟨hwork, -, -⟩ | ⟨-, -, pre, model, callback, hextra, hpre, hcb, -, -⟩
  · exact fun c hc => (isLoopWork_facts c (hwork c hc)).2.2
  · intro c hc
    rw [hextra] at hc
    simp only [List.mem_append, List.mem_cons, List.mem_singleton, List.not_mem_nil,
      or_false] at hc
    rcases hc with (hc | hc | hc) | hc
    · exact (isLoopWork_facts c (hpre c hc)).2.2
    · rw [hc]
      exact ⟨rfl, by simp⟩
    · rw [hc]
      exact ⟨rfl, by simp⟩
    · exact (isLoopWork_facts c (hcb c hc)).2.2

theorem recorderLoopCycle_restarts (n : Int) (inp : CycleInput) (st st2 : RecorderLoop)
    (hN : ∀ r ∈ inp.captureResults, r.IsRecoverableError = true → r.NumberOfRetries = n)
    (hP : ∀ code, (inp.ProcessCaptureHRESULT code).IsRecoverableError = true →
      (inp.ProcessCaptureHRESULT code).NumberOfRetries = n)
    (hfuc : ¬ inp.AcquireNextFrame.2.FrameUpdateCount > 0)
    (h0 : 0 ≤ st.mgr.m_RestartCaptureCount) (hle : st.mgr.m_RestartCaptureCount ≤ n)
    (h : (recorderLoopCycle inp st).state? = some st2) :
    ∃ extra, st2.mgr.trace = st.mgr.trace ++ extra ∧
      st2.mgr.m_RestartCaptureCount
        = st.mgr.m_RestartCaptureCount + (extra.countP Call.isStartCapture : Int) ∧
      st2.mgr.m_RestartCaptureCount ≤ n ∧
      (st.mgr.m_RestartCaptureCount = n → Call.StopCapture ∉ extra) := by
  have hblock : ∀ st1 : RecorderLoop,
      (handleErrorEvent inp { st with ErrorEvent := st.ErrorEvent || inp.ErrorEventSignalled }
          = .proceed st1
        ∨ handleErrorEvent inp { st with ErrorEvent := st.ErrorEvent || inp.ErrorEventSignalled }
          = .continue_ st1
        ∨ ∃ point result,
          handleErrorEvent inp { st with ErrorEvent := st.ErrorEvent || inp.ErrorEventSignalled }
            = .exit point result st1) →
      ∃ extra, st1.mgr.trace = st.mgr.trace ++ extra ∧
        st1.mgr.m_RestartCaptureCount
          = st.mgr.m_RestartCaptureCount + (extra.countP Call.isStartCapture : Int) ∧
        st1.mgr.m_RestartCaptureCount ≤ n ∧
        (st.mgr.m_RestartCaptureCount = n → Call.StopCapture ∉ extra) := by
    intro st1 hb
    rcases handleErrorEvent_calls inp _ st1 hb with
      hsame | ⟨r, hsrc, hrecov, hbudget, e, he, -, -, hcount⟩
    · subst hsame
      exact ⟨[], by simp, by simp, hle, fun _ => by simp⟩
    · have hrn : r.NumberOfRetries = n := by
        rcases hsrc with hm | ⟨code, rfl⟩
        · exact hN r hm hrecov
        · exact hP code hrecov
      rw [hrn] at hbudget hcount
      have hlt : st.mgr.m_RestartCaptureCount < n := by
        by_contra hc
        exact hbudget ⟨le_trans h0 hle, not_lt.mp hc⟩
      refine ⟨e, he, ?_, ?_, fun heq => absurd heq (ne_of_lt hlt)⟩
      · rcases hcount with ⟨hno, hc⟩ | ⟨hone, hc⟩
        · have hz : e.countP Call.isStartCapture = 0 :=
            List.countP_eq_zero.mpr (fun c hm => by rw [hno c hm]; simp)
          rw [hz]
          simpa using hc
        · rw [hone, hc, if_pos (lt_of_le_of_lt h0 hlt)]
          rfl
      · rcases hcount with ⟨-, hc⟩ | ⟨-, hc⟩
        · rw [hc]
          exact hle
        · rw [hc, if_pos (lt_of_le_of_lt h0 hlt)]
          exact hlt
  have hframe : ∀ st1 st3 : RecorderLoop, (recordFrame inp st1).state? = some st3 →
      ∃ extra, st3.mgr.trace = st1.mgr.trace ++ extra ∧
        st3.mgr.m_RestartCaptureCount = st1.mgr.m_RestartCaptureCount ∧
        extra.countP Call.isStartCapture = 0 ∧ Call.StopCapture ∉ extra := by
    intro st1 st3 hf
    obtain ⟨extra, htrace, hkind⟩ := recordFrame_no_restart inp st1 st3 hf
    refine ⟨extra, htrace, ?_, List.countP_eq_zero.mpr (fun c hm => by rw [(hkind c hm).1]; simp),
      fun hm => (hkind _ hm).2 rfl⟩
    rw [(recordFrame_spec inp st1 st3 hf).1, if_neg (fun hc => hfuc hc.2.2)]
  rcases recorderLoopCycle_parts inp st st2 h with
    ⟨-, rfl⟩ | ⟨-, st1, hst1, -, hrec⟩ | ⟨-, -, hb⟩
  · exact ⟨[], by simp, by simp, hle, fun _ => by simp⟩
  · obtain ⟨ef, hft, hfc, hfz, hfs⟩ := hframe st1 st2 hrec
    rcases hst1 with ⟨rfl, -⟩ | ⟨-, hproceed⟩
    · refine ⟨ef, hft, by rw [hfc, hfz]; simp, by rw [hfc]; exact hle, fun _ => hfs⟩
    · obtain ⟨eb, hbt, hbc, hbl, hbs⟩ := hblock st1 (Or.inl hproceed)
      refine ⟨eb ++ ef, by rw [hft, hbt, List.append_assoc], ?_, by rw [hfc]; exact hbl, ?_⟩
      · rw [hfc, hbc, List.countP_append, hfz]
        simp
      · intro heq hm
        rcases List.mem_append.mp hm with hm | hm
        · exact hbs heq hm
        · exact hfs hm
  · rcases hb with hb | ⟨point, result, hb, -⟩
    · exact hblock st2 (Or.inr (Or.inl hb))
    · exact hblock st2 (Or.inr (Or.inr ⟨point, result, hb⟩))

theorem restartOrExit_exit (inp : CycleInput) (st st2 : RecorderLoop)
    (captureResult : CAPTURE_RESULT) (code : HRESULT) (point : LoopExit) (result : REC_RESULT)
    (h : restartOrExit inp st captureResult code = .exit point result st2) :
    point = .RetryCountExceeded
      ∧ result = REC_RESULT.ofHRESULT code "Retry count was exceeded, exiting" ∧ st2 = st
      ∧ 0 ≤ captureResult.NumberOfRetries
      ∧ captureResult.NumberOfRetries ≤ st.mgr.m_RestartCaptureCount := by
  unfold restartOrExit at h
  dsimp only at h
  split at h
  · rename_i hb
    cases h
    exact ⟨rfl, rfl, rfl, hb.1.1, hb.1.2⟩
  · split at h <;> cases h

theorem handleErrorEvent_retry_exit (inp : CycleInput) (st st2 : RecorderLoop)
    (result : REC_RESULT)
    (h : handleErrorEvent inp st = .exit .RetryCountExceeded result st2) :
    result.Error = "Retry count was exceeded, exiting" ∧ st2 = st ∧
    ∃ captureResult : CAPTURE_RESULT,
      (captureResult ∈ inp.captureResults
        ∨ ∃ code, captureResult = inp.ProcessCaptureHRESULT code) ∧
      captureResult.IsRecoverableError = true ∧
      0 ≤ captureResult.NumberOfRetries
        ∧ captureResult.NumberOfRetries ≤ st.mgr.m_RestartCaptureCount := by
  unfold handleErrorEvent at h
  split at h
  · split at h <;> cases h
  · split at h
    · rename_i captureResult hfind
      obtain ⟨-, hres, hst, h0, hle⟩ := restartOrExit_exit _ _ _ _ _ _ _ h
      have hpred := List.find?_some hfind
      simp only [Bool.and_eq_true] at hpred
      exact ⟨by rw [hres]; rfl, hst,
        captureResult, Or.inl (List.mem_of_find?_eq_some hfind), hpred.2, h0, hle⟩
    · split at h
      · dsimp only at h
        split at h
        · rename_i hrecov
          obtain ⟨-, hres, hst, h0, hle⟩ := restartOrExit_exit _ _ _ _ _ _ _ h
          exact ⟨by rw [hres]; rfl, hst, _, Or.inr ⟨st.hr, rfl⟩, hrecov, h0, hle⟩
        · cases h
      · cases h

theorem recorderLoopCycle_retry_exit (inp : CycleInput) (st st2 : RecorderLoop)
    (result : REC_RESULT)
    (h : recorderLoopCycle inp st = .exit .RetryCountExceeded result st2) :
    result.Error = "Retry count was exceeded, exiting" ∧ st2.mgr = st.mgr ∧
    ∃ captureResult : CAPTURE_RESULT,
      (captureResult ∈ inp.captureResults
        ∨ ∃ code, captureResult = inp.ProcessCaptureHRESULT code) ∧
      captureResult.IsRecoverableError = true ∧
      0 ≤ captureResult.NumberOfRetries
        ∧ captureResult.NumberOfRetries ≤ st.mgr.m_RestartCaptureCount := by
  rcases recorderLoopCycle_parts inp st st2 (by rw [h]; rfl) with
    ⟨hc, -⟩ | ⟨-, st1, -, hcycle, -⟩ | ⟨hc3, -, hb | ⟨point, res, hb, hcycle⟩⟩
  · unfold recorderLoopCycle at h
    rw [if_pos hc] at h
    cases h
  · have hne := recordFrame_exitPoint_retry inp st1
    rw [← hcycle, h] at hne
    exact absurd rfl hne
  · exfalso
    unfold recorderLoopCycle at h
    rw [if_neg (by rw [hc3]; simp)] at h
    dsimp only at h
    split at h
    · rw [hb] at h
      cases h
    · have hne := recordFrame_exitPoint_retry inp
        { st with ErrorEvent := st.ErrorEvent || inp.ErrorEventSignalled }
      rw [h] at hne
      exact hne rfl
  · rw [hcycle] at h
    cases h
    obtain ⟨hmsg, hst, r, hsrc, hrecov, h0, hle⟩ := handleErrorEvent_retry_exit _ _ _ _ hb
    exact ⟨hmsg, by rw [hst], r, hsrc, hrecov, h0, hle⟩

theorem recorderLoopState_restarts (n : Int) (inputs : List CycleInput) :
    ∀ st0 st : RecorderLoop,
      (∀ inp ∈ inputs,
        (∀ r ∈ inp.captureResults, r.IsRecoverableError = true → r.NumberOfRetries = n)
        ∧ (∀ code, (inp.ProcessCaptureHRESULT code).IsRecoverableError = true →
            (inp.ProcessCaptureHRESULT code).NumberOfRetries = n)
        ∧ ¬ inp.AcquireNextFrame.2.FrameUpdateCount > 0) →
      0 ≤ st0.mgr.m_RestartCaptureCount → st0.mgr.m_RestartCaptureCount ≤ n →
      recorderLoopState inputs st0 = some st →
      ∃ extra, st.mgr.trace = st0.mgr.trace ++ extra ∧
        st.mgr.m_RestartCaptureCount
          = st0.mgr.m_RestartCaptureCount + (extra.countP Call.isStartCapture : Int) ∧
        st.mgr.m_RestartCaptureCount ≤ n ∧
        (st0.mgr.m_RestartCaptureCount = n → Call.StopCapture ∉ extra) := by
  induction inputs with
  | nil =>
    intro st0 st _ _ hle hrun
    cases hrun
    exact ⟨[], by simp, by simp, hle, fun _ => by simp⟩
  | cons inp rest ih =>
    intro st0 st hin h0 hle hrun
    obtain ⟨hN, hP, hfuc⟩ := hin inp (List.mem_cons_self _ _)
    have hcycle := recorderLoopCycle_restarts n inp st0
    unfold recorderLoopState at hrun
    generalize hc : recorderLoopCycle inp st0 = o at hrun
    cases o with
    | undefined => cases hrun
    | exit point result st1 =>
      cases hrun
      exact hcycle st hN hP hfuc h0 hle (by rw [hc]; rfl)
    | next st1 =>
      dsimp only at hrun
      obtain ⟨e1, ht1, hc1, hl1, hs1⟩ := hcycle st1 hN hP hfuc h0 hle (by rw [hc]; rfl)
      have h01 : 0 ≤ st1.mgr.m_RestartCaptureCount := by
        rw [hc1]
        exact add_nonneg h0 (Int.natCast_nonneg _)
      obtain ⟨e2, ht2, hc2, hl2, hs2⟩ :=
        ih st1 st (fun i hi => hin i (List.mem_cons_of_mem _ hi)) h01 hl1 hrun
      refine ⟨e1 ++ e2, by rw [ht2, ht1, List.append_assoc], ?_, hl2, ?_⟩
      · rw [hc2, hc1, List.countP_append]
        push_cast
        ring
      · intro heq hm
        have hz : st1.mgr.m_RestartCaptureCount = n := by
          have hnn : (0 : Int) ≤ (e1.countP Call.isStartCapture : Int) := Int.natCast_nonneg _
          omega
        rcases List.mem_append.mp hm with hm | hm
        · exact hs1 heq hm
        · exact hs2 hz hm

theorem recorderLoop_state (inputs : List CycleInput) :
    ∀ (st0 : RecorderLoop) (point : LoopExit) (result : REC_RESULT) (st : RecorderLoop),
      recorderLoop inputs st0 = some (point, result, st) →
      recorderLoopState inputs st0 = some st := by
  induction inputs with
  | nil =>
    intro st0 point result st h
    cases h
  | cons inp rest ih =>
    intro st0 point result st h
    unfold recorderLoop at h
    unfold recorderLoopState
    generalize recorderLoopCycle inp st0 = o at h
    cases o with
    | undefined => cases h
    | exit p r st1 =>
      cases h
      rfl
    | next st1 => exact ih st1 point result st h

theorem recorderLoop_retry_exit (n : Int) (inputs : List CycleInput) :
    ∀ (st0 : RecorderLoop) (result : REC_RESULT) (st : RecorderLoop),
      (∀ inp ∈ inputs,
        (∀ r ∈ inp.captureResults, r.IsRecoverableError = true → r.NumberOfRetries = n)
        ∧ (∀ code, (inp.ProcessCaptureHRESULT code).IsRecoverableError = true →
            (inp.ProcessCaptureHRESULT code).NumberOfRetries = n)
        ∧ ¬ inp.AcquireNextFrame.2.FrameUpdateCount > 0) →
      recorderLoop inputs st0 = some (.RetryCountExceeded, result, st) →
      result.Error = "Retry count was exceeded, exiting" ∧ n ≤ st.mgr.m_RestartCaptureCount := by
  induction inputs with
  | nil =>
    intro st0 result st _ h
    cases h
  | cons inp rest ih =>
    intro st0 result st hin h
    unfold recorderLoop at h
    generalize hc : recorderLoopCycle inp st0 = o at h
    cases o with
    | undefined => cases h
    | exit p r st1 =>
      cases h
      obtain ⟨hmsg, hmgr, cr, hsrc, hrecov, -, hle⟩ :=
        recorderLoopCycle_retry_exit inp st0 st result hc
      obtain ⟨hN, hP, -⟩ := hin inp (List.mem_cons_self _ _)
      have hrn : cr.NumberOfRetries = n := by
        rcases hsrc with hm | ⟨code, rfl⟩
        · exact hN cr hm hrecov
        · exact hP code hrecov
      rw [hrn] at hle
      exact ⟨hmsg, by rw [hmgr]; exact hle⟩
    | next st1 => exact ih st1 result st (fun i hi => hin i (List.mem_cons_of_mem _ hi)) h

/-- C27: let every recoverable failure the iterations report permit `n >= 0` retries, let the
restart count be 0 at the start, and let no iteration report `FrameUpdateCount > 0`
(so the count is never reset).  Then, whatever the iterations answer, at every point
the loop reaches the number of `StartCapture` calls made, which is the number of
capture restarts completed, equals the restart count and is at most `n`; when the loop
returns through the retry-count check, the error text is "Retry count was exceeded,
exiting" and exactly `n` restarts were completed before; with `n = 0` no restart is
even attempted: `StopCapture`, the first call of a restart, is never made.  A restart
attempt in which `StartCapture` is not reached, because stopping or re-initialising
failed before, leaves the restart count as it was. -/
theorem restarts_within_budget (n : Int) (inputs : List CycleInput) (st0 st : RecorderLoop)
    (hn : 0 ≤ n) (hcount : st0.mgr.m_RestartCaptureCount = 0)
    (hinputs : ∀ inp ∈ inputs,
      (∀ r ∈ inp.captureResults, r.IsRecoverableError = true → r.NumberOfRetries = n)
      ∧ (∀ code, (inp.ProcessCaptureHRESULT code).IsRecoverableError = true →
          (inp.ProcessCaptureHRESULT code).NumberOfRetries = n)
      ∧ ¬ inp.AcquireNextFrame.2.FrameUpdateCount > 0)
    (hrun : recorderLoopState inputs st0 = some st) :
    ((newCalls st0.mgr st.mgr).countP Call.isStartCapture : Int)
      = st.mgr.m_RestartCaptureCount ∧
    ((newCalls st0.mgr st.mgr).countP Call.isStartCapture : Int) ≤ n ∧
    (n = 0 → Call.StopCapture ∉ newCalls st0.mgr st.mgr
      ∧ (newCalls st0.mgr st.mgr).countP Call.isStartCapture = 0) ∧
    (∀ result stE, recorderLoop inputs st0 = some (.RetryCountExceeded, result, stE) →
      result.Error = "Retry count was exceeded, exiting" ∧
      ((newCalls st0.mgr stE.mgr).countP Call.isStartCapture : Int) = n) ∧
    (∀ (a : RestartAnswers) (st1 : RecorderLoop) (result : CAPTURE_RESULT),
      (∀ c ∈ newCalls st1.mgr (RestartCapture a st1 result).mgr, c.isStartCapture = false) →
      (RestartCapture a st1 result).mgr.m_RestartCaptureCount
        = st1.mgr.m_RestartCaptureCount) := by
  obtain ⟨extra, htrace, hc, hle, hstop⟩ :=
    recorderLoopState_restarts n inputs st0 st hinputs (by rw [hcount]) (by rw [hcount]; exact hn)
      hrun
  rw [hcount, zero_add] at hc
  rw [newCalls_append _ _ _ htrace]
  refine ⟨hc.symm, by rw [← hc]; exact hle, ?_, ?_, ?_⟩
  · intro h0
    refine ⟨hstop (by rw [hcount, h0]), ?_⟩
    have : (extra.countP Call.isStartCapture : Int) ≤ 0 := by
      rw [← hc, ← h0]
      exact hle
    omega
  · intro result stE hexit
    obtain ⟨hmsg, hge⟩ := recorderLoop_retry_exit n inputs st0 result stE hinputs hexit
    have hst := recorderLoop_state inputs st0 _ _ _ hexit
    rw [hrun] at hst
    cases hst
    rw [newCalls_append _ _ _ htrace]
    exact ⟨hmsg, by omega⟩
  · intro a st1 result hno
    obtain ⟨e, he, -, -, hcases⟩ := RestartCapture_calls a st1 result
    rw [newCalls_append _ _ _ he] at hno
    rcases hcases with ⟨-, hsame⟩ | ⟨hone, -⟩
    · exact hsame
    · exfalso
      have hz : e.countP Call.isStartCapture = 0 :=
        List.countP_eq_zero.mpr (fun c hm => by rw [hno c hm]; simp)
      omega

/-- Witness for C27: three iterations of the example session in each of which the error
event is signalled for a recoverable failure that permits two retries and the frame
acquisition times out.  Two restarts are completed, the third iteration returns through
the retry-count check. -/
theorem restarts_within_budget_witness :
    exampleLoop.mgr.m_RestartCaptureCount = 0 ∧
    (∃ st, recorderLoopState [retryTimeoutInput, retryTimeoutInput, retryTimeoutInput] exampleLoop
        = some st ∧
      ((newCalls exampleLoop.mgr st.mgr).countP Call.isStartCapture : Int)
        = st.mgr.m_RestartCaptureCount ∧
      ((newCalls exampleLoop.mgr st.mgr).countP Call.isStartCapture : Int) ≤ 2 ∧
      ∀ result stE,
        recorderLoop [retryTimeoutInput, retryTimeoutInput, retryTimeoutInput] exampleLoop
          = some (.RetryCountExceeded, result, stE) →
        result.Error = "Retry count was exceeded, exiting" ∧
        ((newCalls exampleLoop.mgr stE.mgr).countP Call.isStartCapture : Int) = 2) ∧
    (recorderLoop [retryTimeoutInput, retryTimeoutInput, retryTimeoutInput] exampleLoop).map
        (fun r => (r.1, r.2.1.Error, r.2.2.mgr.m_RestartCaptureCount))
      = some (.RetryCountExceeded, "Retry count was exceeded, exiting", 2) := by
  have hinputs : ∀ inp ∈ [retryTimeoutInput, retryTimeoutInput, retryTimeoutInput],
      (∀ r ∈ inp.captureResults, r.IsRecoverableError = true → r.NumberOfRetries = 2)
      ∧ (∀ code, (inp.ProcessCaptureHRESULT code).IsRecoverableError = true →
          (inp.ProcessCaptureHRESULT code).NumberOfRetries = 2)
      ∧ ¬ inp.AcquireNextFrame.2.FrameUpdateCount > 0 := by
    intro inp hinp
    simp only [List.mem_cons, List.mem_singleton, List.not_mem_nil, or_false, or_self] at hinp
    subst hinp
    refine ⟨?_, ?_, by decide⟩
    · intro r hr _
      simp only [retryTimeoutInput, retryInput, List.mem_singleton] at hr
      rw [hr]
    · intro code hrecov
      cases hrecov
  obtain ⟨st, hst⟩ := Option.isSome_iff_exists.mp
    (rfl : (recorderLoopState [retryTimeoutInput, retryTimeoutInput, retryTimeoutInput]
      exampleLoop).isSome = true)
  obtain ⟨h1, h2, -, h4, -⟩ :=
    restarts_within_budget 2 _ exampleLoop st (by decide) rfl hinputs hst
  exact ⟨rfl, ⟨st, hst, h1, h2, h4⟩, rfl⟩

/-! ## Nominal durations and media time stamps (claim C28) -/

theorem recorderLoopCycle_durations (inp : CycleInput) (st st2 : RecorderLoop)
    (h : (recorderLoopCycle inp st).state? = some st2) :
    ∃ extra, st2.mgr.trace = st.mgr.trace ++ extra ∧
      ((extra.filterMap Call.grabbedDuration? = [] ∧ renderedFrames extra = []
          ∧ st2.lastFrameStartPos100Nanos = st.lastFrameStartPos100Nanos) ∨
        (extra.filterMap Call.grabbedDuration?
            = [inp.GetMediaTimeStamp.2 - st.lastFrameStartPos100Nanos]
          ∧ (∃ model, renderedFrames extra = [model])
          ∧ ((FAILED inp.RenderFrame = true
                ∧ st2.lastFrameStartPos100Nanos = st.lastFrameStartPos100Nanos
                ∧ (recorderLoopCycle inp st).exitPoint = some .RenderFrameFailed) ∨
              (FAILED inp.RenderFrame = false
                ∧ st2.lastFrameStartPos100Nanos = inp.GetMediaTimeStamp.2)))) := by
  have hnone : ∀ l : List Call, (∀ c ∈ l, c.grabbedDuration? = none ∧ c.renderedFrame? = none) →
      l.filterMap Call.grabbedDuration? = [] ∧ renderedFrames l = [] :=
    fun l hl => ⟨filterMap_eq_nil_of_forall _ l (fun c hc => (hl c hc).1),
      filterMap_eq_nil_of_forall _ l (fun c hc => (hl c hc).2)⟩
  have hwork : ∀ l : List Call, (∀ c ∈ l, c.isLoopWork = true) →
      l.filterMap Call.grabbedDuration? = [] ∧ renderedFrames l = [] :=
    fun l hl => hnone l (fun c hc =>
      ⟨(isLoopWork_facts c (hl c hc)).1, (isLoopWork_facts c (hl c hc)).2.1⟩)
  have hblock : ∀ st1 : RecorderLoop,
      (handleErrorEvent inp { st with ErrorEvent := st.ErrorEvent || inp.ErrorEventSignalled }
          = .proceed st1
        ∨ handleErrorEvent inp { st with ErrorEvent := st.ErrorEvent || inp.ErrorEventSignalled }
          = .continue_ st1
        ∨ ∃ point result,
          handleErrorEvent inp { st with ErrorEvent := st.ErrorEvent || inp.ErrorEventSignalled }
            = .exit point result st1) →
      ∃ extra, st1.mgr.trace = st.mgr.trace ++ extra ∧
        extra.filterMap Call.grabbedDuration? = [] ∧ renderedFrames extra = [] ∧
        st1.lastFrameStartPos100Nanos = st.lastFrameStartPos100Nanos := by
    intro st1 hb
    have hlast := (handleErrorEvent_spec inp _ st1 hb).2.1
    rcases handleErrorEvent_calls inp _ st1 hb with hsame | ⟨-, -, -, -, e, he, hkind, -, -⟩
    · subst hsame
      exact ⟨[], by simp, rfl, rfl, rfl⟩
    · exact ⟨e, he, (hnone e hkind).1, (hnone e hkind).2, hlast⟩
  have hframe : ∀ st1 st3 : RecorderLoop, (recordFrame inp st1).state? = some st3 →
      ∃ extra, st3.mgr.trace = st1.mgr.trace ++ extra ∧
        ((extra.filterMap Call.grabbedDuration? = [] ∧ renderedFrames extra = []
            ∧ st3.lastFrameStartPos100Nanos = st1.lastFrameStartPos100Nanos) ∨
          (extra.filterMap Call.grabbedDuration?
              = [inp.GetMediaTimeStamp.2 - st1.lastFrameStartPos100Nanos]
            ∧ (∃ model, renderedFrames extra = [model])
            ∧ ((FAILED inp.RenderFrame = true
                  ∧ st3.lastFrameStartPos100Nanos = st1.lastFrameStartPos100Nanos
                  ∧ (recordFrame inp st1).exitPoint = some .RenderFrameFailed) ∨
                (FAILED inp.RenderFrame = false
                  ∧ st3.lastFrameStartPos100Nanos = inp.GetMediaTimeStamp.2)))) := by
    intro st1 st3 hf
    obtain ⟨extra, htrace, hcases⟩ := recordFrame_calls inp st1 st3 hf
    refine ⟨extra, htrace, ?_⟩
    rcases hcases with ⟨hw, hl, -⟩ | ⟨-, -, pre, model, callback, hextra, hpre, hcb, -, hfin⟩
    · exact Or.inl ⟨(hwork extra hw).1, (hwork extra hw).2, hl⟩
    · refine Or.inr ⟨?_, ⟨model, ?_⟩, hfin⟩
      · rw [hextra, List.filterMap_append, List.filterMap_append, (hwork pre hpre).1,
          (hwork callback hcb).1]
        rfl
      · rw [hextra, renderedFrames_append, renderedFrames_append, (hwork pre hpre).2,
          (hwork callback hcb).2]
        rfl
  rcases recorderLoopCycle_parts inp st st2 h with
    ⟨-, rfl⟩ | ⟨-, st1, hst1, hcycle, hrec⟩ | ⟨-, -, hb⟩
  · exact ⟨[], by simp, Or.inl ⟨rfl, rfl, rfl⟩⟩
  · obtain ⟨ef, hft, hfcases⟩ := hframe st1 st2 hrec
    rw [← hcycle] at hfcases
    rcases hst1 with ⟨rfl, -⟩ | ⟨-, hproceed⟩
    · exact ⟨ef, hft, hfcases⟩
    · obtain ⟨eb, hbt, hbd, hbr, hbl⟩ := hblock st1 (Or.inl hproceed)
      refine ⟨eb ++ ef, by rw [hft, hbt, List.append_assoc], ?_⟩
      rw [List.filterMap_append, renderedFrames_append, hbd, hbr, List.nil_append,
        List.nil_append, ← hbl]
      exact hfcases
  · rcases hb with hb | ⟨point, result, hb, -⟩
    · obtain ⟨eb, hbt, hbd, hbr, hbl⟩ := hblock st2 (Or.inr (Or.inl hb))
      exact ⟨eb, hbt, Or.inl ⟨hbd, hbr, hbl⟩⟩
    · obtain ⟨eb, hbt, hbd, hbr, hbl⟩ := hblock st2 (Or.inr (Or.inr ⟨point, result, hb⟩))
      exact ⟨eb, hbt, Or.inl ⟨hbd, hbr, hbl⟩⟩

theorem recorderLoopState_durations (inputs : List CycleInput) :
    ∀ st0 st : RecorderLoop, recorderLoopState inputs st0 = some st →
      ∃ extra stamps, st.mgr.trace = st0.mgr.trace ++ extra ∧
        stamps.Sublist (inputs.map (fun inp => inp.GetMediaTimeStamp.2)) ∧
        extra.filterMap Call.grabbedDuration?
          = List.zipWith (fun stamp previous => stamp - previous) stamps
              (st0.lastFrameStartPos100Nanos :: stamps) ∧
        (renderedFrames extra).length = stamps.length := by
  induction inputs with
  | nil =>
    intro st0 st h
    cases h
    exact ⟨[], [], by simp, List.Sublist.slnil, rfl, rfl⟩
  | cons inp rest ih =>
    intro st0 st h
    unfold recorderLoopState at h
    generalize ho : recorderLoopCycle inp st0 = o at h
    cases o with
    | undefined => cases h
    | exit point result st1 =>
      cases h
      obtain ⟨e, he, hcases⟩ := recorderLoopCycle_durations inp st0 st (by rw [ho]; rfl)
      rcases hcases with ⟨hd, hr, -⟩ | ⟨hd, ⟨model, hr⟩, -⟩
      · exact ⟨e, [], he, List.nil_sublist _, by rw [hd]; rfl, by rw [hr]; rfl⟩
      · refine ⟨e, [inp.GetMediaTimeStamp.2], he, ?_, by rw [hd]; rfl, by rw [hr]; rfl⟩
        exact List.Sublist.cons₂ _ (List.nil_sublist _)
    | next st1 =>
      dsimp only at h
      obtain ⟨e, he, hcases⟩ := recorderLoopCycle_durations inp st0 st1 (by rw [ho]; rfl)
      obtain ⟨e2, stamps, he2, hsub, hd2, hr2⟩ := ih st1 st h
      rcases hcases with ⟨hd, hr, hl⟩ | ⟨hd, ⟨model, hr⟩, hfin⟩
      · refine ⟨e ++ e2, stamps, by rw [he2, he, List.append_assoc], List.Sublist.cons _ hsub,
          ?_, ?_⟩
        · rw [List.filterMap_append, hd, List.nil_append, hd2, hl]
        · rw [renderedFrames_append, hr, List.nil_append, hr2]
      · rcases hfin with ⟨-, -, hexit⟩ | ⟨-, hl⟩
        · rw [ho] at hexit
          cases hexit
        · refine ⟨e ++ e2, inp.GetMediaTimeStamp.2 :: stamps,
            by rw [he2, he, List.append_assoc], List.Sublist.cons₂ _ hsub, ?_, ?_⟩
          · rw [List.filterMap_append, hd, hd2, hl]
            rfl
          · rw [renderedFrames_append, hr]
            simp [hr2, Nat.add_comm]

theorem zipWith_sub_nonneg (stamps : List Int) :
    ∀ start : Int, List.Pairwise (fun a b => a ≤ b) (start :: stamps) →
      ∀ d ∈ List.zipWith (fun stamp previous => stamp - previous) stamps (start :: stamps),
        0 ≤ d := by
  induction stamps with
  | nil =>
    intro start _ d hd
    cases hd
  | cons t rest ih =>
    intro start hp d hd
    rw [List.zipWith_cons_cons] at hd
    rcases List.mem_cons.mp hd with hd | hd
    · rw [hd]
      have := (List.pairwise_cons.mp hp).1 t (List.mem_cons_self _ _)
      omega
    · exact ih t (List.pairwise_cons.mp hp).2 d hd

/-- C28: the nominal duration of a frame is the duration the loop passes to
`PrepareAndRenderFrame`, which passes it on to `GrabAudioFrame`.  In every iteration
that hands a frame to the encoder that duration is the media time stamp sampled in the
iteration minus the last-frame start position, and when `RenderFrame` succeeds the
last-frame start position is the media time stamp sampled in that iteration afterwards.
Over the loop of one session, started from the initial locals of `StartRecorderLoop`
(last-frame start position 0) and run over any answers of the environment, the nominal
durations passed are the differences between the time stamp sampled for the frame and
the time stamp sampled for the frame handed before it, with 0 in place of the latter
for the first frame; there is one duration per frame handed.  So every nominal
duration is non-negative when these time stamps, preceded by 0, are non-decreasing, in
particular when the time stamps answered in all iterations are. -/
theorem nominal_durations_from_timestamps (mgr : RecordingManager)
    (sources : List RECORDING_SOURCE) (overlays : List RECORDING_OVERLAY)
    (videoInputFrameRect : RECT) (videoOutputFrameSize : SIZE) (videoFrameDurationMillis : ℚ)
    (videoFrameDuration100Nanos : Int) (inputs : List CycleInput) (st : RecorderLoop)
    (h : recorderLoopState inputs
      (RecorderLoop.initial mgr sources overlays videoInputFrameRect videoOutputFrameSize
        videoFrameDurationMillis videoFrameDuration100Nanos) = some st) :
    (∀ (inp : CycleInput) (st1 st2 : RecorderLoop),
      (recorderLoopCycle inp st1).state? = some st2 →
      renderedFrames (newCalls st1.mgr st2.mgr) ≠ [] →
      (newCalls st1.mgr st2.mgr).filterMap Call.grabbedDuration?
          = [inp.GetMediaTimeStamp.2 - st1.lastFrameStartPos100Nanos] ∧
        (FAILED inp.RenderFrame = false →
          st2.lastFrameStartPos100Nanos = inp.GetMediaTimeStamp.2)) ∧
    (∃ stamps : List Int,
      stamps.Sublist (inputs.map (fun inp => inp.GetMediaTimeStamp.2)) ∧
      (newCalls mgr st.mgr).filterMap Call.grabbedDuration?
        = List.zipWith (fun stamp previous => stamp - previous) stamps (0 :: stamps) ∧
      (renderedFrames (newCalls mgr st.mgr)).length = stamps.length ∧
      (List.Pairwise (fun a b => a ≤ b) (0 :: stamps) →
        ∀ d ∈ (newCalls mgr st.mgr).filterMap Call.grabbedDuration?, 0 ≤ d)) ∧
    (List.Pairwise (fun a b => a ≤ b)
        (0 :: inputs.map (fun inp => inp.GetMediaTimeStamp.2)) →
      ∀ d ∈ (newCalls mgr st.mgr).filterMap Call.grabbedDuration?, 0 ≤ d) := by
  obtain ⟨e, stamps, he, hsub, hd, hr⟩ := recorderLoopState_durations inputs _ st h
  have hnew : newCalls mgr st.mgr = e := newCalls_append _ _ _ he
  have hzero : (RecorderLoop.initial mgr sources overlays videoInputFrameRect
      videoOutputFrameSize videoFrameDurationMillis
      videoFrameDuration100Nanos).lastFrameStartPos100Nanos = 0 := rfl
  rw [hzero] at hd
  rw [hnew]
  refine ⟨?_, ⟨stamps, hsub, hd, hr, ?_⟩, ?_⟩
  · intro inp st1 st2 hc hne
    obtain ⟨e1, he1, hcases⟩ := recorderLoopCycle_durations inp st1 st2 hc
    rw [newCalls_append _ _ _ he1] at hne ⊢
    rcases hcases with ⟨-, hnil, -⟩ | ⟨hdur, -, hfin⟩
    · exact absurd hnil hne
    · refine ⟨hdur, fun hok => ?_⟩
      rcases hfin with ⟨hF, -⟩ | ⟨-, hl⟩
      · rw [hF] at hok
        cases hok
      · exact hl
  · intro hp
    rw [hd]
    exact zipWith_sub_nonneg stamps 0 hp
  · intro hp
    rw [hd]
    exact zipWith_sub_nonneg stamps 0 (hp.sublist (List.Sublist.cons₂ _ hsub))

/-- Witness for C28: two iterations of the example session with frames sampled at 33 ms
and 66 ms of media time: both nominal durations are 33 ms. -/
theorem nominal_durations_from_timestamps_witness :
    ∃ st, recorderLoopState [frameInput, laterFrameInput] exampleLoop = some st ∧
      (newCalls recordingManager st.mgr).filterMap Call.grabbedDuration? = [330000, 330000] ∧
      st.lastFrameStartPos100Nanos = 660000 ∧
      ∀ d ∈ (newCalls recordingManager st.mgr).filterMap Call.grabbedDuration?, 0 ≤ d :=
  (Option.isSome_iff_exists.mp
    (rfl : (recorderLoopState [frameInput, laterFrameInput] exampleLoop).isSome = true)).elim
    (fun st hst =>
      ⟨st, hst,
        by
          have : (recorderLoopState [frameInput, laterFrameInput] exampleLoop).map
              (fun st => (newCalls recordingManager st.mgr).filterMap Call.grabbedDuration?)
              = some [330000, 330000] := rfl
          rw [hst] at this
          simpa using this,
        by
          have : (recorderLoopState [frameInput, laterFrameInput] exampleLoop).map
              (fun st => st.lastFrameStartPos100Nanos) = some 660000 := rfl
          rw [hst] at this
          simpa using this,
        (nominal_durations_from_timestamps recordingManager [exampleSource] []
          { left := 0, top := 0, right := 1920, bottom := 1080 } { cx := 1920, cy := 1080 }
          (1000 / 30) 333333 [frameInput, laterFrameInput] st hst).2.2 (by decide)⟩)

/-! ## Paused implies recording (claim C30) -/

theorem recordTaskContinuation_flags (text : ErrorText) (s : RecordingManager)
    (taskResult : Option REC_RESULT) (initialResult : REC_RESULT)
    (frameDelays : List (String × Int)) :
    (recordTaskContinuation text s taskResult initialResult frameDelays).m_IsRecording = false ∧
    (recordTaskContinuation text s taskResult initialResult frameDelays).m_IsPaused = false := by
  unfold recordTaskContinuation
  dsimp only
  split
  · rw [(SetRecordingCompleteStatus_calls _ _ _ _).1, (SetRecordingCompleteStatus_calls _ _ _ _).2.1]
    exact ⟨rfl, rfl⟩
  · exact ⟨rfl, rfl⟩

theorem BeginRecording_paused_of_idle (host : Host) (s : RecordingManager) (path : String)
    (stream : Bool) (hrec : s.m_IsRecording = false) :
    (BeginRecording host s path stream).2.m_IsPaused = s.m_IsPaused := by
  rw [BeginRecording_of_idle host s path stream hrec]
  have hc := (ConfigureOutputDir_frame host { s with m_EncoderResult := S_FALSE } path).2.1
  split_ifs
  · simp [RecordingManager.callIf]
  · exact hc
  · simp only [RecordingManager.callIf]
    exact hc
  · simp only [RecordingManager.call]
    exact hc

/-- Every step keeps the invariant that a paused manager is recording. -/
theorem ControlStep_apply_invariant (step : ControlStep) (s t : RecordingManager)
    (hinv : s.m_IsPaused = true → s.m_IsRecording = true) (h : step.apply s = some t) :
    t.m_IsPaused = true → t.m_IsRecording = true := by
  cases step with
  | BeginRecording host path stream =>
    simp only [ControlStep.apply, Option.some.injEq] at h
    subst h
    cases hrec : s.m_IsRecording
    · intro hp
      rw [BeginRecording_paused_of_idle host s path stream hrec] at hp
      rw [hinv hp] at hrec
      cases hrec
    · intro _
      exact (BeginRecording_of_recording host s path stream hrec).2.1
  | PauseRecording =>
    simp only [ControlStep.apply, Option.some.injEq] at h
    subst h
    by_cases hc : s.m_IsRecording = true ∧ s.m_IsPaused = false
    · intro _
      exact (PauseRecording_flags s hc.1 hc.2).1
    · rw [PauseRecording_noop s hc]
      exact hinv
  | ResumeRecording =>
    simp only [ControlStep.apply, Option.some.injEq] at h
    subst h
    by_cases hc : s.m_IsRecording = true ∧ s.m_IsPaused = true
    · intro _
      exact (ResumeRecording_flags s hc.1 hc.2).1
    · rw [ResumeRecording_noop s hc]
      exact hinv
  | EndRecording =>
    simp only [ControlStep.apply, Option.some.injEq] at h
    subst h
    unfold EndRecording
    split
    · exact hinv
    · exact hinv
  | TakeSnapshot host path stream pTexture =>
    simp only [ControlStep.apply, Option.map_eq_some'] at h
    obtain ⟨r, hr, rfl⟩ := h
    obtain ⟨e, he, -⟩ := TakeSnapshot_noFrameHanded host s path stream pTexture r hr
    rw [he]
    exact hinv
  | taskCompleted text taskResult initialResult frameDelays =>
    simp only [ControlStep.apply, Option.some.injEq] at h
    subst h
    intro hp
    rw [(recordTaskContinuation_flags text s taskResult initialResult frameDelays).2] at hp
    cases hp

/-- C30: starting from the idle state (not recording, not paused), after every sequence of
`BeginRecording`, `PauseRecording`, `ResumeRecording`, `EndRecording`, `TakeSnapshot`
and session-task completion steps with any arguments and any answers of the host, a
paused manager is recording; and `EndRecording` on a manager that is not recording
returns the manager as it was. -/
theorem paused_implies_recording (steps : List ControlStep) (s0 s : RecordingManager)
    (_hrec : s0.m_IsRecording = false) (hpaused : s0.m_IsPaused = false)
    (hrun : runSteps steps s0 = some s) :
    (s.m_IsPaused = true → s.m_IsRecording = true) ∧
    (∀ t : RecordingManager, t.m_IsRecording = false → EndRecording t = t) := by
  constructor
  · have hgen : ∀ (steps : List ControlStep) (s0 s : RecordingManager),
        (s0.m_IsPaused = true → s0.m_IsRecording = true) → runSteps steps s0 = some s →
        s.m_IsPaused = true → s.m_IsRecording = true := by
      intro steps
      induction steps with
      | nil =>
        intro s0 s hinv hrun
        simp only [runSteps, Option.some.injEq] at hrun
        subst hrun
        exact hinv
      | cons step rest ih =>
        intro s0 s hinv hrun
        unfold runSteps at hrun
        cases hstep : step.apply s0 with
        | none =>
          rw [hstep] at hrun
          cases hrun
        | some s1 =>
          rw [hstep] at hrun
          exact ih s1 s (ControlStep_apply_invariant step s0 s1 hinv hstep) hrun
    refine hgen steps s0 s ?_ hrun
    intro hp
    rw [hpaused] at hp
    cases hp
  · intro t ht
    unfold EndRecording
    rw [ht]
    rfl

/-- Witness for C30: a session that is begun, paused, used for a snapshot, resumed by a
second `BeginRecording`, ended and completed, on a manager whose collaborators exist. -/
theorem paused_implies_recording_witness :
    ∃ s, runSteps exampleSteps { recordingManager with m_IsRecording := false } = some s ∧
      (s.m_IsPaused = true → s.m_IsRecording = true) ∧
      EndRecording idleManager = idleManager :=
  (Option.isSome_iff_exists.mp
    (by decide :
      (runSteps exampleSteps { recordingManager with m_IsRecording := false }).isSome = true)).elim
    (fun s hs =>
      ⟨s, hs,
        (paused_implies_recording exampleSteps { recordingManager with m_IsRecording := false } s
          rfl rfl hs).1,
        (paused_implies_recording exampleSteps { recordingManager with m_IsRecording := false } s
          rfl rfl hs).2 idleManager rfl⟩)

/-! ## Reset of the restart count (claim C12) -/

end ScreenRecorderLib
